import Mathlib

/-!
# libvirt-exporter: the rate-derivation code of the domain collectors

A shallow embedding of `pkg/exporter/prometheus-libvirt-exporter.go`:
`CollectDomainBlockDeviceInfo` with its `diskTimeCache`,
`CollectDomainVCPUInfo` with its `vcpuTimeCache`, the network and memory
collectors, `CollectDomain`, `DomainsFromLibvirt`, `CollectStoragePoolInfo`,
`CollectFromLibvirt` and `Describe`.

Modelling conventions.

* `float64` is the type `F64`: a finite value is an exact rational, and the
  two infinities and NaN are separate values, so that a division by zero is
  visible in the result.  Rounding is not modelled.  The sign of a zero is not
  tracked; every divisor of the code that can be zero is a `+0` (the seconds
  of a zero `Duration`, or the conversion of an unsigned integer).
* A `time.Time` is the reading of the monotonic clock in nanoseconds and a
  `time.Duration` a number of nanoseconds, both `Int`; `Time.Sub` saturates
  like Go's.
* `uint64` values are `Nat`, and the one subtraction the code does on them is
  taken modulo `2^64`.  `int64` values are `Int`; the code does no arithmetic
  on them before converting to `float64`.
* A Go map is a function into `Option`.
* The channel `ch` is the list of metrics sent, oldest first.
* What libvirt and the clock answer during a call is an argument of the call.
* A failed type assertion `param.Value.I.(T)` panics; a collector reports it in
  the `exit` field of its result.
-/

namespace LibvirtExporter

/-! ## float64 -/

/-- Values of Go's `float64`: exact finite values, the infinities, NaN. -/
inductive F64 where
  | fin (q : ℚ)
  | inf (negative : Bool)
  | nan
  deriving DecidableEq

namespace F64

/-- Conversion `float64(i)` of a signed integer. -/
def ofInt (i : Int) : F64 := fin (i : ℚ)

/-- Conversion `float64(n)` of an unsigned integer. -/
def ofNat (n : Nat) : F64 := fin (n : ℚ)

/-- Unary minus. -/
def neg : F64 → F64
  | fin q => fin (-q)
  | inf s => inf (!s)
  | nan => nan

/-- Addition `x + y`. -/
def add : F64 → F64 → F64
  | fin x, fin y => fin (x + y)
  | fin _, inf s => inf s
  | inf s, fin _ => inf s
  | inf s, inf t => if s = t then inf s else nan
  | nan, _ => nan
  | _, nan => nan

/-- Subtraction `x - y`. -/
def sub (x y : F64) : F64 := add x (neg y)

/-- Multiplication `x * y`. -/
def mul : F64 → F64 → F64
  | fin x, fin y => fin (x * y)
  | fin x, inf s => if x = 0 then nan else inf (xor s (decide (x < 0)))
  | inf s, fin y => if y = 0 then nan else inf (xor s (decide (y < 0)))
  | inf s, inf t => inf (xor s t)
  | nan, _ => nan
  | _, nan => nan

/-- Division `x / y`; a zero divisor is `+0`. -/
def div : F64 → F64 → F64
  | fin x, fin y =>
    if y = 0 then (if x = 0 then nan else inf (decide (x < 0))) else fin (x / y)
  | fin _, inf _ => fin 0
  | inf s, fin y => inf (xor s (decide (y < 0)))
  | inf _, inf _ => nan
  | nan, _ => nan
  | _, nan => nan

/-- Comparison `x < y`; false when an operand is NaN. -/
def lt : F64 → F64 → Bool
  | fin x, fin y => decide (x < y)
  | fin _, inf s => !s
  | inf s, fin _ => s
  | inf s, inf t => s && !t
  | nan, _ => false
  | _, nan => false

/-- Comparison `x >= 0`; false for NaN. -/
def nonneg : F64 → Bool
  | fin x => decide (0 ≤ x)
  | inf s => !s
  | nan => false

end F64

/-! ## time.Time and time.Duration -/

/-- Largest `time.Duration`, in nanoseconds. -/
def maxDuration : Int := 9223372036854775807

/-- Smallest `time.Duration`, in nanoseconds. -/
def minDuration : Int := -9223372036854775808

/-- Method `t.Sub(u)` of `time.Time` on two readings of the monotonic clock:
the difference, saturated to the range of `time.Duration`. -/
def Time.Sub (t u : Int) : Int :=
  if t - u > maxDuration then maxDuration
  else if t - u < minDuration then minDuration
  else t - u

/-- Method `d.Seconds()` of `time.Duration`: whole seconds plus the nanosecond
rest over `1e9`. -/
def Duration.Seconds (d : Int) : F64 :=
  let sec := Int.tdiv d 1000000000
  let nsec := Int.tmod d 1000000000
  F64.add (F64.ofInt sec) (F64.div (F64.ofInt nsec) (F64.fin 1000000000))

/-! ## Metrics -/

/-- Descriptors declared in the `var` block of the exporter. -/
inductive Desc where
  | libvirtUpDesc | libvirtDomainNumbers
  | libvirtDomainBlockRdTotalTimeSecondsDesc | libvirtDomainBlockWrTotalTimeSecondsDesc
  | libvirtDomainMemoryStatDiskCachesBytesDesc | libvirtDomainMemoryStatUsedPercentDesc
  | libvirtDomainState | libvirtDomainInfoMaxMemDesc | libvirtDomainInfoMemoryDesc
  | libvirtDomainInfoNrVirtCpuDesc | libvirtDomainInfoCpuTimeDesc
  | libvirtDomainMemoryStatsSwapInBytesDesc | libvirtDomainMemoryStatsSwapOutBytesDesc
  | libvirtDomainMemoryStatsUnusedBytesDesc | libvirtDomainMemoryStatsAvailableInBytesDesc
  | libvirtDomainMemoryStatsUsableBytesDesc | libvirtDomainMemoryStatsRssBytesDesc
  | libvirtDomainMemoryStatFreePercentDesc | libvirtDomainMemoryStatUsednocachePercentDesc
  | libvirtDomainBlockStatsInfo
  | libvirtDomainBlockStatsRdBytesDesc | libvirtDomainBlockStatsRdReqDesc
  | libvirtDomainBlockStatsWrBytesDesc | libvirtDomainBlockStatsWrReqDesc
  | libvirtDomainBlockCapacityBytesDesc
  | libvirtDomainBlockTotalBytesSecDesc | libvirtDomainBlockWriteBytesSecDesc
  | libvirtDomainBlockReadBytesSecDesc | libvirtDomainBlockTotalIopsSecDesc
  | libvirtDomainBlockWriteIopsSecDesc | libvirtDomainBlockReadIopsSecDesc
  | libvirtDomainBlockReadBytesPercentDesc | libvirtDomainBlockWriteBytesPercentDesc
  | libvirtDomainBlockTotalBytesPercentDesc | libvirtDomainBlockReadRequestsPercentDesc
  | libvirtDomainBlockWriteRequestsPercentDesc | libvirtDomainBlockTotalRequestsPercentDesc
  | libvirtDomainInterfaceInfo
  | libvirtDomainInterfaceRxBytesDesc | libvirtDomainInterfaceRxPacketsDesc
  | libvirtDomainInterfaceRxErrsDesc | libvirtDomainInterfaceRxDropDesc
  | libvirtDomainInterfaceTxBytesDesc | libvirtDomainInterfaceTxPacketsDesc
  | libvirtDomainInterfaceTxErrsDesc | libvirtDomainInterfaceTxDropDesc
  | libvirtDomainVCPUStatsCurrent | libvirtDomainVCPUStatsMaximum
  | libvirtDomainVCPUStatsState | libvirtDomainVCPUStatsTime
  | libvirtDomainVCPUStatsWait | libvirtDomainVCPUStatsDelay
  | libvirtDomainVCPUStatsSysPercent | libvirtDomainVCPUStatsStealPercent
  | libvirtStoragePoolState | libvirtStoragePoolCapacity
  | libvirtStoragePoolAllocation | libvirtStoragePoolAvailable
  | libvirtDomainInfoDesc | libvirtDomainOpenstackInfoDesc
  deriving DecidableEq, Repr

/-- Value types of `prometheus.MustNewConstMetric`. -/
inductive ValueType where
  | CounterValue
  | GaugeValue
  deriving DecidableEq, Repr

/-- One call `prometheus.MustNewConstMetric(desc, valueType, value, labels...)`. -/
structure Metric where
  desc : Desc
  valueType : ValueType
  value : F64
  labels : List String
  deriving DecidableEq

/-! ## Typed parameters of go-libvirt -/

/-- Dynamic value `param.Value.I` of a `libvirt.TypedParam`. -/
inductive TypedParamValue where
  | int32 (v : Int)
  | uint32 (v : Nat)
  | int64 (v : Int)
  | uint64 (v : Nat)
  | float64 (v : F64)
  | boolean (v : Bool)
  | str (v : String)
  deriving DecidableEq

/-- Record `libvirt.TypedParam`. -/
structure TypedParam where
  Field : String
  Value : TypedParamValue
  deriving DecidableEq

/-- Type assertion `v.(uint64)`; `none` is the panic. -/
def TypedParamValue.asUint64 : TypedParamValue → Option Nat
  | .uint64 v => some v
  | _ => none

/-- Type assertion `v.(int64)`; `none` is the panic. -/
def TypedParamValue.asInt64 : TypedParamValue → Option Int
  | .int64 v => some v
  | _ => none

/-- Type assertion `v.(uint32)`; `none` is the panic. -/
def TypedParamValue.asUint32 : TypedParamValue → Option Nat
  | .uint32 v => some v
  | _ => none

/-- Type assertion `v.(int32)`; `none` is the panic. -/
def TypedParamValue.asInt32 : TypedParamValue → Option Int
  | .int32 v => some v
  | _ => none

/-- How a collector (or one round of its loop) ends. -/
inductive Exit where
  | next
  | returned (err : Option String)
  | panicked
  deriving DecidableEq

/-! ## Block devices -/

/-- Element `<target>` of a disk in `libvirt_schema`. -/
structure DiskTarget where
  Device : String
  Bus : String
  deriving DecidableEq

/-- Element `<driver>` of a disk in `libvirt_schema`. -/
structure DiskDriver where
  Name : String
  Type_ : String
  Cache : String
  Discard : String
  deriving DecidableEq

/-- Element `<source>` of a disk in `libvirt_schema`. -/
structure DiskSource where
  File : String
  Protocol : String
  deriving DecidableEq

/-- Element `<disk>` of `libvirt_schema`. -/
structure Disk where
  Device : String
  Type_ : String
  Driver : DiskDriver
  Source : DiskSource
  Target : DiskTarget
  Serial : String
  deriving DecidableEq

/-- Struct `diskCache`. -/
structure diskCache where
  ReadBytes : F64
  ReadRequests : F64
  WriteBytes : F64
  WriteRequests : F64
  Timestamp : Int
  deriving DecidableEq

/-- Type of the global `diskTimeCache`, a `map[string]diskCache`. -/
abbrev DiskTimeCache := String → Option diskCache

/-- Result `(rRdReq, rRdBytes, rWrReq, rWrBytes)` of `l.DomainBlockStats`. -/
structure BlockStats where
  rRdReq : Int
  rRdBytes : Int
  rWrReq : Int
  rWrBytes : Int
  deriving DecidableEq

/-- What libvirt and the clock answer while one disk is processed. -/
structure DiskCalls where
  DomainBlockStats : Except String BlockStats
  DomainGetBlockInfo : Except String Nat
  DomainGetBlockIOTune : Except String (List TypedParam)
  DomainBlockStatsFlags : Except String (List TypedParam)
  now : Int

/-- Limits read from the block I/O tune parameters. -/
structure Limits where
  totalBytesSec : F64
  readBytesSec : F64
  writeBytesSec : F64
  totalIopsSec : F64
  writeIopsSec : F64
  readIopsSec : F64
  deriving DecidableEq

/-- Declaration `var totalBytesSec, ... float64`: all zero. -/
def Limits.zero : Limits := ⟨.fin 0, .fin 0, .fin 0, .fin 0, .fin 0, .fin 0⟩

/-- Body of `for _, param := range blockIOTune`; `none` is a failed assertion. -/
def tuneParam (lim : Limits) (param : TypedParam) : Option Limits := do
  let lim ← if param.Field = "total_bytes_sec"
    then param.Value.asUint64.map (fun v => { lim with totalBytesSec := F64.ofNat v })
    else some lim
  let lim ← if param.Field = "read_bytes_sec"
    then param.Value.asUint64.map (fun v => { lim with readBytesSec := F64.ofNat v })
    else some lim
  let lim ← if param.Field = "write_bytes_sec"
    then param.Value.asUint64.map (fun v => { lim with writeBytesSec := F64.ofNat v })
    else some lim
  let lim ← if param.Field = "total_iops_sec"
    then param.Value.asUint64.map (fun v => { lim with totalIopsSec := F64.ofNat v })
    else some lim
  let lim ← if param.Field = "read_iops_sec"
    then param.Value.asUint64.map (fun v => { lim with readIopsSec := F64.ofNat v })
    else some lim
  let lim ← if param.Field = "write_iops_sec"
    then param.Value.asUint64.map (fun v => { lim with writeIopsSec := F64.ofNat v })
    else some lim
  pure lim

/-- Loop `for _, param := range blockIOTune`. -/
def decodeTune : List TypedParam → Limits → Option Limits
  | [], lim => some lim
  | param :: rest, lim =>
    match tuneParam lim param with
    | none => none
    | some lim1 => decodeTune rest lim1

/-- Body of `for _, param := range blockStats` on `(readTotalTime, writeTotalTime)`. -/
def statsParam (acc : F64 × F64) (param : TypedParam) : Option (F64 × F64) := do
  let acc ← if param.Field = "rd_total_times"
    then param.Value.asInt64.map (fun v => (F64.ofInt v, acc.2))
    else some acc
  let acc ← if param.Field = "wr_total_times"
    then param.Value.asInt64.map (fun v => (acc.1, F64.ofInt v))
    else some acc
  pure acc

/-- Loop `for _, param := range blockStats`. -/
def decodeStats : List TypedParam → F64 × F64 → Option (F64 × F64)
  | [], acc => some acc
  | param :: rest, acc =>
    match statsParam acc param with
    | none => none
    | some acc1 => decodeStats rest acc1

/-- Snapshot written to `diskTimeCache` from the current counters. -/
def diskSnapshot (bs : BlockStats) (currentTime : Int) : diskCache :=
  { ReadBytes := F64.ofInt bs.rRdBytes
    ReadRequests := F64.ofInt bs.rRdReq
    WriteBytes := F64.ofInt bs.rWrBytes
    WriteRequests := F64.ofInt bs.rWrReq
    Timestamp := currentTime }

/-- The four counter metrics sent right after `l.DomainBlockStats`. -/
def blockCounterMetrics (bs : BlockStats) (promDiskLabels : List String) : List Metric :=
  [ ⟨.libvirtDomainBlockStatsRdBytesDesc, .CounterValue, F64.ofInt bs.rRdBytes, promDiskLabels⟩,
    ⟨.libvirtDomainBlockStatsRdReqDesc, .CounterValue, F64.ofInt bs.rRdReq, promDiskLabels⟩,
    ⟨.libvirtDomainBlockStatsWrBytesDesc, .CounterValue, F64.ofInt bs.rWrBytes, promDiskLabels⟩,
    ⟨.libvirtDomainBlockStatsWrReqDesc, .CounterValue, F64.ofInt bs.rWrReq, promDiskLabels⟩ ]

/-- Capacity, the six limits and the two total times, in the order sent. -/
def blockLimitMetrics (capacityBytes : Nat) (lim : Limits) (readTotalTime writeTotalTime : F64)
    (promDiskLabels : List String) : List Metric :=
  [ ⟨.libvirtDomainBlockCapacityBytesDesc, .GaugeValue, F64.ofNat capacityBytes, promDiskLabels⟩,
    ⟨.libvirtDomainBlockTotalBytesSecDesc, .GaugeValue, lim.totalBytesSec, promDiskLabels⟩,
    ⟨.libvirtDomainBlockWriteBytesSecDesc, .GaugeValue, lim.writeBytesSec, promDiskLabels⟩,
    ⟨.libvirtDomainBlockReadBytesSecDesc, .GaugeValue, lim.readBytesSec, promDiskLabels⟩,
    ⟨.libvirtDomainBlockTotalIopsSecDesc, .GaugeValue, lim.totalIopsSec, promDiskLabels⟩,
    ⟨.libvirtDomainBlockWriteIopsSecDesc, .GaugeValue, lim.writeIopsSec, promDiskLabels⟩,
    ⟨.libvirtDomainBlockReadIopsSecDesc, .GaugeValue, lim.readIopsSec, promDiskLabels⟩,
    ⟨.libvirtDomainBlockRdTotalTimeSecondsDesc, .CounterValue, readTotalTime, promDiskLabels⟩,
    ⟨.libvirtDomainBlockWrTotalTimeSecondsDesc, .CounterValue, writeTotalTime, promDiskLabels⟩ ]

/-- The statements from `timeDelta := ...` to the last `*_usage_percent` block. -/
def diskUsagePercentMetrics (cached : diskCache) (bs : BlockStats) (currentTime : Int)
    (lim : Limits) (promDiskLabels : List String) : List Metric :=
  let timeDelta := Duration.Seconds (Time.Sub currentTime cached.Timestamp)
  let deltaReadBytes := F64.sub (F64.ofInt bs.rRdBytes) cached.ReadBytes
  let deltaReadRequests := F64.sub (F64.ofInt bs.rRdReq) cached.ReadRequests
  let deltaWriteBytes := F64.sub (F64.ofInt bs.rWrBytes) cached.WriteBytes
  let deltaWriteRequests := F64.sub (F64.ofInt bs.rWrReq) cached.WriteRequests
  let deltaTotalRequests := F64.add deltaReadRequests deltaWriteRequests
  (if lim.readIopsSec ≠ F64.fin 0 then
    let diskReadRequestsSec := F64.div deltaReadRequests timeDelta
    let diskReadRequestsPercent := F64.mul (F64.div diskReadRequestsSec lim.readIopsSec) (F64.fin 100)
    [⟨.libvirtDomainBlockReadRequestsPercentDesc, .GaugeValue, diskReadRequestsPercent, promDiskLabels⟩]
   else [])
  ++ (if lim.writeIopsSec ≠ F64.fin 0 then
    let diskWriteRequestsSec := F64.div deltaWriteRequests timeDelta
    let diskWriteRequestsPercent := F64.mul (F64.div diskWriteRequestsSec lim.writeIopsSec) (F64.fin 100)
    [⟨.libvirtDomainBlockWriteRequestsPercentDesc, .GaugeValue, diskWriteRequestsPercent, promDiskLabels⟩]
   else [])
  ++ (if lim.totalIopsSec ≠ F64.fin 0 then
    let diskTotalRequestsSec := F64.div deltaTotalRequests timeDelta
    let diskTotalRequestsPercent := F64.mul (F64.div diskTotalRequestsSec lim.totalIopsSec) (F64.fin 100)
    [⟨.libvirtDomainBlockTotalRequestsPercentDesc, .GaugeValue, diskTotalRequestsPercent, promDiskLabels⟩]
   else [])
  ++ (if lim.readBytesSec ≠ F64.fin 0 then
    let diskReadBytesSec := F64.div deltaReadBytes timeDelta
    let diskReadBytesPercent := F64.mul (F64.div diskReadBytesSec lim.readBytesSec) (F64.fin 100)
    [⟨.libvirtDomainBlockReadBytesPercentDesc, .GaugeValue, diskReadBytesPercent, promDiskLabels⟩]
   else [])
  ++ (if lim.writeBytesSec ≠ F64.fin 0 then
    let diskWriteBytesSec := F64.div deltaWriteBytes timeDelta
    let diskWriteBytesPercent := F64.mul (F64.div diskWriteBytesSec lim.writeBytesSec) (F64.fin 100)
    [⟨.libvirtDomainBlockWriteBytesPercentDesc, .GaugeValue, diskWriteBytesPercent, promDiskLabels⟩]
   else [])
  ++ (if lim.totalBytesSec ≠ F64.fin 0 then
    let deltaTotalBytes := F64.add deltaReadBytes deltaWriteBytes
    let diskTotalBytesPercent := F64.mul (F64.div deltaTotalBytes lim.totalBytesSec) (F64.fin 100)
    [⟨.libvirtDomainBlockTotalBytesPercentDesc, .GaugeValue, diskTotalBytesPercent, promDiskLabels⟩]
   else [])

/-- Labels and metric of `libvirtDomainBlockStatsInfo`, sent last for a disk. -/
def blockInfoMetric (promLabels : List String) (disk : Disk) : Metric :=
  ⟨.libvirtDomainBlockStatsInfo, .GaugeValue, F64.fin 1,
    promLabels ++ [disk.Type_, disk.Target.Bus, disk.Driver.Name, disk.Driver.Type_,
      disk.Driver.Cache, disk.Driver.Discard, disk.Source.File, disk.Source.Protocol,
      disk.Target.Device, disk.Serial]⟩

/-- Outcome of one round of the loop over the disks. -/
structure DiskRound where
  sent : List Metric
  cache : DiskTimeCache
  exit : Exit

/-- One round of `for _, disk := range domain.libvirtSchema.Devices.Disks`. -/
def blockDeviceRound (domainName : String) (promLabels : List String) (disk : Disk)
    (l : DiskCalls) (diskTimeCache : DiskTimeCache) : DiskRound :=
  if disk.Device = "cdrom" ∨ disk.Device = "fd" then
    ⟨[], diskTimeCache, .next⟩
  else
  match l.DomainBlockStats with
  | .error err => ⟨[], diskTimeCache, .returned (some err)⟩
  | .ok bs =>
  let promDiskLabels := promLabels ++ [disk.Target.Device]
  let sent1 := blockCounterMetrics bs promDiskLabels
  match l.DomainGetBlockInfo with
  | .error err => ⟨sent1, diskTimeCache, .returned (some err)⟩
  | .ok capacityBytes =>
  match l.DomainGetBlockIOTune with
  | .error err => ⟨sent1, diskTimeCache, .returned (some err)⟩
  | .ok blockIOTune =>
  match l.DomainBlockStatsFlags with
  | .error err => ⟨sent1, diskTimeCache, .returned (some err)⟩
  | .ok blockStats =>
  match decodeTune blockIOTune Limits.zero with
  | none => ⟨sent1, diskTimeCache, .panicked⟩
  | some lim =>
  match decodeStats blockStats (F64.fin 0, F64.fin 0) with
  | none => ⟨sent1, diskTimeCache, .panicked⟩
  | some (readTotalTime, writeTotalTime) =>
  let sent2 := sent1 ++ blockLimitMetrics capacityBytes lim readTotalTime writeTotalTime promDiskLabels
  let currentTime := l.now
  match diskTimeCache domainName with
  | none =>
    ⟨sent2, Function.update diskTimeCache domainName (some (diskSnapshot bs currentTime)),
      .returned none⟩
  | some cached =>
    ⟨sent2 ++ diskUsagePercentMetrics cached bs currentTime lim promDiskLabels
        ++ [blockInfoMetric promLabels disk],
      Function.update diskTimeCache domainName (some (diskSnapshot bs currentTime)),
      .next⟩

/-- Loop of `CollectDomainBlockDeviceInfo` over the disks and their answers. -/
def blockDeviceLoop (domainName : String) (promLabels : List String) :
    List (Disk × DiskCalls) → DiskTimeCache → DiskRound
  | [], diskTimeCache => ⟨[], diskTimeCache, .returned none⟩
  | (disk, l) :: rest, diskTimeCache =>
    let r := blockDeviceRound domainName promLabels disk l diskTimeCache
    match r.exit with
    | .next =>
      let r2 := blockDeviceLoop domainName promLabels rest r.cache
      ⟨r.sent ++ r2.sent, r2.cache, r2.exit⟩
    | e => ⟨r.sent, r.cache, e⟩

/-- Function `CollectDomainBlockDeviceInfo`; `domainName` is `domain.domainName` and
`disks` is `domain.libvirtSchema.Devices.Disks` with the answers for each disk. -/
def CollectDomainBlockDeviceInfo (domainName : String) (promLabels : List String)
    (disks : List (Disk × DiskCalls)) (diskTimeCache : DiskTimeCache) : DiskRound :=
  blockDeviceLoop domainName promLabels disks diskTimeCache

/-! ## vCPUs -/

/-- Struct `vcpuCache`. -/
structure vcpuCache where
  lastTime : Nat
  lastDelay : Nat
  lastTimestamp : Int
  deriving DecidableEq

/-- Zero value of `vcpuCache`, which a lookup of a missing key gives. -/
def vcpuCache.zero : vcpuCache := ⟨0, 0, 0⟩

/-- Inner map `vcpuTimeCache[domainName]`, a `map[int]vcpuCache`. -/
abbrev VcpuMap := Int → Option vcpuCache

/-- Type of the global `vcpuTimeCache`, a `map[string]map[int]vcpuCache`. -/
abbrev VcpuTimeCache := String → Option VcpuMap

/-- Subtraction of two `uint64` values, modulo `2^64`. -/
def subUint64 (a b : Nat) : Nat :=
  Int.toNat (((a : Int) - (b : Int)) % 18446744073709551616)

/-- Rest of `s` after the literal `p`, when `s` starts with it. -/
def dropLit : List Char → List Char → Option (List Char)
  | [], s => some s
  | _ :: _, [] => none
  | p :: ps, c :: cs => if p = c then dropLit ps cs else none

/-- Whether some suffix of `s` satisfies `f`: an unanchored search. -/
def anySuffix (f : List Char → Bool) : List Char → Bool
  | [] => f []
  | c :: cs => f (c :: cs) || anySuffix f cs

/-- Match of `a`, one character other than a newline, then `b`, at the start of `s`. -/
def matchDotAt (a b : String) (s : List Char) : Bool :=
  match dropLit a.toList s with
  | some (c :: rest) => (c != Char.ofNat 10) && (dropLit b.toList rest).isSome
  | _ => false

/-- Regular expression `vcpu.current`, method `MatchString`. -/
def currentMatchString (s : List Char) : Bool := anySuffix (matchDotAt "vcpu" "current") s

/-- Regular expression `vcpu.maximum`, method `MatchString`. -/
def maximumMatchString (s : List Char) : Bool := anySuffix (matchDotAt "vcpu" "maximum") s

/-- Character class `\w`. -/
def isWordChar (c : Char) : Bool := c.isAlphanum || c == Char.ofNat 95

/-- Match of `vcpu\.(\d+)\.(\w+)` at the start of `s`: the two groups. -/
def vcpuSubmatchAt (s : List Char) : Option (List Char × List Char) :=
  match dropLit "vcpu.".toList s with
  | none => none
  | some rest =>
    match rest.takeWhile Char.isDigit, dropLit ".".toList (rest.dropWhile Char.isDigit) with
    | d :: ds, some rest2 =>
      match rest2.takeWhile isWordChar with
      | [] => none
      | w :: ws => some (d :: ds, w :: ws)
    | _, _ => none

/-- Method `FindStringSubmatch` of `vcpu\.(\d+)\.(\w+)`: the groups of the leftmost
match.  The expression `vcpu\.\d+\.\w+` of `vcpu_metrics` matches the same strings. -/
def vcpuFindStringSubmatch : List Char → Option (List Char × List Char)
  | [] => none
  | c :: cs =>
    match vcpuSubmatchAt (c :: cs) with
    | some r => some r
    | none => vcpuFindStringSubmatch cs

/-- Function `strconv.Atoi` on a string of decimal digits, its error dropped:
the value, or the largest `int` when it does not fit. -/
def Atoi (digits : List Char) : Int :=
  let n : Nat := digits.foldl (fun acc c => 10 * acc + (c.toNat - 48)) 0
  if n > 9223372036854775807 then 9223372036854775807 else (n : Int)

/-- Outcome of the processing of parameters on the inner map of a domain. -/
structure VcpuRound where
  sent : List Metric
  cache : VcpuMap
  panicked : Bool

/-- Body of `for _, param := range stat.Params`; `now` is what `time.Now()`
answers in the third case of the switch. -/
def vcpuParamRound (promLabels : List String) (param : TypedParam) (now : Int)
    (m : VcpuMap) : VcpuRound :=
  if currentMatchString param.Field.toList then
    match param.Value.asUint32 with
    | none => ⟨[], m, true⟩
    | some metric_value =>
      ⟨[⟨.libvirtDomainVCPUStatsCurrent, .GaugeValue, F64.ofNat metric_value, promLabels⟩], m, false⟩
  else if maximumMatchString param.Field.toList then
    match param.Value.asUint32 with
    | none => ⟨[], m, true⟩
    | some metric_value =>
      ⟨[⟨.libvirtDomainVCPUStatsMaximum, .GaugeValue, F64.ofNat metric_value, promLabels⟩], m, false⟩
  else
  match vcpuFindStringSubmatch param.Field.toList with
  | none => ⟨[], m, false⟩
  | some (match1, match2) =>
    let promVCPULabels := promLabels ++ [String.mk match1]
    let vcpuIndex := Atoi match1
    let currentTime := now
    let cached := (m vcpuIndex).getD vcpuCache.zero
    let found := (m vcpuIndex).isSome
    if match2 = "state".toList then
      match param.Value.asInt32 with
      | none => ⟨[], m, true⟩
      | some metric_value =>
        ⟨[⟨.libvirtDomainVCPUStatsState, .GaugeValue, F64.ofInt metric_value, promVCPULabels⟩],
          m, false⟩
    else if match2 = "time".toList then
      match param.Value.asUint64 with
      | none => ⟨[], m, true⟩
      | some metric_value =>
        let sent1 : List Metric :=
          [⟨.libvirtDomainVCPUStatsTime, .CounterValue,
            F64.div (F64.ofNat metric_value) (F64.fin 1000000000), promVCPULabels⟩]
        let sent2 : List Metric :=
          if found then
            let timeDelta := Duration.Seconds (Time.Sub currentTime cached.lastTimestamp)
            if F64.lt (F64.fin 0) timeDelta then
              let cputimeDelta :=
                F64.div (F64.ofNat (subUint64 metric_value cached.lastTime)) (F64.fin 1000000000)
              let cpuPercent := F64.mul (F64.div cputimeDelta timeDelta) (F64.fin 100)
              [⟨.libvirtDomainVCPUStatsSysPercent, .GaugeValue, cpuPercent,
                promLabels ++ [String.mk match1]⟩]
            else []
          else []
        ⟨sent1 ++ sent2,
          Function.update m vcpuIndex (some ⟨metric_value, cached.lastDelay, currentTime⟩),
          false⟩
    else if match2 = "wait".toList then
      match param.Value.asUint64 with
      | none => ⟨[], m, true⟩
      | some metric_value =>
        let sent1 : List Metric :=
          [⟨.libvirtDomainVCPUStatsWait, .CounterValue,
            F64.div (F64.ofNat metric_value) (F64.fin 1000000000), promVCPULabels⟩]
        if found then
          let timeDelta := Duration.Seconds (Time.Sub currentTime cached.lastTimestamp)
          let sent2 : List Metric :=
            if F64.lt (F64.fin 0) timeDelta then
              let delayDelta :=
                F64.div (F64.ofNat (subUint64 metric_value cached.lastDelay)) (F64.fin 1000000000)
              let stealPercent := F64.mul (F64.div delayDelta timeDelta) (F64.fin 100)
              [⟨.libvirtDomainVCPUStatsStealPercent, .GaugeValue, stealPercent, promVCPULabels⟩]
            else []
          ⟨sent1 ++ sent2,
            Function.update m vcpuIndex (some ⟨cached.lastTime, metric_value, currentTime⟩),
            false⟩
        else ⟨sent1, m, false⟩
    else if match2 = "delay".toList then
      match param.Value.asUint64 with
      | none => ⟨[], m, true⟩
      | some metric_value =>
        ⟨[⟨.libvirtDomainVCPUStatsDelay, .CounterValue,
            F64.div (F64.ofNat metric_value) (F64.fin 1000000000), promVCPULabels⟩], m, false⟩
    else ⟨[], m, false⟩

/-- Record `libvirt.DomainStatsRecord`: its parameters, each with the reading
of the clock at the time the loop comes to it. -/
structure DomainStatsRecord where
  Params : List (TypedParam × Int)

/-- Loop `for _, param := range stat.Params`. -/
def vcpuParamsLoop (promLabels : List String) :
    List (TypedParam × Int) → VcpuMap → VcpuRound
  | [], m => ⟨[], m, false⟩
  | (param, now) :: rest, m =>
    let r := vcpuParamRound promLabels param now m
    if r.panicked then r
    else
      let r2 := vcpuParamsLoop promLabels rest r.cache
      ⟨r.sent ++ r2.sent, r2.cache, r2.panicked⟩

/-- Loop `for _, stat := range stats`. -/
def vcpuStatsLoop (promLabels : List String) :
    List DomainStatsRecord → VcpuMap → VcpuRound
  | [], m => ⟨[], m, false⟩
  | stat :: rest, m =>
    let r := vcpuParamsLoop promLabels stat.Params m
    if r.panicked then r
    else
      let r2 := vcpuStatsLoop promLabels rest r.cache
      ⟨r.sent ++ r2.sent, r2.cache, r2.panicked⟩

/-- Outcome of `CollectDomainVCPUInfo`. -/
structure VcpuResult where
  sent : List Metric
  cache : VcpuTimeCache
  exit : Exit

/-- Function `CollectDomainVCPUInfo`; `domainName` is `domain.libvirtDomain.Name` and
`stats` is the answer of `l.ConnectGetAllDomainStats`. -/
def CollectDomainVCPUInfo (domainName : String) (promLabels : List String)
    (stats : Except String (List DomainStatsRecord)) (vcpuTimeCache : VcpuTimeCache) :
    VcpuResult :=
  match stats with
  | .error err => ⟨[], vcpuTimeCache, .returned (some err)⟩
  | .ok stats =>
    let inner : VcpuMap := (vcpuTimeCache domainName).getD (fun _ => none)
    let r := vcpuStatsLoop promLabels stats inner
    ⟨r.sent, Function.update vcpuTimeCache domainName (some r.cache),
      if r.panicked then .panicked else .returned none⟩

/-! ## Network interfaces -/

/-- Element `<target>` of an interface in `libvirt_schema`. -/
structure InterfaceTarget where
  Device : String
  deriving DecidableEq

/-- Element `<alias>` of an interface in `libvirt_schema`. -/
structure InterfaceAlias where
  Name : String
  deriving DecidableEq

/-- Element `<source>` of an interface in `libvirt_schema`. -/
structure InterfaceSource where
  Bridge : String
  deriving DecidableEq

/-- Element `<mac>` of an interface in `libvirt_schema`. -/
structure InterfaceMAC where
  Address : String
  deriving DecidableEq

/-- Element `<model>` of an interface in `libvirt_schema`. -/
structure InterfaceModel where
  Type_ : String
  deriving DecidableEq

/-- Element `<mtu>` of an interface in `libvirt_schema`. -/
structure InterfaceMTU where
  Size : String
  deriving DecidableEq

/-- Element `<interface>` of `libvirt_schema`. -/
structure Interface where
  Type_ : String
  Source : InterfaceSource
  Target : InterfaceTarget
  MAC : InterfaceMAC
  Model : InterfaceModel
  MTU : InterfaceMTU
  Alias : InterfaceAlias
  deriving DecidableEq

/-- Result of `l.DomainInterfaceStats`, in the order returned. -/
structure InterfaceStats where
  rRxBytes : Int
  rRxPackets : Int
  rRxErrs : Int
  rRxDrop : Int
  rTxBytes : Int
  rTxPackets : Int
  rTxErrs : Int
  rTxDrop : Int
  deriving DecidableEq

/-- Call `strings.Replace(s, old, new, 1)` for a non-empty `old`: the first
occurrence replaced. -/
def replaceFirst (old new : List Char) : List Char → List Char
  | [] => []
  | c :: cs =>
    match dropLit old (c :: cs) with
    | some rest => new ++ rest
    | none => c :: replaceFirst old new cs

/-- Outcome of a collector that touches no cache. -/
structure PlainResult where
  sent : List Metric
  exit : Exit

/-- The nine metrics of one interface, in the order sent. -/
def interfaceMetrics (promLabels : List String) (iface : Interface) (st : InterfaceStats) :
    List Metric :=
  let newAliasName := String.mk (replaceFirst "net".toList "eth".toList iface.Alias.Name.toList)
  let promInterfaceLabels := promLabels ++ [iface.Target.Device, newAliasName]
  let promInterfaceInfoLabels := promLabels ++ [iface.Type_, iface.Source.Bridge,
    iface.Target.Device, iface.MAC.Address, iface.Model.Type_, iface.MTU.Size, newAliasName]
  [ ⟨.libvirtDomainInterfaceRxBytesDesc, .CounterValue, F64.ofInt st.rRxBytes, promInterfaceLabels⟩,
    ⟨.libvirtDomainInterfaceRxPacketsDesc, .CounterValue, F64.ofInt st.rRxPackets,
      promInterfaceLabels⟩,
    ⟨.libvirtDomainInterfaceRxErrsDesc, .CounterValue, F64.ofInt st.rRxErrs, promInterfaceLabels⟩,
    ⟨.libvirtDomainInterfaceRxDropDesc, .CounterValue, F64.ofInt st.rRxDrop, promInterfaceLabels⟩,
    ⟨.libvirtDomainInterfaceTxBytesDesc, .CounterValue, F64.ofInt st.rTxBytes, promInterfaceLabels⟩,
    ⟨.libvirtDomainInterfaceTxPacketsDesc, .CounterValue, F64.ofInt st.rTxPackets,
      promInterfaceLabels⟩,
    ⟨.libvirtDomainInterfaceTxErrsDesc, .CounterValue, F64.ofInt st.rTxErrs, promInterfaceLabels⟩,
    ⟨.libvirtDomainInterfaceTxDropDesc, .CounterValue, F64.ofInt st.rTxDrop, promInterfaceLabels⟩,
    ⟨.libvirtDomainInterfaceInfo, .GaugeValue, F64.fin 1, promInterfaceInfoLabels⟩ ]

/-- Function `CollectDomainNetworkInfo`; `ifaces` is
`domain.libvirtSchema.Devices.Interfaces` with the answer of
`l.DomainInterfaceStats` for each interface. -/
def CollectDomainNetworkInfo (promLabels : List String) :
    List (Interface × Except String InterfaceStats) → PlainResult
  | [] => ⟨[], .returned none⟩
  | (iface, answer) :: rest =>
    if iface.Target.Device = "" then CollectDomainNetworkInfo promLabels rest
    else
      match answer with
      | .error err => ⟨[], .returned (some err)⟩
      | .ok st =>
        let r := CollectDomainNetworkInfo promLabels rest
        ⟨interfaceMetrics promLabels iface st ++ r.sent, r.exit⟩

/-! ## Memory statistics -/

/-- Record `libvirt.DomainMemoryStat`: an `int32` tag and a `uint64` value. -/
structure DomainMemoryStat where
  Tag : Int
  Val : Nat
  deriving DecidableEq

/-- Constant `libvirt.DomainMemoryStatSwapIn` of go-libvirt. -/
def DomainMemoryStatSwapIn : Int := 0

/-- Constant `libvirt.DomainMemoryStatSwapOut` of go-libvirt. -/
def DomainMemoryStatSwapOut : Int := 1

/-- Constant `libvirt.DomainMemoryStatUnused` of go-libvirt. -/
def DomainMemoryStatUnused : Int := 4

/-- Constant `libvirt.DomainMemoryStatAvailable` of go-libvirt. -/
def DomainMemoryStatAvailable : Int := 5

/-- Constant `libvirt.DomainMemoryStatRss` of go-libvirt. -/
def DomainMemoryStatRss : Int := 7

/-- Constant `libvirt.DomainMemoryStatUsable` of go-libvirt. -/
def DomainMemoryStatUsable : Int := 8

/-- Constant `libvirt.DomainMemoryStatDiskCaches` of go-libvirt. -/
def DomainMemoryStatDiskCaches : Int := 10

/-- Product `v * 1024` of `uint64` values, modulo `2^64`. -/
def mulUint64 (a b : Nat) : Nat := (a * b) % 18446744073709551616

/-- Variables of the loop over the memory statistics. -/
structure MemoryAcc where
  sent : List Metric
  freeMemoryBytes : Nat
  diskCached : Nat

/-- Body of `for _, stat := range rStats`: the switch on `stat.Tag`. -/
def memoryStatRound (promLabels : List String) (acc : MemoryAcc) (stat : DomainMemoryStat) :
    MemoryAcc :=
  if stat.Tag = DomainMemoryStatSwapIn then
    { acc with sent := acc.sent ++ [⟨.libvirtDomainMemoryStatsSwapInBytesDesc, .GaugeValue,
        F64.mul (F64.ofNat stat.Val) (F64.fin 1024), promLabels⟩] }
  else if stat.Tag = DomainMemoryStatSwapOut then
    { acc with sent := acc.sent ++ [⟨.libvirtDomainMemoryStatsSwapOutBytesDesc, .GaugeValue,
        F64.mul (F64.ofNat stat.Val) (F64.fin 1024), promLabels⟩] }
  else if stat.Tag = DomainMemoryStatUnused then
    { acc with
      sent := acc.sent ++ [⟨.libvirtDomainMemoryStatsUnusedBytesDesc, .GaugeValue,
        F64.ofNat (mulUint64 stat.Val 1024), promLabels⟩]
      freeMemoryBytes := mulUint64 stat.Val 1024 }
  else if stat.Tag = DomainMemoryStatAvailable then
    { acc with sent := acc.sent ++ [⟨.libvirtDomainMemoryStatsAvailableInBytesDesc, .GaugeValue,
        F64.ofNat (mulUint64 stat.Val 1024), promLabels⟩] }
  else if stat.Tag = DomainMemoryStatUsable then
    { acc with sent := acc.sent ++ [⟨.libvirtDomainMemoryStatsUsableBytesDesc, .GaugeValue,
        F64.ofNat (mulUint64 stat.Val 1024), promLabels⟩] }
  else if stat.Tag = DomainMemoryStatRss then
    { acc with sent := acc.sent ++ [⟨.libvirtDomainMemoryStatsRssBytesDesc, .GaugeValue,
        F64.ofNat (mulUint64 stat.Val 1024), promLabels⟩] }
  else if stat.Tag = DomainMemoryStatDiskCaches then
    { acc with
      diskCached := mulUint64 stat.Val 1024
      sent := acc.sent ++ [⟨.libvirtDomainMemoryStatDiskCachesBytesDesc, .GaugeValue,
        F64.ofNat (mulUint64 stat.Val 1024), promLabels⟩] }
  else acc

/-- The three percentages sent after the loop; `rmaxmem` is the global variable. -/
def memoryPercentMetrics (promLabels : List String) (rmaxmem freeMemoryBytes diskCached : Nat) :
    List Metric :=
  let maxMemoryBytes := F64.mul (F64.ofNat rmaxmem) (F64.fin 1024)
  let freeMemoryPercent :=
    F64.mul (F64.div (F64.ofNat freeMemoryBytes) maxMemoryBytes) (F64.fin 100)
  let usedMemoryPercent := F64.sub (F64.fin 100) freeMemoryPercent
  let usednocache :=
    F64.sub (F64.sub maxMemoryBytes (F64.ofNat freeMemoryBytes)) (F64.ofNat diskCached)
  let usednocachePercent := F64.mul (F64.div usednocache maxMemoryBytes) (F64.fin 100)
  [ ⟨.libvirtDomainMemoryStatUsedPercentDesc, .GaugeValue, usedMemoryPercent, promLabels⟩,
    ⟨.libvirtDomainMemoryStatFreePercentDesc, .GaugeValue, freeMemoryPercent, promLabels⟩,
    ⟨.libvirtDomainMemoryStatUsednocachePercentDesc, .GaugeValue, usednocachePercent,
      promLabels⟩ ]

/-- Function `CollectDomainMemoryStatInfo`; `rStats` is the answer of
`l.DomainMemoryStats` and `rmaxmem` the global variable it reads. -/
def CollectDomainMemoryStatInfo (promLabels : List String)
    (rStats : Except String (List DomainMemoryStat)) (rmaxmem : Nat) : PlainResult :=
  match rStats with
  | .error err => ⟨[], .returned (some err)⟩
  | .ok rStats =>
    let acc := rStats.foldl (memoryStatRound promLabels) ⟨[], 0, 0⟩
    ⟨acc.sent ++ memoryPercentMetrics promLabels rmaxmem acc.freeMemoryBytes acc.diskCached,
      .returned none⟩

/-! ## One domain -/

/-- Handle `libvirt.Domain`, of which the collectors read the name. -/
structure Domain where
  Name : String
  deriving DecidableEq

/-- Element `<flavor>` of the Nova metadata in `libvirt_schema`. -/
structure NovaFlavor where
  FlavorName : String
  deriving DecidableEq

/-- Element `<user>` of the Nova metadata in `libvirt_schema`. -/
structure NovaUser where
  UserName : String
  UserId : String
  deriving DecidableEq

/-- Element `<project>` of the Nova metadata in `libvirt_schema`. -/
structure NovaProject where
  ProjectName : String
  ProjectId : String
  deriving DecidableEq

/-- Element `<owner>` of the Nova metadata in `libvirt_schema`. -/
structure NovaOwner where
  User : NovaUser
  Project : NovaProject
  deriving DecidableEq

/-- Element `<instance>` of the Nova metadata in `libvirt_schema`. -/
structure NovaInstance where
  Name : String
  Flavor : NovaFlavor
  Owner : NovaOwner
  deriving DecidableEq

/-- Element `<metadata>` of a domain in `libvirt_schema`. -/
structure Metadata where
  NovaInstance : NovaInstance
  deriving DecidableEq

/-- Element `<type>` of the `<os>` element in `libvirt_schema`. -/
structure OSType where
  Arch : String
  Machine : String
  Value : String
  deriving DecidableEq

/-- Element `<os>` of a domain in `libvirt_schema`. -/
structure OSMetadata where
  Type_ : OSType
  deriving DecidableEq

/-- Element `<devices>` of a domain in `libvirt_schema`. -/
structure Devices where
  Disks : List Disk
  Interfaces : List Interface
  deriving DecidableEq

/-- Struct `libvirt_schema.Domain`, with the fields that the exporter reads. -/
structure libvirt_schema.Domain where
  Devices : Devices
  Metadata : Metadata
  OSMetadata : OSMetadata
  UUID : String
  deriving DecidableEq

/-- Struct `domainMeta`.  The collectors take the devices of `libvirtSchema`
together with what libvirt answers for each of them. -/
structure domainMeta where
  domainName : String
  instanceName : String
  instanceId : String
  flavorName : String
  os_type_arch : String
  os_type_machine : String
  os_type : String
  userName : String
  userId : String
  projectName : String
  projectId : String
  libvirtDomain : Domain
  libvirtSchema : libvirt_schema.Domain
  deriving DecidableEq

/-- Constants `DOMAIN_*` of the package `libvirt_schema`, whose source is not at hand. -/
structure DomainStateConsts where
  DOMAIN_NOSTATE : Nat
  DOMAIN_RUNNING : Nat
  DOMAIN_BLOCKED : Nat
  DOMAIN_PAUSED : Nat
  DOMAIN_SHUTDOWN : Nat
  DOMAIN_SHUTOFF : Nat
  DOMAIN_CRASHED : Nat
  DOMAIN_PMSUSPENDED : Nat
  DOMAIN_LAST : Nat

/-- Lookup in the map `domainState`; the empty string for a missing key. -/
def domainState (k : DomainStateConsts) (rState : Nat) : String :=
  if rState = k.DOMAIN_NOSTATE then "no state"
  else if rState = k.DOMAIN_RUNNING then "the domain is running"
  else if rState = k.DOMAIN_BLOCKED then "the domain is blocked on resource"
  else if rState = k.DOMAIN_PAUSED then "the domain is paused by user"
  else if rState = k.DOMAIN_SHUTDOWN then "the domain is being shut down"
  else if rState = k.DOMAIN_SHUTOFF then "the domain is shut off"
  else if rState = k.DOMAIN_CRASHED then "the domain is crashed"
  else if rState = k.DOMAIN_PMSUSPENDED then
    "the domain is suspended by guest power management"
  else if rState = k.DOMAIN_LAST then
    "this enum value will increase over time as new events are added to the libvirt API"
  else ""

/-- Results of `l.DomainGetInfo`, all of which the call returns next to its error. -/
structure DomainInfo where
  rState : Nat
  rMaxMem : Nat
  rMemory : Nat
  rNrVirtCPU : Nat
  rCPUTime : Nat
  err : Option String

/-- What libvirt and the clock answer during one call of `CollectDomain`, with
the disks and interfaces of the domain's schema. -/
structure DomainCalls where
  DomainGetInfo : DomainInfo
  DomainIsActive : Except String Int
  Disks : List (Disk × DiskCalls)
  Interfaces : List (Interface × Except String InterfaceStats)
  DomainMemoryStats : Except String (List DomainMemoryStat)
  ConnectGetAllDomainStats : Except String (List DomainStatsRecord)

/-- The global variables of the package. -/
structure Globals where
  diskTimeCache : DiskTimeCache
  vcpuTimeCache : VcpuTimeCache
  rmaxmem : Nat
  rmemory : Nat

/-- Levels of the logger. -/
inductive Level where
  | Debug
  | Warn
  | Error
  deriving DecidableEq

/-- One record that `CollectDomain` itself logs: the level and the error, if any. -/
structure LogRecord where
  level : Level
  msg : Option String
  deriving DecidableEq

/-- Outcome of `CollectDomain`. -/
structure DomainResult where
  sent : List Metric
  globals : Globals
  log : List LogRecord
  exit : Exit

/-- The warning that the loop over the collectors logs for a returned error. -/
def warnOf : Exit → List LogRecord
  | .returned (some err) => [⟨.Warn, some err⟩]
  | _ => []

/-- The seven metrics that `CollectDomain` sends after `l.DomainGetInfo`. -/
def domainInfoMetrics (k : DomainStateConsts) (domain : domainMeta) (info : DomainInfo) :
    List Metric :=
  let promLabels := [domain.domainName, domain.instanceName, domain.projectName, domain.projectId]
  let openstackInfoLabels := [domain.domainName, domain.instanceName, domain.instanceId,
    domain.flavorName, domain.userName, domain.userId, domain.projectName, domain.projectId]
  let infoLabels := [domain.domainName, domain.instanceName, domain.projectName, domain.projectId,
    domain.os_type, domain.os_type_arch, domain.os_type_machine]
  [ ⟨.libvirtDomainInfoDesc, .GaugeValue, F64.fin 1, infoLabels⟩,
    ⟨.libvirtDomainOpenstackInfoDesc, .GaugeValue, F64.fin 1, openstackInfoLabels⟩,
    ⟨.libvirtDomainState, .GaugeValue, F64.ofNat info.rState,
      promLabels ++ [domainState k info.rState]⟩,
    ⟨.libvirtDomainInfoMaxMemDesc, .GaugeValue,
      F64.mul (F64.ofNat info.rMaxMem) (F64.fin 1024), promLabels⟩,
    ⟨.libvirtDomainInfoMemoryDesc, .GaugeValue,
      F64.mul (F64.ofNat info.rMemory) (F64.fin 1024), promLabels⟩,
    ⟨.libvirtDomainInfoNrVirtCpuDesc, .GaugeValue, F64.ofNat info.rNrVirtCPU, promLabels⟩,
    ⟨.libvirtDomainInfoCpuTimeDesc, .CounterValue,
      F64.div (F64.ofNat info.rCPUTime) (F64.fin 1000000000), promLabels⟩ ]

/-- Loop `for _, collectFunc := range []collectFunc{...}` of `CollectDomain` and
its `return nil`, unrolled over the four collectors; a panic of a collector
ends the loop. -/
def collectDomainLoop (domain : domainMeta) (promLabels : List String) (l : DomainCalls)
    (sent0 : List Metric) (g : Globals) : DomainResult :=
  let r1 := CollectDomainBlockDeviceInfo domain.domainName promLabels l.Disks g.diskTimeCache
  let g1 : Globals := { g with diskTimeCache := r1.cache }
  if r1.exit = .panicked then ⟨sent0 ++ r1.sent, g1, [], .panicked⟩
  else
  let r2 := CollectDomainNetworkInfo promLabels l.Interfaces
  if r2.exit = .panicked then ⟨sent0 ++ r1.sent ++ r2.sent, g1, warnOf r1.exit, .panicked⟩
  else
  let r3 := CollectDomainMemoryStatInfo promLabels l.DomainMemoryStats g1.rmaxmem
  if r3.exit = .panicked then
    ⟨sent0 ++ r1.sent ++ r2.sent ++ r3.sent, g1, warnOf r1.exit ++ warnOf r2.exit, .panicked⟩
  else
  let r4 := CollectDomainVCPUInfo domain.libvirtDomain.Name promLabels
    l.ConnectGetAllDomainStats g1.vcpuTimeCache
  let g4 : Globals := { g1 with vcpuTimeCache := r4.cache }
  if r4.exit = .panicked then
    ⟨sent0 ++ r1.sent ++ r2.sent ++ r3.sent ++ r4.sent, g4,
      warnOf r1.exit ++ warnOf r2.exit ++ warnOf r3.exit, .panicked⟩
  else
    ⟨sent0 ++ r1.sent ++ r2.sent ++ r3.sent ++ r4.sent, g4,
      warnOf r1.exit ++ warnOf r2.exit ++ warnOf r3.exit ++ warnOf r4.exit, .returned none⟩

/-- Function `CollectDomain`. -/
def CollectDomain (k : DomainStateConsts) (domain : domainMeta) (l : DomainCalls)
    (g : Globals) : DomainResult :=
  let info := l.DomainGetInfo
  let g0 : Globals := { g with rmaxmem := info.rMaxMem, rmemory := info.rMemory }
  match info.err with
  | some err => ⟨[], g0, [⟨.Error, some err⟩], .returned (some err)⟩
  | none =>
    let promLabels :=
      [domain.domainName, domain.instanceName, domain.projectName, domain.projectId]
    let sent0 := domainInfoMetrics k domain info
    match l.DomainIsActive with
    | .error err => ⟨sent0, g0, [⟨.Error, some err⟩], .returned (some err)⟩
    | .ok isActive =>
      if isActive ≠ 1 then ⟨sent0, g0, [⟨.Debug, none⟩], .returned none⟩
      else collectDomainLoop domain promLabels l sent0 g0

/-! ## Descriptors: label names and `Describe` -/

/-- Variable labels of each descriptor, as given to `prometheus.NewDesc`. -/
def Desc.variableLabels : Desc → List String
  | .libvirtUpDesc => []
  | .libvirtDomainNumbers => []
  | .libvirtDomainBlockRdTotalTimeSecondsDesc =>
    ["domain", "instance_name", "project_id", "project_name", "target_device"]
  | .libvirtDomainBlockWrTotalTimeSecondsDesc =>
    ["domain", "instance_name", "project_id", "project_name", "target_device"]
  | .libvirtDomainMemoryStatDiskCachesBytesDesc =>
    ["domain", "instance_name", "project_id", "project_name"]
  | .libvirtDomainMemoryStatUsedPercentDesc =>
    ["domain", "instance_name", "project_id", "project_name"]
  | .libvirtDomainState =>
    ["domain", "instance_name", "project_id", "project_name", "state_desc"]
  | .libvirtDomainInfoMaxMemDesc => ["domain", "instance_name", "project_id", "project_name"]
  | .libvirtDomainInfoMemoryDesc => ["domain", "instance_name", "project_id", "project_name"]
  | .libvirtDomainInfoNrVirtCpuDesc => ["domain", "instance_name", "project_id", "project_name"]
  | .libvirtDomainInfoCpuTimeDesc => ["domain", "instance_name", "project_id", "project_name"]
  | .libvirtDomainMemoryStatsSwapInBytesDesc =>
    ["domain", "instance_name", "project_id", "project_name"]
  | .libvirtDomainMemoryStatsSwapOutBytesDesc =>
    ["domain", "instance_name", "project_id", "project_name"]
  | .libvirtDomainMemoryStatsUnusedBytesDesc =>
    ["domain", "instance_name", "project_id", "project_name"]
  | .libvirtDomainMemoryStatsAvailableInBytesDesc =>
    ["domain", "instance_name", "project_id", "project_name"]
  | .libvirtDomainMemoryStatsUsableBytesDesc =>
    ["domain", "instance_name", "project_id", "project_name"]
  | .libvirtDomainMemoryStatsRssBytesDesc =>
    ["domain", "instance_name", "project_id", "project_name"]
  | .libvirtDomainMemoryStatFreePercentDesc =>
    ["domain", "instance_name", "project_id", "project_name"]
  | .libvirtDomainMemoryStatUsednocachePercentDesc =>
    ["domain", "instance_name", "project_id", "project_name"]
  | .libvirtDomainBlockStatsInfo =>
    ["domain", "instance_name", "project_id", "project_name", "disk_type", "target_bus",
      "driver_name", "driver_type", "driver_cache", "driver_discard", "source_file",
      "source_protocol", "target_device", "serial"]
  | .libvirtDomainBlockStatsRdBytesDesc =>
    ["domain", "instance_name", "project_id", "project_name", "target_device"]
  | .libvirtDomainBlockStatsRdReqDesc =>
    ["domain", "instance_name", "project_id", "project_name", "target_device"]
  | .libvirtDomainBlockStatsWrBytesDesc =>
    ["domain", "instance_name", "project_id", "project_name", "target_device"]
  | .libvirtDomainBlockStatsWrReqDesc =>
    ["domain", "instance_name", "project_id", "project_name", "target_device"]
  | .libvirtDomainBlockCapacityBytesDesc =>
    ["domain", "instance_name", "project_id", "project_name", "target_device"]
  | .libvirtDomainBlockTotalBytesSecDesc =>
    ["domain", "instance_name", "project_id", "project_name", "target_device"]
  | .libvirtDomainBlockWriteBytesSecDesc =>
    ["domain", "instance_name", "project_id", "project_name", "target_device"]
  | .libvirtDomainBlockReadBytesSecDesc =>
    ["domain", "instance_name", "project_id", "project_name", "target_device"]
  | .libvirtDomainBlockTotalIopsSecDesc =>
    ["domain", "instance_name", "project_id", "project_name", "target_device"]
  | .libvirtDomainBlockWriteIopsSecDesc =>
    ["domain", "instance_name", "project_id", "project_name", "target_device"]
  | .libvirtDomainBlockReadIopsSecDesc =>
    ["domain", "instance_name", "project_id", "project_name", "target_device"]
  | .libvirtDomainBlockReadBytesPercentDesc =>
    ["domain", "instance_name", "project_id", "project_name", "target_device"]
  | .libvirtDomainBlockWriteBytesPercentDesc =>
    ["domain", "instance_name", "project_id", "project_name", "target_device"]
  | .libvirtDomainBlockTotalBytesPercentDesc =>
    ["domain", "instance_name", "project_id", "project_name", "target_device"]
  | .libvirtDomainBlockReadRequestsPercentDesc =>
    ["domain", "instance_name", "project_id", "project_name", "target_device"]
  | .libvirtDomainBlockWriteRequestsPercentDesc =>
    ["domain", "instance_name", "project_id", "project_name", "target_device"]
  | .libvirtDomainBlockTotalRequestsPercentDesc =>
    ["domain", "instance_name", "project_id", "project_name", "target_device"]
  | .libvirtDomainInterfaceInfo =>
    ["domain", "instance_name", "project_id", "project_name", "interface_type", "source_bridge",
      "target_device", "mac_address", "model_type", "mtu_size", "alias_name"]
  | .libvirtDomainInterfaceRxBytesDesc =>
    ["domain", "instance_name", "project_id", "project_name", "target_device", "alias_name"]
  | .libvirtDomainInterfaceRxPacketsDesc =>
    ["domain", "instance_name", "project_id", "project_name", "target_device", "alias_name"]
  | .libvirtDomainInterfaceRxErrsDesc =>
    ["domain", "instance_name", "project_id", "project_name", "target_device", "alias_name"]
  | .libvirtDomainInterfaceRxDropDesc =>
    ["domain", "instance_name", "project_id", "project_name", "target_device", "alias_name"]
  | .libvirtDomainInterfaceTxBytesDesc =>
    ["domain", "instance_name", "project_id", "project_name", "target_device", "alias_name"]
  | .libvirtDomainInterfaceTxPacketsDesc =>
    ["domain", "instance_name", "project_id", "project_name", "target_device", "alias_name"]
  | .libvirtDomainInterfaceTxErrsDesc =>
    ["domain", "instance_name", "project_id", "project_name", "target_device", "alias_name"]
  | .libvirtDomainInterfaceTxDropDesc =>
    ["domain", "instance_name", "project_id", "project_name", "target_device", "alias_name"]
  | .libvirtDomainVCPUStatsCurrent => ["domain", "instance_name", "project_id", "project_name"]
  | .libvirtDomainVCPUStatsMaximum => ["domain", "instance_name", "project_id", "project_name"]
  | .libvirtDomainVCPUStatsState =>
    ["domain", "instance_name", "project_id", "project_name", "vcpu"]
  | .libvirtDomainVCPUStatsTime =>
    ["domain", "instance_name", "project_id", "project_name", "vcpu"]
  | .libvirtDomainVCPUStatsWait =>
    ["domain", "instance_name", "project_id", "project_name", "vcpu"]
  | .libvirtDomainVCPUStatsDelay =>
    ["domain", "instance_name", "project_id", "project_name", "vcpu"]
  | .libvirtDomainVCPUStatsSysPercent =>
    ["domain", "instance_name", "project_id", "project_name", "vcpu"]
  | .libvirtDomainVCPUStatsStealPercent =>
    ["domain", "instance_name", "project_id", "project_name", "vcpu"]
  | .libvirtStoragePoolState => ["storage_pool"]
  | .libvirtStoragePoolCapacity => ["storage_pool"]
  | .libvirtStoragePoolAllocation => ["storage_pool"]
  | .libvirtStoragePoolAvailable => ["storage_pool"]
  | .libvirtDomainInfoDesc =>
    ["domain", "instance_name", "project_id", "project_name", "os_type", "os_type_arch",
      "os_type_machine"]
  | .libvirtDomainOpenstackInfoDesc =>
    ["domain", "instance_name", "instance_id", "flavor_name", "user_name", "user_id",
      "project_name", "project_id"]

/-- Label pairs of a metric: `MustNewConstMetric` pairs the i-th variable label
of the descriptor with the i-th label value. -/
def Metric.labelPairs (m : Metric) : List (String × String) :=
  m.desc.variableLabels.zip m.labels

/-- Value that a metric publishes under the label `name`. -/
def Metric.labelValue (m : Metric) (name : String) : Option String :=
  m.labelPairs.lookup name

/-- Method `Describe`: the descriptors sent on the channel, in the order sent. -/
def Describe : List Desc :=
  [ .libvirtUpDesc, .libvirtDomainNumbers,
    .libvirtDomainInfoDesc, .libvirtDomainOpenstackInfoDesc,
    .libvirtDomainState, .libvirtDomainInfoMaxMemDesc, .libvirtDomainInfoMemoryDesc,
    .libvirtDomainInfoNrVirtCpuDesc, .libvirtDomainInfoCpuTimeDesc,
    .libvirtDomainBlockStatsInfo, .libvirtDomainBlockStatsRdBytesDesc,
    .libvirtDomainBlockStatsRdReqDesc, .libvirtDomainBlockStatsWrBytesDesc,
    .libvirtDomainBlockStatsWrReqDesc, .libvirtDomainBlockCapacityBytesDesc,
    .libvirtDomainBlockRdTotalTimeSecondsDesc, .libvirtDomainBlockWrTotalTimeSecondsDesc,
    .libvirtDomainBlockTotalBytesSecDesc, .libvirtDomainBlockReadBytesSecDesc,
    .libvirtDomainBlockWriteBytesSecDesc, .libvirtDomainBlockTotalIopsSecDesc,
    .libvirtDomainBlockReadIopsSecDesc, .libvirtDomainBlockWriteIopsSecDesc,
    .libvirtDomainBlockReadBytesPercentDesc, .libvirtDomainBlockWriteBytesPercentDesc,
    .libvirtDomainBlockTotalBytesPercentDesc, .libvirtDomainBlockReadRequestsPercentDesc,
    .libvirtDomainBlockWriteRequestsPercentDesc, .libvirtDomainBlockTotalRequestsPercentDesc,
    .libvirtDomainInterfaceInfo, .libvirtDomainInterfaceRxBytesDesc,
    .libvirtDomainInterfaceRxPacketsDesc, .libvirtDomainInterfaceRxErrsDesc,
    .libvirtDomainInterfaceRxDropDesc, .libvirtDomainInterfaceTxBytesDesc,
    .libvirtDomainInterfaceTxPacketsDesc, .libvirtDomainInterfaceTxErrsDesc,
    .libvirtDomainInterfaceTxDropDesc,
    .libvirtDomainMemoryStatsSwapInBytesDesc, .libvirtDomainMemoryStatsSwapOutBytesDesc,
    .libvirtDomainMemoryStatsUnusedBytesDesc, .libvirtDomainMemoryStatsAvailableInBytesDesc,
    .libvirtDomainMemoryStatsUsableBytesDesc, .libvirtDomainMemoryStatsRssBytesDesc,
    .libvirtDomainMemoryStatUsedPercentDesc, .libvirtDomainMemoryStatDiskCachesBytesDesc,
    .libvirtDomainMemoryStatUsedPercentDesc, .libvirtDomainMemoryStatFreePercentDesc,
    .libvirtDomainMemoryStatUsednocachePercentDesc,
    .libvirtDomainVCPUStatsCurrent, .libvirtDomainVCPUStatsMaximum,
    .libvirtDomainVCPUStatsState, .libvirtDomainVCPUStatsTime, .libvirtDomainVCPUStatsWait,
    .libvirtDomainVCPUStatsDelay, .libvirtDomainVCPUStatsSysPercent,
    .libvirtDomainVCPUStatsStealPercent,
    .libvirtStoragePoolState, .libvirtStoragePoolCapacity, .libvirtStoragePoolAllocation,
    .libvirtStoragePoolAvailable ]

/-! ## Storage pools -/

/-- Handle `libvirt.StoragePool`, of which the collector reads the name. -/
structure StoragePool where
  Name : String
  deriving DecidableEq

/-- Results `(rState, rCapacity, rAllocation, rAvailable)` of `l.StoragePoolGetInfo`. -/
structure StoragePoolInfo where
  rState : Nat
  rCapacity : Nat
  rAllocation : Nat
  rAvailable : Nat
  deriving DecidableEq

/-- Function `CollectStoragePoolInfo`; `answer` is what `l.StoragePoolGetInfo`
answers for the pool. -/
def CollectStoragePoolInfo (pool : StoragePool) (answer : Except String StoragePoolInfo) :
    PlainResult :=
  let promLabels := [pool.Name]
  match answer with
  | .error err => ⟨[], .returned (some err)⟩
  | .ok info =>
    ⟨[ ⟨.libvirtStoragePoolState, .GaugeValue, F64.ofNat info.rState, promLabels⟩,
       ⟨.libvirtStoragePoolCapacity, .GaugeValue, F64.ofNat info.rCapacity, promLabels⟩,
       ⟨.libvirtStoragePoolAllocation, .GaugeValue, F64.ofNat info.rAllocation, promLabels⟩,
       ⟨.libvirtStoragePoolAvailable, .GaugeValue, F64.ofNat info.rAvailable, promLabels⟩ ],
      .returned none⟩

/-! ## The list of domains -/

/-- Zero value of `domainMeta`: what `make([]domainMeta, n)` fills the slice with. -/
def domainMeta.zero : domainMeta :=
  { domainName := "", instanceName := "", instanceId := "", flavorName := "",
    os_type_arch := "", os_type_machine := "", os_type := "", userName := "", userId := "",
    projectName := "", projectId := "", libvirtDomain := { Name := "" },
    libvirtSchema :=
      { Devices := { Disks := [], Interfaces := [] },
        Metadata :=
          { NovaInstance :=
              { Name := "",
                Flavor := { FlavorName := "" },
                Owner :=
                  { User := { UserName := "", UserId := "" },
                    Project := { ProjectName := "", ProjectId := "" } } } },
        OSMetadata := { Type_ := { Arch := "", Machine := "", Value := "" } },
        UUID := "" } }

/-- Body of the loop of `DomainsFromLibvirt`: the element `lvDomains[idx]` after
the round of `domain`.  `xmlDesc` is the answer of `l.DomainGetXMLDesc` and
`Unmarshal` stands for `xml.Unmarshal` into a `libvirt_schema.Domain`; both
failures `continue` and leave the element as it was made. -/
def domainsRound (Unmarshal : String → Except String libvirt_schema.Domain) (domain : Domain)
    (xmlDesc : Except String String) : domainMeta :=
  match xmlDesc with
  | .error _ => domainMeta.zero
  | .ok xmlDesc =>
    match Unmarshal xmlDesc with
    | .error _ => domainMeta.zero
    | .ok libvirtSchema =>
      { libvirtDomain := domain
        libvirtSchema := libvirtSchema
        domainName := domain.Name
        instanceName := libvirtSchema.Metadata.NovaInstance.Name
        instanceId := libvirtSchema.UUID
        flavorName := libvirtSchema.Metadata.NovaInstance.Flavor.FlavorName
        os_type_arch := libvirtSchema.OSMetadata.Type_.Arch
        os_type_machine := libvirtSchema.OSMetadata.Type_.Machine
        os_type := libvirtSchema.OSMetadata.Type_.Value
        userName := libvirtSchema.Metadata.NovaInstance.Owner.User.UserName
        userId := libvirtSchema.Metadata.NovaInstance.Owner.User.UserId
        projectName := libvirtSchema.Metadata.NovaInstance.Owner.Project.ProjectName
        projectId := libvirtSchema.Metadata.NovaInstance.Owner.Project.ProjectId }

/-- Function `DomainsFromLibvirt`; `listing` is the answer of
`l.ConnectListAllDomains` and `DomainGetXMLDesc` that of the call of this name
for each domain. -/
def DomainsFromLibvirt (Unmarshal : String → Except String libvirt_schema.Domain)
    (listing : Except String (List Domain)) (DomainGetXMLDesc : Domain → Except String String) :
    Except String (List domainMeta) :=
  match listing with
  | .error err => .error err
  | .ok domains =>
    .ok (domains.map (fun domain => domainsRound Unmarshal domain (DomainGetXMLDesc domain)))

/-! ## One scrape -/

/-- What libvirt and the clock answer to the calls that `CollectDomain` makes
for one domain handle; the calls for a disk or an interface are keyed by its
target device. -/
structure DomainAnswers where
  DomainGetInfo : DomainInfo
  DomainIsActive : Except String Int
  disk : String → DiskCalls
  iface : String → Except String InterfaceStats
  DomainMemoryStats : Except String (List DomainMemoryStat)
  ConnectGetAllDomainStats : Except String (List DomainStatsRecord)

/-- The answers for a domain, laid out along the devices of its schema. -/
def DomainAnswers.calls (a : DomainAnswers) (domain : domainMeta) : DomainCalls :=
  { DomainGetInfo := a.DomainGetInfo
    DomainIsActive := a.DomainIsActive
    Disks := domain.libvirtSchema.Devices.Disks.map (fun disk => (disk, a.disk disk.Target.Device))
    Interfaces := domain.libvirtSchema.Devices.Interfaces.map
      (fun iface => (iface, a.iface iface.Target.Device))
    DomainMemoryStats := a.DomainMemoryStats
    ConnectGetAllDomainStats := a.ConnectGetAllDomainStats }

/-- What the connection answers during one call of `CollectFromLibvirt`. -/
structure LibvirtCalls where
  ConnectToURI : Option String
  ConnectListAllDomains : Except String (List Domain)
  DomainGetXMLDesc : Domain → Except String String
  domain : Domain → DomainAnswers
  ConnectListAllStoragePools : Except String (List StoragePool)
  StoragePoolGetInfo : StoragePool → Except String StoragePoolInfo

/-- Outcome of `CollectFromLibvirt` and of its loops; a loop that runs to its
end exits with `next`. -/
structure ScrapeResult where
  sent : List Metric
  globals : Globals
  exit : Exit

/-- Loop `for _, domain := range domains` of `CollectFromLibvirt`: an error of
`CollectDomain` is returned at once. -/
def collectDomainsLoop (k : DomainStateConsts) (answers : Domain → DomainAnswers) :
    List domainMeta → Globals → ScrapeResult
  | [], g => ⟨[], g, .next⟩
  | domain :: rest, g =>
    let r := CollectDomain k domain ((answers domain.libvirtDomain).calls domain) g
    match r.exit with
    | .returned none =>
      let r2 := collectDomainsLoop k answers rest r.globals
      ⟨r.sent ++ r2.sent, r2.globals, r2.exit⟩
    | e => ⟨r.sent, r.globals, e⟩

/-- Loop `for _, pool := range pools` of `CollectFromLibvirt`. -/
def collectPoolsLoop (StoragePoolGetInfo : StoragePool → Except String StoragePoolInfo) :
    List StoragePool → PlainResult
  | [] => ⟨[], .next⟩
  | pool :: rest =>
    let r := CollectStoragePoolInfo pool (StoragePoolGetInfo pool)
    match r.exit with
    | .returned none =>
      let r2 := collectPoolsLoop StoragePoolGetInfo rest
      ⟨r.sent ++ r2.sent, r2.exit⟩
    | e => ⟨r.sent, e⟩

/-- Function `CollectFromLibvirt`.  The records written to the logger and the
deferred `l.Disconnect` have no part in the result. -/
def CollectFromLibvirt (k : DomainStateConsts)
    (Unmarshal : String → Except String libvirt_schema.Domain) (l : LibvirtCalls) (g : Globals) :
    ScrapeResult :=
  match l.ConnectToURI with
  | some err => ⟨[], g, .returned (some err)⟩
  | none =>
    let sent0 : List Metric := [⟨.libvirtUpDesc, .GaugeValue, F64.fin 1, []⟩]
    match DomainsFromLibvirt Unmarshal l.ConnectListAllDomains l.DomainGetXMLDesc with
    | .error err => ⟨sent0, g, .returned (some err)⟩
    | .ok domains =>
      let domainNumber := domains.length
      let sent1 := sent0 ++ [⟨.libvirtDomainNumbers, .GaugeValue, F64.ofNat domainNumber, []⟩]
      let r := collectDomainsLoop k l.domain domains g
      match r.exit with
      | .next =>
        match l.ConnectListAllStoragePools with
        | .error err => ⟨sent1 ++ r.sent, r.globals, .returned (some err)⟩
        | .ok pools =>
          let r2 := collectPoolsLoop l.StoragePoolGetInfo pools
          match r2.exit with
          | .next => ⟨sent1 ++ r.sent ++ r2.sent, r.globals, .returned none⟩
          | e => ⟨sent1 ++ r.sent ++ r2.sent, r.globals, e⟩
      | e => ⟨sent1 ++ r.sent, r.globals, e⟩

/-! ## Overlapping scrapes -/

/-- Two calls of the loop over the parameters of a vCPU record that run as
goroutines on one inner map of `vcpuTimeCache`, which no lock guards.
`schedule` names, step by step, the call whose next parameter is processed
(`false` the first, `true` the second); the body of the loop for one parameter
runs without interruption, a call that panicked or has no parameter left does
nothing.  The result is the inner map at the end. -/
def vcpuOverlapped (promLabels : List String) :
    List Bool → List (TypedParam × Int) → List (TypedParam × Int) → VcpuMap → VcpuMap
  | [], _, _, m => m
  | false :: schedule, [], second, m => vcpuOverlapped promLabels schedule [] second m
  | false :: schedule, (param, now) :: first, second, m =>
    let r := vcpuParamRound promLabels param now m
    vcpuOverlapped promLabels schedule (if r.panicked then [] else first) second r.cache
  | true :: schedule, first, [], m => vcpuOverlapped promLabels schedule first [] m
  | true :: schedule, first, (param, now) :: second, m =>
    let r := vcpuParamRound promLabels param now m
    vcpuOverlapped promLabels schedule first (if r.panicked then [] else second) r.cache

/-! ## Which metrics a round sends -/

/-- Descriptors of the six `*_usage_percent` metrics of a disk. -/
def Desc.isDiskUsagePercent : Desc → Bool
  | .libvirtDomainBlockReadBytesPercentDesc => true
  | .libvirtDomainBlockWriteBytesPercentDesc => true
  | .libvirtDomainBlockTotalBytesPercentDesc => true
  | .libvirtDomainBlockReadRequestsPercentDesc => true
  | .libvirtDomainBlockWriteRequestsPercentDesc => true
  | .libvirtDomainBlockTotalRequestsPercentDesc => true
  | _ => false

/-- Metrics of a list that carry the descriptor `d`. -/
def withDesc (d : Desc) (ms : List Metric) : List Metric :=
  ms.filter (fun m => decide (m.desc = d))

/-- The six limits of the block I/O tune parameters. -/
inductive LimitKind where
  | totalBytesSec | readBytesSec | writeBytesSec | totalIopsSec | writeIopsSec | readIopsSec
  deriving DecidableEq

/-- Name of the parameter that carries the limit. -/
def LimitKind.field : LimitKind → String
  | .totalBytesSec => "total_bytes_sec"
  | .readBytesSec => "read_bytes_sec"
  | .writeBytesSec => "write_bytes_sec"
  | .totalIopsSec => "total_iops_sec"
  | .writeIopsSec => "write_iops_sec"
  | .readIopsSec => "read_iops_sec"

/-- Variable of the collector that holds the limit. -/
def LimitKind.get : LimitKind → Limits → F64
  | .totalBytesSec, lim => lim.totalBytesSec
  | .readBytesSec, lim => lim.readBytesSec
  | .writeBytesSec, lim => lim.writeBytesSec
  | .totalIopsSec, lim => lim.totalIopsSec
  | .writeIopsSec, lim => lim.writeIopsSec
  | .readIopsSec, lim => lim.readIopsSec

/-- Descriptor of the usage percentage that the collector guards by the limit. -/
def LimitKind.percentDesc : LimitKind → Desc
  | .totalBytesSec => .libvirtDomainBlockTotalBytesPercentDesc
  | .readBytesSec => .libvirtDomainBlockReadBytesPercentDesc
  | .writeBytesSec => .libvirtDomainBlockWriteBytesPercentDesc
  | .totalIopsSec => .libvirtDomainBlockTotalRequestsPercentDesc
  | .writeIopsSec => .libvirtDomainBlockWriteRequestsPercentDesc
  | .readIopsSec => .libvirtDomainBlockReadRequestsPercentDesc

/-- The four counters that `l.DomainBlockStats` returns. -/
inductive CounterKind where
  | readRequests | writeRequests | readBytes | writeBytes
  deriving DecidableEq

/-- Current value of a counter in the answer of `l.DomainBlockStats`. -/
def CounterKind.get : CounterKind → BlockStats → Int
  | .readRequests, bs => bs.rRdReq
  | .writeRequests, bs => bs.rWrReq
  | .readBytes, bs => bs.rRdBytes
  | .writeBytes, bs => bs.rWrBytes

/-- Limit by which the collector divides the rate of a counter. -/
def CounterKind.limit : CounterKind → LimitKind
  | .readRequests => .readIopsSec
  | .writeRequests => .writeIopsSec
  | .readBytes => .readBytesSec
  | .writeBytes => .writeBytesSec

/-- Whether a call answered with an error. -/
def isError {ε α : Type} : Except ε α → Bool
  | .error _ => true
  | .ok _ => false

/-- Whether one of the four calls made for a disk answers with an error. -/
def DiskCalls.anyCallFails (l : DiskCalls) : Bool :=
  isError l.DomainBlockStats || isError l.DomainGetBlockInfo ||
    isError l.DomainGetBlockIOTune || isError l.DomainBlockStatsFlags

/-- Descriptors of the three percentages that the memory collector sends last. -/
def Desc.isMemoryPercent : Desc → Bool
  | .libvirtDomainMemoryStatUsedPercentDesc => true
  | .libvirtDomainMemoryStatFreePercentDesc => true
  | .libvirtDomainMemoryStatUsednocachePercentDesc => true
  | _ => false

/-- Whether a metric has as many label values as its descriptor has variable
labels, the condition on which `MustNewConstMetric` does not panic. -/
def Metric.arityOk (m : Metric) : Prop :=
  m.labels.length = m.desc.variableLabels.length

/-- Whether the round of a domain in `DomainsFromLibvirt` ends in a `continue`:
`l.DomainGetXMLDesc` fails, or `xml.Unmarshal` fails on its answer. -/
def domainFails (Unmarshal : String → Except String libvirt_schema.Domain)
    (xmlDesc : Except String String) : Bool :=
  match xmlDesc with
  | .error _ => true
  | .ok xmlDesc => isError (Unmarshal xmlDesc)

/-- Value of the last statistic of the list that carries the tag, if there is one. -/
def lastStat (tag : Int) (rStats : List DomainMemoryStat) : Option Nat :=
  ((rStats.filter (fun stat => decide (stat.Tag = tag))).getLast?).map (fun stat => stat.Val)

/-- Error of the first of the four calls made for a disk that fails, in the
order in which the collector makes them. -/
def DiskCalls.firstError (l : DiskCalls) : Option String :=
  match l.DomainBlockStats with
  | .error err => some err
  | .ok _ =>
    match l.DomainGetBlockInfo with
    | .error err => some err
    | .ok _ =>
      match l.DomainGetBlockIOTune with
      | .error err => some err
      | .ok _ =>
        match l.DomainBlockStatsFlags with
        | .error err => some err
        | .ok _ => none

/-- The rounds of the loop over the disks that come before a given disk: what
they have sent and the cache they leave when each of them goes on to the next
disk, `none` when one of them leaves the collector. -/
def roundsBefore (domainName : String) (promLabels : List String) :
    List (Disk × DiskCalls) → DiskTimeCache → Option (List Metric × DiskTimeCache)
  | [], diskTimeCache => some ([], diskTimeCache)
  | (disk, l) :: rest, diskTimeCache =>
    if (blockDeviceRound domainName promLabels disk l diskTimeCache).exit = .next then
      (roundsBefore domainName promLabels rest
        (blockDeviceRound domainName promLabels disk l diskTimeCache).cache).map
        (fun p => ((blockDeviceRound domainName promLabels disk l diskTimeCache).sent ++ p.1, p.2))
    else none

/-! ## Sample inputs -/

/-- Labels `promLabels` of a sample domain. -/
def sampleLabels : List String := ["instance-0001", "vm1", "demo", "p-1"]

/-- A sample disk `vda`. -/
def sampleDisk : Disk :=
  { Device := "disk", Type_ := "file",
    Driver := { Name := "qemu", Type_ := "qcow2", Cache := "none", Discard := "unmap" },
    Source := { File := "/var/lib/nova/disk", Protocol := "" },
    Target := { Device := "vda", Bus := "virtio" },
    Serial := "" }

/-- Answers for one disk in which every call succeeds. -/
def sampleCalls (bs : BlockStats) (blockIOTune : List TypedParam) (now : Int) : DiskCalls :=
  { DomainBlockStats := .ok bs, DomainGetBlockInfo := .ok 1073741824,
    DomainGetBlockIOTune := .ok blockIOTune, DomainBlockStatsFlags := .ok [], now := now }

/-- The cache with one entry, written for `instance-0001` at time `t0`. -/
def sampleCache (p : BlockStats) (t0 : Int) : DiskTimeCache :=
  Function.update (fun _ => none) "instance-0001" (some (diskSnapshot p t0))

/-- A second sample disk, `vdb`. -/
def sampleDiskB : Disk :=
  { Device := "disk", Type_ := "file",
    Driver := { Name := "qemu", Type_ := "qcow2", Cache := "none", Discard := "unmap" },
    Source := { File := "/var/lib/nova/disk.b", Protocol := "" },
    Target := { Device := "vdb", Bus := "virtio" },
    Serial := "" }

/-- Answers for one disk in which `l.DomainBlockStats` fails. -/
def failingCalls (now : Int) : DiskCalls :=
  { DomainBlockStats := .error "Domain not found", DomainGetBlockInfo := .ok 1073741824,
    DomainGetBlockIOTune := .ok [], DomainBlockStatsFlags := .ok [], now := now }

/-- The cache of vCPUs with one entry, for vCPU 0 of `instance-0001`. -/
def sampleVcpuCache (entry : vcpuCache) : VcpuTimeCache :=
  Function.update (fun _ => none) "instance-0001"
    (some (Function.update (fun _ => none) 0 (some entry)))

/-- The values of the `DOMAIN_*` constants in libvirt's numbering. -/
def sampleConsts : DomainStateConsts :=
  { DOMAIN_NOSTATE := 0, DOMAIN_RUNNING := 1, DOMAIN_BLOCKED := 2, DOMAIN_PAUSED := 3,
    DOMAIN_SHUTDOWN := 4, DOMAIN_SHUTOFF := 5, DOMAIN_CRASHED := 6, DOMAIN_PMSUSPENDED := 7,
    DOMAIN_LAST := 8 }

/-- A sample domain, `instance-0001`. -/
def sampleDomain : domainMeta :=
  { domainName := "instance-0001", instanceName := "vm1", instanceId := "4f1c",
    flavorName := "m1.small", os_type_arch := "x86_64", os_type_machine := "pc",
    os_type := "hvm", userName := "alice", userId := "u-1", projectName := "demo",
    projectId := "p-1", libvirtDomain := { Name := "instance-0001" },
    libvirtSchema :=
      { Devices := { Disks := [sampleDisk], Interfaces := [] },
        Metadata :=
          { NovaInstance :=
              { Name := "vm1",
                Flavor := { FlavorName := "m1.small" },
                Owner :=
                  { User := { UserName := "alice", UserId := "u-1" },
                    Project := { ProjectName := "demo", ProjectId := "p-1" } } } },
        OSMetadata := { Type_ := { Arch := "x86_64", Machine := "pc", Value := "hvm" } },
        UUID := "4f1c" } }

/-- Answers for an active domain whose block, memory and vCPU calls fail. -/
def failingDomainCalls : DomainCalls :=
  { DomainGetInfo :=
      { rState := 1, rMaxMem := 2097152, rMemory := 2097152, rNrVirtCPU := 2,
        rCPUTime := 5000000000, err := none },
    DomainIsActive := .ok 1,
    Disks := [(sampleDisk, failingCalls 10000000000)],
    Interfaces := [],
    DomainMemoryStats := .error "memory stats unavailable",
    ConnectGetAllDomainStats := .error "vcpu stats unavailable" }

/-- Globals with empty caches. -/
def emptyGlobals : Globals :=
  { diskTimeCache := fun _ => none, vcpuTimeCache := fun _ => none, rmaxmem := 0, rmemory := 0 }

/-! ## Sample scrapes -/

/-- A stand-in for `xml.Unmarshal`: the description of `instance-0001` parses,
every other text is an error. -/
def sampleUnmarshal (xmlDesc : String) : Except String libvirt_schema.Domain :=
  if xmlDesc = "<domain><name>instance-0001</name></domain>" then .ok sampleDomain.libvirtSchema
  else .error "EOF"

/-- Answers for a domain that is shut off: `l.DomainIsActive` answers 0. -/
def shutOffAnswers : DomainAnswers :=
  { DomainGetInfo :=
      { rState := 5, rMaxMem := 2097152, rMemory := 2097152, rNrVirtCPU := 2,
        rCPUTime := 5000000000, err := none },
    DomainIsActive := .ok 0,
    disk := fun _ => failingCalls 10000000000,
    iface := fun _ => .error "Domain not found",
    DomainMemoryStats := .error "Domain not found",
    ConnectGetAllDomainStats := .error "Domain not found" }

/-- Answers for a handle that libvirt does not know: `l.DomainGetInfo` fails. -/
def unknownAnswers : DomainAnswers :=
  { DomainGetInfo :=
      { rState := 0, rMaxMem := 0, rMemory := 0, rNrVirtCPU := 0, rCPUTime := 0,
        err := some "Domain not found" },
    DomainIsActive := .error "Domain not found",
    disk := fun _ => failingCalls 10000000000,
    iface := fun _ => .error "Domain not found",
    DomainMemoryStats := .error "Domain not found",
    ConnectGetAllDomainStats := .error "Domain not found" }

/-- A connection on which `l.ConnectListAllDomains` fails. -/
def listingFails : LibvirtCalls :=
  { ConnectToURI := none,
    ConnectListAllDomains := .error "connection reset",
    DomainGetXMLDesc := fun _ => .error "connection reset",
    domain := fun _ => unknownAnswers,
    ConnectListAllStoragePools := .error "connection reset",
    StoragePoolGetInfo := fun _ => .error "connection reset" }

/-- A connection that lists the given domains, all shut off, and one storage
pool `default`; the XML description is at hand for `instance-0001` only. -/
def sampleScrape (domains : List Domain) : LibvirtCalls :=
  { ConnectToURI := none,
    ConnectListAllDomains := .ok domains,
    DomainGetXMLDesc := fun domain =>
      if domain.Name = "instance-0001" then .ok "<domain><name>instance-0001</name></domain>"
      else .error "Domain not found",
    domain := fun domain => if domain.Name = "" then unknownAnswers else shutOffAnswers,
    ConnectListAllStoragePools := .ok [⟨"default"⟩],
    StoragePoolGetInfo := fun _ => .ok ⟨2, 1000, 400, 600⟩ }

/-- Answers for an active domain with 2 GiB of max memory whose memory
statistics are at hand: 1 GiB unused, 512 MiB of disk caches. -/
def memoryDomainCalls : DomainCalls :=
  { DomainGetInfo :=
      { rState := 1, rMaxMem := 2097152, rMemory := 2097152, rNrVirtCPU := 2,
        rCPUTime := 5000000000, err := none },
    DomainIsActive := .ok 1,
    Disks := [],
    Interfaces := [],
    DomainMemoryStats := .ok [⟨4, 1048576⟩, ⟨10, 524288⟩],
    ConnectGetAllDomainStats := .error "vcpu stats unavailable" }

/-- The vCPU record of a first scrape of `instance-0001`: CPU time 2 s and
wait 1.5 s, with the clock readings at which its parameters are processed. -/
def scrapeFirst : List (TypedParam × Int) :=
  [(⟨"vcpu.0.time", .uint64 2000000000⟩, 10000000000),
   (⟨"vcpu.0.wait", .uint64 1500000000⟩, 11000002000)]

/-- The vCPU record of a second scrape that overlaps the first: CPU time 3 s
and wait 1.7 s. -/
def scrapeSecond : List (TypedParam × Int) :=
  [(⟨"vcpu.0.time", .uint64 3000000000⟩, 11000000000),
   (⟨"vcpu.0.wait", .uint64 1700000000⟩, 11000001000)]

/-! ## Arithmetic of `F64` on finite values -/

theorem F64.sub_ofInt (a b : Int) : F64.sub (F64.ofInt a) (F64.ofInt b) = F64.fin ((a : ℚ) - b) := by
  simp [F64.sub, F64.ofInt, F64.neg, F64.add, sub_eq_add_neg]

theorem F64.add_fin (a b : ℚ) : F64.add (F64.fin a) (F64.fin b) = F64.fin (a + b) := rfl

theorem F64.mul_fin (a b : ℚ) : F64.mul (F64.fin a) (F64.fin b) = F64.fin (a * b) := rfl

theorem F64.div_fin (a b : ℚ) (hb : b ≠ 0) : F64.div (F64.fin a) (F64.fin b) = F64.fin (a / b) := by
  simp [F64.div, hb]

/-- The seconds of a duration are its nanoseconds over `1e9`. -/
theorem Duration.Seconds_eq (d : Int) :
    Duration.Seconds d = F64.fin ((d : ℚ) / 1000000000) := by
  have h := Int.tdiv_add_tmod d 1000000000
  have hq : (1000000000 : ℚ) * ((Int.tdiv d 1000000000 : Int) : ℚ)
      + ((Int.tmod d 1000000000 : Int) : ℚ) = (d : ℚ) := by exact_mod_cast h
  simp only [Duration.Seconds, F64.ofInt]
  rw [F64.div_fin _ _ (by norm_num), F64.add_fin]
  congr 1
  rw [← hq]
  field_simp
  ring

theorem Time.Sub_pos (t u : Int) : 0 < Time.Sub t u ↔ u < t := by
  unfold Time.Sub maxDuration minDuration
  split_ifs <;> constructor <;> intro h <;> omega

theorem Time.Sub_nonpos (t u : Int) : Time.Sub t u ≤ 0 ↔ t ≤ u := by
  have := Time.Sub_pos t u
  constructor <;> intro h <;> by_contra hc <;> simp only [not_le] at hc
  · exact absurd (this.mpr hc) (by omega)
  · exact absurd (this.mp hc) (by omega)

/-! ## Which metrics a round sends: lemmas -/

theorem withDesc_append (d : Desc) (xs ys : List Metric) :
    withDesc d (xs ++ ys) = withDesc d xs ++ withDesc d ys := by
  simp [withDesc]

theorem withDesc_nil (d : Desc) : withDesc d [] = [] := rfl

theorem withDesc_cons (d : Desc) (m : Metric) (ms : List Metric) :
    withDesc d (m :: ms) = if m.desc = d then m :: withDesc d ms else withDesc d ms := by
  unfold withDesc
  rw [List.filter_cons]
  by_cases h : m.desc = d <;> simp [h]

theorem withDesc_eq_nil_of (d : Desc) (xs : List Metric) (f : Desc → Bool) (hd : f d = true)
    (h : ∀ m ∈ xs, f m.desc = false) : withDesc d xs = [] := by
  unfold withDesc
  rw [List.filter_eq_nil_iff]
  intro m hm hmd
  have e : m.desc = d := by simpa using hmd
  have h2 := h m hm
  rw [e, hd] at h2
  exact absurd h2 (by simp)

theorem withDesc_ite_singleton (d : Desc) (c : Prop) [Decidable c] (m : Metric) :
    withDesc d (if c then [m] else []) = if c then (if m.desc = d then [m] else []) else [] := by
  unfold withDesc
  split_ifs <;> simp_all

theorem blockCounterMetrics_not_usage (bs : BlockStats) (labels : List String) :
    ∀ m ∈ blockCounterMetrics bs labels, m.desc.isDiskUsagePercent = false := by
  intro m hm
  simp only [blockCounterMetrics, List.mem_cons, List.mem_singleton, List.not_mem_nil,
    or_false] at hm
  rcases hm with h | h | h | h <;> rw [h] <;> rfl

theorem blockLimitMetrics_not_usage (n : Nat) (lim : Limits) (rt wt : F64)
    (labels : List String) :
    ∀ m ∈ blockLimitMetrics n lim rt wt labels, m.desc.isDiskUsagePercent = false := by
  intro m hm
  simp only [blockLimitMetrics, List.mem_cons, List.mem_singleton, List.not_mem_nil,
    or_false] at hm
  rcases hm with h | h | h | h | h | h | h | h | h <;> rw [h] <;> rfl

theorem blockInfoMetric_not_usage (promLabels : List String) (disk : Disk) :
    ∀ m ∈ [blockInfoMetric promLabels disk], m.desc.isDiskUsagePercent = false := by
  intro m hm
  rw [List.mem_singleton] at hm
  rw [hm]
  rfl

/-- A round that reaches the cache with an entry present sends the counters, the
limits, the usage percentages and the info metric, and goes on to the next disk. -/
theorem blockDeviceRound_warm (domainName : String) (promLabels : List String) (disk : Disk)
    (l : DiskCalls) (cache : DiskTimeCache) (bs : BlockStats) (capacityBytes : Nat)
    (blockIOTune blockStats : List TypedParam) (lim : Limits) (rt wt : F64) (cached : diskCache)
    (hdev : ¬ (disk.Device = "cdrom" ∨ disk.Device = "fd"))
    (h1 : l.DomainBlockStats = .ok bs) (h2 : l.DomainGetBlockInfo = .ok capacityBytes)
    (h3 : l.DomainGetBlockIOTune = .ok blockIOTune)
    (h4 : l.DomainBlockStatsFlags = .ok blockStats)
    (hlim : decodeTune blockIOTune Limits.zero = some lim)
    (hst : decodeStats blockStats (F64.fin 0, F64.fin 0) = some (rt, wt))
    (hc : cache domainName = some cached) :
    blockDeviceRound domainName promLabels disk l cache =
      ⟨blockCounterMetrics bs (promLabels ++ [disk.Target.Device])
          ++ blockLimitMetrics capacityBytes lim rt wt (promLabels ++ [disk.Target.Device])
          ++ diskUsagePercentMetrics cached bs l.now lim (promLabels ++ [disk.Target.Device])
          ++ [blockInfoMetric promLabels disk],
        Function.update cache domainName (some (diskSnapshot bs l.now)), .next⟩ := by
  unfold blockDeviceRound
  rw [if_neg hdev]
  simp only [h1, h2, h3, h4, hlim, hst, hc]

/-- In a round that finds a cache entry, the usage percentages sent are those of
`diskUsagePercentMetrics`. -/
theorem withDesc_blockDeviceRound_warm (d : Desc) (hd : d.isDiskUsagePercent = true)
    (domainName : String) (promLabels : List String) (disk : Disk)
    (l : DiskCalls) (cache : DiskTimeCache) (bs : BlockStats) (capacityBytes : Nat)
    (blockIOTune blockStats : List TypedParam) (lim : Limits) (cached : diskCache)
    (hdev : ¬ (disk.Device = "cdrom" ∨ disk.Device = "fd"))
    (h1 : l.DomainBlockStats = .ok bs) (h2 : l.DomainGetBlockInfo = .ok capacityBytes)
    (h3 : l.DomainGetBlockIOTune = .ok blockIOTune)
    (h4 : l.DomainBlockStatsFlags = .ok blockStats)
    (hlim : decodeTune blockIOTune Limits.zero = some lim)
    (hst : (decodeStats blockStats (F64.fin 0, F64.fin 0)).isSome = true)
    (hc : cache domainName = some cached) :
    withDesc d (blockDeviceRound domainName promLabels disk l cache).sent =
      withDesc d (diskUsagePercentMetrics cached bs l.now lim (promLabels ++ [disk.Target.Device])) := by
  obtain ⟨⟨rt, wt⟩, hrw⟩ := Option.isSome_iff_exists.mp hst
  rw [blockDeviceRound_warm domainName promLabels disk l cache bs capacityBytes blockIOTune
    blockStats lim rt wt cached hdev h1 h2 h3 h4 hlim hrw hc]
  simp only [withDesc_append,
    withDesc_eq_nil_of d _ _ hd (blockCounterMetrics_not_usage bs _),
    withDesc_eq_nil_of d _ _ hd (blockLimitMetrics_not_usage _ lim rt wt _),
    withDesc_eq_nil_of d _ _ hd (blockInfoMetric_not_usage _ disk),
    List.nil_append, List.append_nil]

/-! ## The usage percentages of a disk -/

theorem withDesc_usage_readRequests (cached : diskCache) (bs : BlockStats) (now : Int)
    (lim : Limits) (labels : List String) :
    withDesc .libvirtDomainBlockReadRequestsPercentDesc
        (diskUsagePercentMetrics cached bs now lim labels) =
      if lim.readIopsSec ≠ F64.fin 0 then
        [⟨.libvirtDomainBlockReadRequestsPercentDesc, .GaugeValue,
          F64.mul (F64.div (F64.div (F64.sub (F64.ofInt bs.rRdReq) cached.ReadRequests)
            (Duration.Seconds (Time.Sub now cached.Timestamp))) lim.readIopsSec) (F64.fin 100),
          labels⟩]
      else [] := by
  unfold diskUsagePercentMetrics
  simp only [withDesc_append, withDesc_ite_singleton]
  simp

theorem withDesc_usage_writeRequests (cached : diskCache) (bs : BlockStats) (now : Int)
    (lim : Limits) (labels : List String) :
    withDesc .libvirtDomainBlockWriteRequestsPercentDesc
        (diskUsagePercentMetrics cached bs now lim labels) =
      if lim.writeIopsSec ≠ F64.fin 0 then
        [⟨.libvirtDomainBlockWriteRequestsPercentDesc, .GaugeValue,
          F64.mul (F64.div (F64.div (F64.sub (F64.ofInt bs.rWrReq) cached.WriteRequests)
            (Duration.Seconds (Time.Sub now cached.Timestamp))) lim.writeIopsSec) (F64.fin 100),
          labels⟩]
      else [] := by
  unfold diskUsagePercentMetrics
  simp only [withDesc_append, withDesc_ite_singleton]
  simp

theorem withDesc_usage_totalRequests (cached : diskCache) (bs : BlockStats) (now : Int)
    (lim : Limits) (labels : List String) :
    withDesc .libvirtDomainBlockTotalRequestsPercentDesc
        (diskUsagePercentMetrics cached bs now lim labels) =
      if lim.totalIopsSec ≠ F64.fin 0 then
        [⟨.libvirtDomainBlockTotalRequestsPercentDesc, .GaugeValue,
          F64.mul (F64.div (F64.div (F64.add (F64.sub (F64.ofInt bs.rRdReq) cached.ReadRequests)
              (F64.sub (F64.ofInt bs.rWrReq) cached.WriteRequests))
            (Duration.Seconds (Time.Sub now cached.Timestamp))) lim.totalIopsSec) (F64.fin 100),
          labels⟩]
      else [] := by
  unfold diskUsagePercentMetrics
  simp only [withDesc_append, withDesc_ite_singleton]
  simp

theorem withDesc_usage_readBytes (cached : diskCache) (bs : BlockStats) (now : Int)
    (lim : Limits) (labels : List String) :
    withDesc .libvirtDomainBlockReadBytesPercentDesc
        (diskUsagePercentMetrics cached bs now lim labels) =
      if lim.readBytesSec ≠ F64.fin 0 then
        [⟨.libvirtDomainBlockReadBytesPercentDesc, .GaugeValue,
          F64.mul (F64.div (F64.div (F64.sub (F64.ofInt bs.rRdBytes) cached.ReadBytes)
            (Duration.Seconds (Time.Sub now cached.Timestamp))) lim.readBytesSec) (F64.fin 100),
          labels⟩]
      else [] := by
  unfold diskUsagePercentMetrics
  simp only [withDesc_append, withDesc_ite_singleton]
  simp

theorem withDesc_usage_writeBytes (cached : diskCache) (bs : BlockStats) (now : Int)
    (lim : Limits) (labels : List String) :
    withDesc .libvirtDomainBlockWriteBytesPercentDesc
        (diskUsagePercentMetrics cached bs now lim labels) =
      if lim.writeBytesSec ≠ F64.fin 0 then
        [⟨.libvirtDomainBlockWriteBytesPercentDesc, .GaugeValue,
          F64.mul (F64.div (F64.div (F64.sub (F64.ofInt bs.rWrBytes) cached.WriteBytes)
            (Duration.Seconds (Time.Sub now cached.Timestamp))) lim.writeBytesSec) (F64.fin 100),
          labels⟩]
      else [] := by
  unfold diskUsagePercentMetrics
  simp only [withDesc_append, withDesc_ite_singleton]
  simp

theorem withDesc_usage_totalBytes (cached : diskCache) (bs : BlockStats) (now : Int)
    (lim : Limits) (labels : List String) :
    withDesc .libvirtDomainBlockTotalBytesPercentDesc
        (diskUsagePercentMetrics cached bs now lim labels) =
      if lim.totalBytesSec ≠ F64.fin 0 then
        [⟨.libvirtDomainBlockTotalBytesPercentDesc, .GaugeValue,
          F64.mul (F64.div (F64.add (F64.sub (F64.ofInt bs.rRdBytes) cached.ReadBytes)
            (F64.sub (F64.ofInt bs.rWrBytes) cached.WriteBytes)) lim.totalBytesSec) (F64.fin 100),
          labels⟩]
      else [] := by
  unfold diskUsagePercentMetrics
  simp only [withDesc_append, withDesc_ite_singleton]
  simp
theorem Time.Sub_seconds_ne_zero (now t0 : Int) (ht : t0 < now) :
    ((Time.Sub now t0 : Int) : ℚ) / 1000000000 ≠ 0 := by
  have h := (Time.Sub_pos now t0).mpr ht
  have hq : (0 : ℚ) < ((Time.Sub now t0 : Int) : ℚ) := by exact_mod_cast h
  positivity

/-- On finite values and a positive interval, rate over limit times 100 is finite. -/
theorem F64.rate_percent_fin (x q : ℚ) (now t0 : Int) (ht : t0 < now) (hq : q ≠ 0) :
    F64.mul (F64.div (F64.div (F64.fin x) (Duration.Seconds (Time.Sub now t0))) (F64.fin q))
        (F64.fin 100) =
      F64.fin (((x / (((Time.Sub now t0 : Int) : ℚ) / 1000000000)) / q) * 100) := by
  rw [Duration.Seconds_eq, F64.div_fin _ _ (Time.Sub_seconds_ne_zero now t0 ht),
    F64.div_fin _ _ hq, F64.mul_fin]

/-- The usage percentage of one counter, in a round that finds the cache entry
written at `t0` from the counters `p` and samples `c` at a later time: it is
sent once, with the value `(((c - p) / dt) / q) * 100` for the limit `q ≠ 0`. -/
theorem blockDeviceRound_counter_percent (a : CounterKind) (domainName : String)
    (promLabels : List String) (disk : Disk) (l : DiskCalls) (cache : DiskTimeCache)
    (c p : BlockStats) (t0 : Int) (capacityBytes : Nat)
    (blockIOTune blockStats : List TypedParam) (lim : Limits)
    (hdev : ¬ (disk.Device = "cdrom" ∨ disk.Device = "fd"))
    (h1 : l.DomainBlockStats = .ok c) (h2 : l.DomainGetBlockInfo = .ok capacityBytes)
    (h3 : l.DomainGetBlockIOTune = .ok blockIOTune)
    (h4 : l.DomainBlockStatsFlags = .ok blockStats)
    (hlim : decodeTune blockIOTune Limits.zero = some lim)
    (hst : (decodeStats blockStats (F64.fin 0, F64.fin 0)).isSome = true)
    (hc : cache domainName = some (diskSnapshot p t0))
    (ht : t0 < l.now) (q : ℚ) (hq : a.limit.get lim = F64.fin q) (hq0 : q ≠ 0) :
    withDesc a.limit.percentDesc (blockDeviceRound domainName promLabels disk l cache).sent =
      [⟨a.limit.percentDesc, .GaugeValue,
        F64.fin (((((a.get c : ℚ) - a.get p) / (((Time.Sub l.now t0 : Int) : ℚ) / 1000000000))
          / q) * 100),
        promLabels ++ [disk.Target.Device]⟩] := by
  have hw := fun d hd => withDesc_blockDeviceRound_warm d hd domainName promLabels disk l cache c
    capacityBytes blockIOTune blockStats lim (diskSnapshot p t0) hdev h1 h2 h3 h4 hlim hst hc
  have hne : a.limit.get lim ≠ F64.fin 0 := by rw [hq]; simpa using hq0
  cases a <;>
    simp only [CounterKind.limit, LimitKind.get, LimitKind.percentDesc, CounterKind.get]
      at hq hne ⊢
  · rw [hw .libvirtDomainBlockReadRequestsPercentDesc rfl, withDesc_usage_readRequests,
      if_pos hne, hq]
    simp only [diskSnapshot, F64.sub_ofInt, F64.rate_percent_fin _ _ _ _ ht hq0]
  · rw [hw .libvirtDomainBlockWriteRequestsPercentDesc rfl, withDesc_usage_writeRequests,
      if_pos hne, hq]
    simp only [diskSnapshot, F64.sub_ofInt, F64.rate_percent_fin _ _ _ _ ht hq0]
  · rw [hw .libvirtDomainBlockReadBytesPercentDesc rfl, withDesc_usage_readBytes,
      if_pos hne, hq]
    simp only [diskSnapshot, F64.sub_ofInt, F64.rate_percent_fin _ _ _ _ ht hq0]
  · rw [hw .libvirtDomainBlockWriteBytesPercentDesc rfl, withDesc_usage_writeBytes,
      if_pos hne, hq]
    simp only [diskSnapshot, F64.sub_ofInt, F64.rate_percent_fin _ _ _ _ ht hq0]

/-- C1. In a round of `CollectDomainBlockDeviceInfo` that finds the cache entry
written at time `t0` from the counters `p`, with the current sample `c` taken at
a later time: for each of read requests, write requests, total requests, read
bytes and write bytes whose limit `q` is not zero, exactly one metric with the
`*_usage_percent` descriptor is sent, and its value is
`(((c - p) / (t1 - t0)) / q) * 100`, the interval being in seconds. -/
theorem blockDeviceRound_usage_percent_formula (domainName : String)
    (promLabels : List String) (disk : Disk) (l : DiskCalls) (cache : DiskTimeCache)
    (c p : BlockStats) (t0 : Int) (capacityBytes : Nat)
    (blockIOTune blockStats : List TypedParam) (lim : Limits)
    (hdev : ¬ (disk.Device = "cdrom" ∨ disk.Device = "fd"))
    (h1 : l.DomainBlockStats = .ok c) (h2 : l.DomainGetBlockInfo = .ok capacityBytes)
    (h3 : l.DomainGetBlockIOTune = .ok blockIOTune)
    (h4 : l.DomainBlockStatsFlags = .ok blockStats)
    (hlim : decodeTune blockIOTune Limits.zero = some lim)
    (hst : (decodeStats blockStats (F64.fin 0, F64.fin 0)).isSome = true)
    (hc : cache domainName = some (diskSnapshot p t0))
    (ht : t0 < l.now) :
    let sent := (blockDeviceRound domainName promLabels disk l cache).sent
    let dt : ℚ := ((Time.Sub l.now t0 : Int) : ℚ) / 1000000000
    let labels := promLabels ++ [disk.Target.Device]
    (∀ q : ℚ, lim.readIopsSec = F64.fin q → q ≠ 0 →
      withDesc .libvirtDomainBlockReadRequestsPercentDesc sent =
        [⟨.libvirtDomainBlockReadRequestsPercentDesc, .GaugeValue,
          F64.fin (((((c.rRdReq : ℚ) - p.rRdReq) / dt) / q) * 100), labels⟩]) ∧
    (∀ q : ℚ, lim.writeIopsSec = F64.fin q → q ≠ 0 →
      withDesc .libvirtDomainBlockWriteRequestsPercentDesc sent =
        [⟨.libvirtDomainBlockWriteRequestsPercentDesc, .GaugeValue,
          F64.fin (((((c.rWrReq : ℚ) - p.rWrReq) / dt) / q) * 100), labels⟩]) ∧
    (∀ q : ℚ, lim.totalIopsSec = F64.fin q → q ≠ 0 →
      withDesc .libvirtDomainBlockTotalRequestsPercentDesc sent =
        [⟨.libvirtDomainBlockTotalRequestsPercentDesc, .GaugeValue,
          F64.fin ((((((c.rRdReq + c.rWrReq : Int) : ℚ) - ((p.rRdReq + p.rWrReq : Int) : ℚ)) / dt)
            / q) * 100), labels⟩]) ∧
    (∀ q : ℚ, lim.readBytesSec = F64.fin q → q ≠ 0 →
      withDesc .libvirtDomainBlockReadBytesPercentDesc sent =
        [⟨.libvirtDomainBlockReadBytesPercentDesc, .GaugeValue,
          F64.fin (((((c.rRdBytes : ℚ) - p.rRdBytes) / dt) / q) * 100), labels⟩]) ∧
    (∀ q : ℚ, lim.writeBytesSec = F64.fin q → q ≠ 0 →
      withDesc .libvirtDomainBlockWriteBytesPercentDesc sent =
        [⟨.libvirtDomainBlockWriteBytesPercentDesc, .GaugeValue,
          F64.fin (((((c.rWrBytes : ℚ) - p.rWrBytes) / dt) / q) * 100), labels⟩]) := by
  intro sent dt labels
  have hw := fun d hd => withDesc_blockDeviceRound_warm d hd domainName promLabels disk l cache c
    capacityBytes blockIOTune blockStats lim (diskSnapshot p t0) hdev h1 h2 h3 h4 hlim hst hc
  have hk := fun a q hq hq0 => blockDeviceRound_counter_percent a domainName promLabels disk l
    cache c p t0 capacityBytes blockIOTune blockStats lim hdev h1 h2 h3 h4 hlim hst hc ht q hq hq0
  refine ⟨?_, ?_, ?_, ?_, ?_⟩ <;> intro q hq hq0
  · exact hk .readRequests q hq hq0
  · exact hk .writeRequests q hq hq0
  · have hne : lim.totalIopsSec ≠ F64.fin 0 := by rw [hq]; simpa using hq0
    rw [hw .libvirtDomainBlockTotalRequestsPercentDesc rfl, withDesc_usage_totalRequests,
      if_pos hne, hq]
    simp only [diskSnapshot, F64.sub_ofInt, F64.add_fin, F64.rate_percent_fin _ _ _ _ ht hq0]
    have e : ((c.rRdReq : ℚ) - p.rRdReq) + ((c.rWrReq : ℚ) - p.rWrReq)
        = ((c.rRdReq + c.rWrReq : Int) : ℚ) - ((p.rRdReq + p.rWrReq : Int) : ℚ) := by
      push_cast; ring
    rw [e]
  · exact hk .readBytes q hq hq0
  · exact hk .writeBytes q hq hq0

/-- Witness of C1: previous `{t=0, v=100}`, current `{t=10, v=600}` and limit 200
give the percentage 25. -/
theorem blockDeviceRound_usage_percent_formula_witness :
    withDesc .libvirtDomainBlockReadBytesPercentDesc
      (blockDeviceRound "instance-0001" sampleLabels sampleDisk
        (sampleCalls ⟨0, 600, 0, 0⟩ [⟨"read_bytes_sec", .uint64 200⟩] 10000000000)
        (sampleCache ⟨0, 100, 0, 0⟩ 0)).sent =
      [⟨.libvirtDomainBlockReadBytesPercentDesc, .GaugeValue, F64.fin 25,
        sampleLabels ++ ["vda"]⟩] := by
  have h := (blockDeviceRound_usage_percent_formula "instance-0001" sampleLabels sampleDisk
    (sampleCalls ⟨0, 600, 0, 0⟩ [⟨"read_bytes_sec", .uint64 200⟩] 10000000000)
    (sampleCache ⟨0, 100, 0, 0⟩ 0) ⟨0, 600, 0, 0⟩ ⟨0, 100, 0, 0⟩ 0 1073741824
    [⟨"read_bytes_sec", .uint64 200⟩] [] { Limits.zero with readBytesSec := F64.fin 200 }
    (by decide) rfl rfl rfl rfl (by decide) rfl (by simp [sampleCache]) (by decide)).2.2.2.1
    200 rfl (by norm_num)
  rw [h]
  simp only [sampleCalls, sampleDisk, Time.Sub, maxDuration, minDuration]
  norm_num

/-! ## C2: the total-bytes percentage -/

/-- C2, on the code. With the cache entry `{t=0, readBytes=100}`, the sample
`{t=10s, readBytes=600}` and both the read and the total limit at 200 bytes per
second, the round sends `read_bytes_usage_percent = 25`, the rate over the
limit, but `total_bytes_usage_percent = 250`: the byte delta over the limit,
not divided by the interval, where the rate over the limit is 25. -/
theorem blockDeviceRound_total_bytes_percent_not_a_rate :
    withDesc .libvirtDomainBlockTotalBytesPercentDesc
      (blockDeviceRound "instance-0001" sampleLabels sampleDisk
        (sampleCalls ⟨0, 600, 0, 0⟩
          [⟨"read_bytes_sec", .uint64 200⟩, ⟨"total_bytes_sec", .uint64 200⟩] 10000000000)
        (sampleCache ⟨0, 100, 0, 0⟩ 0)).sent =
      [⟨.libvirtDomainBlockTotalBytesPercentDesc, .GaugeValue, F64.fin 250,
        sampleLabels ++ ["vda"]⟩] ∧
    withDesc .libvirtDomainBlockReadBytesPercentDesc
      (blockDeviceRound "instance-0001" sampleLabels sampleDisk
        (sampleCalls ⟨0, 600, 0, 0⟩
          [⟨"read_bytes_sec", .uint64 200⟩, ⟨"total_bytes_sec", .uint64 200⟩] 10000000000)
        (sampleCache ⟨0, 100, 0, 0⟩ 0)).sent =
      [⟨.libvirtDomainBlockReadBytesPercentDesc, .GaugeValue, F64.fin 25,
        sampleLabels ++ ["vda"]⟩] ∧
    F64.fin 250 ≠ F64.fin ((((((600 : ℚ) - 100) + (0 - 0)) / 10) / 200) * 100) := by
  have hw := fun d hd => withDesc_blockDeviceRound_warm d hd "instance-0001" sampleLabels
    sampleDisk
    (sampleCalls ⟨0, 600, 0, 0⟩
      [⟨"read_bytes_sec", .uint64 200⟩, ⟨"total_bytes_sec", .uint64 200⟩] 10000000000)
    (sampleCache ⟨0, 100, 0, 0⟩ 0) ⟨0, 600, 0, 0⟩ 1073741824
    [⟨"read_bytes_sec", .uint64 200⟩, ⟨"total_bytes_sec", .uint64 200⟩] []
    { Limits.zero with readBytesSec := F64.fin 200, totalBytesSec := F64.fin 200 }
    (diskSnapshot ⟨0, 100, 0, 0⟩ 0) (by decide) rfl rfl rfl rfl (by decide) rfl
    (by simp [sampleCache])
  refine ⟨?_, ?_, ?_⟩
  · rw [hw .libvirtDomainBlockTotalBytesPercentDesc rfl, withDesc_usage_totalBytes]
    simp only [diskSnapshot, F64.sub_ofInt, F64.add_fin, sampleCalls, sampleDisk]
    rw [if_pos (by decide), F64.div_fin _ _ (by norm_num), F64.mul_fin]
    norm_num
  · rw [hw .libvirtDomainBlockReadBytesPercentDesc rfl, withDesc_usage_readBytes]
    simp only [diskSnapshot, F64.sub_ofInt, sampleCalls, sampleDisk]
    rw [if_pos (by decide), F64.rate_percent_fin _ _ _ _ (by decide) (by norm_num)]
    simp only [Time.Sub, maxDuration, minDuration]
    norm_num
  · rw [Ne, F64.fin.injEq]
    norm_num

/-! ## Decoding of the limits -/

theorem TypedParamValue.asUint64_eq_some (v : TypedParamValue) (a : Nat)
    (h : v.asUint64 = some a) : v = .uint64 a := by
  cases v <;> simp_all [TypedParamValue.asUint64]

/-- One parameter: a limit changes only by a parameter of its name, which then
holds an unsigned 64-bit value that becomes the limit. -/
theorem tuneParam_spec (lim lim1 : Limits) (param : TypedParam)
    (h : tuneParam lim param = some lim1) (k : LimitKind) :
    (param.Field ≠ k.field → k.get lim1 = k.get lim) ∧
    (param.Field = k.field →
      ∃ v, param.Value = .uint64 v ∧ k.get lim1 = F64.ofNat v) := by
  obtain ⟨f, v⟩ := param
  simp only [tuneParam, Option.bind_eq_bind, Option.pure_def] at h
  by_cases h0 : f = "total_bytes_sec"
  · subst h0
    simp at h
    obtain ⟨a, ha, rfl⟩ := h
    have hv := TypedParamValue.asUint64_eq_some v a ha
    cases k <;> simp [LimitKind.field, LimitKind.get, hv]
  by_cases h1 : f = "read_bytes_sec"
  · subst h1
    simp at h
    obtain ⟨a, ha, rfl⟩ := h
    have hv := TypedParamValue.asUint64_eq_some v a ha
    cases k <;> simp [LimitKind.field, LimitKind.get, hv]
  by_cases h2 : f = "write_bytes_sec"
  · subst h2
    simp at h
    obtain ⟨a, ha, rfl⟩ := h
    have hv := TypedParamValue.asUint64_eq_some v a ha
    cases k <;> simp [LimitKind.field, LimitKind.get, hv]
  by_cases h3 : f = "total_iops_sec"
  · subst h3
    simp at h
    obtain ⟨a, ha, rfl⟩ := h
    have hv := TypedParamValue.asUint64_eq_some v a ha
    cases k <;> simp [LimitKind.field, LimitKind.get, hv]
  by_cases h4 : f = "read_iops_sec"
  · subst h4
    simp at h
    obtain ⟨a, ha, rfl⟩ := h
    have hv := TypedParamValue.asUint64_eq_some v a ha
    cases k <;> simp [LimitKind.field, LimitKind.get, hv]
  by_cases h5 : f = "write_iops_sec"
  · subst h5
    simp at h
    obtain ⟨a, ha, rfl⟩ := h
    have hv := TypedParamValue.asUint64_eq_some v a ha
    cases k <;> simp [LimitKind.field, LimitKind.get, hv]
  · simp [h0, h1, h2, h3, h4, h5] at h
    subst h
    cases k <;> simp [LimitKind.field, LimitKind.get, h0, h1, h2, h3, h4, h5]

/-- A limit whose name no parameter carries keeps its initial value. -/
theorem decodeTune_absent (k : LimitKind) (tune : List TypedParam) :
    ∀ (lim lim1 : Limits), decodeTune tune lim = some lim1 →
      (∀ param ∈ tune, param.Field ≠ k.field) → k.get lim1 = k.get lim := by
  induction tune with
  | nil =>
    intro lim lim1 h _
    simp only [decodeTune, Option.some.injEq] at h
    rw [h]
  | cons param rest ih =>
    intro lim lim1 h habs
    simp only [decodeTune] at h
    cases hp : tuneParam lim param with
    | none => rw [hp] at h; exact absurd h (by simp)
    | some lim2 =>
      rw [hp] at h
      have h2 := ih lim2 lim1 h (fun q hq => habs q (List.mem_cons_of_mem _ hq))
      rw [h2]
      exact (tuneParam_spec lim lim2 param hp k).1 (habs param (List.mem_cons_self _ _))

/-- Every decoded limit is the conversion of an unsigned integer. -/
theorem decodeTune_ofNat (k : LimitKind) (tune : List TypedParam) :
    ∀ (lim lim1 : Limits), decodeTune tune lim = some lim1 →
      (∃ n : Nat, k.get lim = F64.ofNat n) → ∃ n : Nat, k.get lim1 = F64.ofNat n := by
  induction tune with
  | nil =>
    intro lim lim1 h hn
    simp only [decodeTune, Option.some.injEq] at h
    rw [← h]
    exact hn
  | cons param rest ih =>
    intro lim lim1 h hn
    simp only [decodeTune] at h
    cases hp : tuneParam lim param with
    | none => rw [hp] at h; exact absurd h (by simp)
    | some lim2 =>
      rw [hp] at h
      refine ih lim2 lim1 h ?_
      by_cases hf : param.Field = k.field
      · obtain ⟨v, _, hv⟩ := (tuneParam_spec lim lim2 param hp k).2 hf
        exact ⟨v, hv⟩
      · rw [(tuneParam_spec lim lim2 param hp k).1 hf]
        exact hn

theorem Limits.zero_get (k : LimitKind) : k.get Limits.zero = F64.ofNat 0 := by
  cases k <;> simp [LimitKind.get, Limits.zero, F64.ofNat]

theorem LimitKind.percentDesc_isDiskUsagePercent (k : LimitKind) :
    k.percentDesc.isDiskUsagePercent = true := by
  cases k <;> rfl

/-- The usage percentage guarded by a limit is sent exactly when the limit is
not zero, and then once. -/
theorem withDesc_usage_of_limit (k : LimitKind) (cached : diskCache) (bs : BlockStats)
    (now : Int) (lim : Limits) (labels : List String) :
    (k.get lim = F64.fin 0 →
      withDesc k.percentDesc (diskUsagePercentMetrics cached bs now lim labels) = []) ∧
    (k.get lim ≠ F64.fin 0 →
      ∃ v, withDesc k.percentDesc (diskUsagePercentMetrics cached bs now lim labels) =
        [⟨k.percentDesc, .GaugeValue, v, labels⟩]) := by
  cases k <;> simp only [LimitKind.get, LimitKind.percentDesc]
  · rw [withDesc_usage_totalBytes]
    exact ⟨fun h => by rw [if_neg (by simpa using h)], fun h => by rw [if_pos h]; exact ⟨_, rfl⟩⟩
  · rw [withDesc_usage_readBytes]
    exact ⟨fun h => by rw [if_neg (by simpa using h)], fun h => by rw [if_pos h]; exact ⟨_, rfl⟩⟩
  · rw [withDesc_usage_writeBytes]
    exact ⟨fun h => by rw [if_neg (by simpa using h)], fun h => by rw [if_pos h]; exact ⟨_, rfl⟩⟩
  · rw [withDesc_usage_totalRequests]
    exact ⟨fun h => by rw [if_neg (by simpa using h)], fun h => by rw [if_pos h]; exact ⟨_, rfl⟩⟩
  · rw [withDesc_usage_writeRequests]
    exact ⟨fun h => by rw [if_neg (by simpa using h)], fun h => by rw [if_pos h]; exact ⟨_, rfl⟩⟩
  · rw [withDesc_usage_readRequests]
    exact ⟨fun h => by rw [if_neg (by simpa using h)], fun h => by rw [if_pos h]; exact ⟨_, rfl⟩⟩

/-- Only a round that decodes the limits and finds a cache entry sends usage
percentages. -/
theorem withDesc_blockDeviceRound_cases (d : Desc) (hd : d.isDiskUsagePercent = true)
    (domainName : String) (promLabels : List String) (disk : Disk) (l : DiskCalls)
    (cache : DiskTimeCache) :
    withDesc d (blockDeviceRound domainName promLabels disk l cache).sent = [] ∨
    ∃ bs blockIOTune lim cached,
      l.DomainBlockStats = .ok bs ∧ l.DomainGetBlockIOTune = .ok blockIOTune ∧
      decodeTune blockIOTune Limits.zero = some lim ∧ cache domainName = some cached ∧
      withDesc d (blockDeviceRound domainName promLabels disk l cache).sent =
        withDesc d (diskUsagePercentMetrics cached bs l.now lim
          (promLabels ++ [disk.Target.Device])) := by
  by_cases hdev : disk.Device = "cdrom" ∨ disk.Device = "fd"
  · left
    unfold blockDeviceRound
    rw [if_pos hdev]
    rfl
  · cases h1 : l.DomainBlockStats with
    | error err =>
      left
      unfold blockDeviceRound
      rw [if_neg hdev]
      simp only [h1]
      rfl
    | ok bs =>
      have hsent1 : withDesc d (blockCounterMetrics bs (promLabels ++ [disk.Target.Device])) = [] :=
        withDesc_eq_nil_of d _ _ hd (blockCounterMetrics_not_usage bs _)
      cases h2 : l.DomainGetBlockInfo with
      | error err =>
        left
        unfold blockDeviceRound
        rw [if_neg hdev]
        simp only [h1, h2]
        exact hsent1
      | ok capacityBytes =>
        cases h3 : l.DomainGetBlockIOTune with
        | error err =>
          left
          unfold blockDeviceRound
          rw [if_neg hdev]
          simp only [h1, h2, h3]
          exact hsent1
        | ok blockIOTune =>
          cases h4 : l.DomainBlockStatsFlags with
          | error err =>
            left
            unfold blockDeviceRound
            rw [if_neg hdev]
            simp only [h1, h2, h3, h4]
            exact hsent1
          | ok blockStats =>
            cases hlim : decodeTune blockIOTune Limits.zero with
            | none =>
              left
              unfold blockDeviceRound
              rw [if_neg hdev]
              simp only [h1, h2, h3, h4, hlim]
              exact hsent1
            | some lim =>
              cases hst : decodeStats blockStats (F64.fin 0, F64.fin 0) with
              | none =>
                left
                unfold blockDeviceRound
                rw [if_neg hdev]
                simp only [h1, h2, h3, h4, hlim, hst]
                exact hsent1
              | some rw =>
                obtain ⟨rt, wt⟩ := rw
                cases hc : cache domainName with
                | none =>
                  left
                  unfold blockDeviceRound
                  rw [if_neg hdev]
                  simp only [h1, h2, h3, h4, hlim, hst, hc, withDesc_append, hsent1,
                    withDesc_eq_nil_of d _ _ hd (blockLimitMetrics_not_usage _ lim rt wt _),
                    List.append_nil]
                | some cached =>
                  right
                  refine ⟨bs, blockIOTune, lim, cached, rfl, rfl, hlim, rfl, ?_⟩
                  exact withDesc_blockDeviceRound_warm d hd domainName promLabels disk l cache bs
                    capacityBytes blockIOTune blockStats lim cached hdev h1 h2 h3 h4 hlim
                    (by rw [hst]; rfl) hc

/-! ## C3: a limit that is zero or absent -/

/-- C3. In a round of `CollectDomainBlockDeviceInfo`, for each of the six limits:
when no parameter of the block I/O tune list carries its name, or the limit read
from the list is 0, no metric with the usage-percent descriptor guarded by that
limit is sent; and whatever that limit is, a round that finds a cache entry
sends the usage percentage of every limit that is not zero. -/
theorem blockDeviceRound_zero_or_absent_limit (domainName : String)
    (promLabels : List String) (disk : Disk) (l : DiskCalls) (cache : DiskTimeCache)
    (blockIOTune : List TypedParam) (k : LimitKind)
    (h3 : l.DomainGetBlockIOTune = .ok blockIOTune)
    (hk : (∀ param ∈ blockIOTune, param.Field ≠ k.field) ∨
      (∀ lim, decodeTune blockIOTune Limits.zero = some lim → k.get lim = F64.fin 0)) :
    withDesc k.percentDesc (blockDeviceRound domainName promLabels disk l cache).sent = [] ∧
    ∀ (j : LimitKind) (bs : BlockStats) (capacityBytes : Nat) (blockStats : List TypedParam)
      (lim : Limits) (cached : diskCache),
      ¬ (disk.Device = "cdrom" ∨ disk.Device = "fd") →
      l.DomainBlockStats = .ok bs → l.DomainGetBlockInfo = .ok capacityBytes →
      l.DomainBlockStatsFlags = .ok blockStats →
      decodeTune blockIOTune Limits.zero = some lim →
      (decodeStats blockStats (F64.fin 0, F64.fin 0)).isSome = true →
      cache domainName = some cached → j.get lim ≠ F64.fin 0 →
      ∃ v, withDesc j.percentDesc (blockDeviceRound domainName promLabels disk l cache).sent =
        [⟨j.percentDesc, .GaugeValue, v, promLabels ++ [disk.Target.Device]⟩] := by
  constructor
  · rcases withDesc_blockDeviceRound_cases k.percentDesc k.percentDesc_isDiskUsagePercent
      domainName promLabels disk l cache with h | ⟨bs, tune, lim, cached, _, ht, hlim, _, hs⟩
    · exact h
    · rw [h3] at ht
      cases ht
      have hz : k.get lim = F64.fin 0 := by
        rcases hk with habs | hzero
        · rw [decodeTune_absent k blockIOTune Limits.zero lim hlim habs, Limits.zero_get]
          simp [F64.ofNat]
        · exact hzero lim hlim
      rw [hs]
      exact (withDesc_usage_of_limit k cached bs l.now lim _).1 hz
  · intro j bs capacityBytes blockStats lim cached hdev h1 h2 h4 hlim hst hc hj
    rw [withDesc_blockDeviceRound_warm j.percentDesc j.percentDesc_isDiskUsagePercent domainName
      promLabels disk l cache bs capacityBytes blockIOTune blockStats lim cached hdev h1 h2 h3 h4
      hlim hst hc]
    exact (withDesc_usage_of_limit j cached bs l.now lim _).2 hj

/-- Witness of C3: the list holds `write_iops_sec = 100` only; no read-requests
percentage is sent, the write-requests percentage is. -/
theorem blockDeviceRound_zero_or_absent_limit_witness :
    withDesc .libvirtDomainBlockReadRequestsPercentDesc
      (blockDeviceRound "instance-0001" sampleLabels sampleDisk
        (sampleCalls ⟨5, 600, 70, 0⟩ [⟨"write_iops_sec", .uint64 100⟩] 10000000000)
        (sampleCache ⟨0, 100, 0, 0⟩ 0)).sent = [] ∧
    ∃ v, withDesc .libvirtDomainBlockWriteRequestsPercentDesc
      (blockDeviceRound "instance-0001" sampleLabels sampleDisk
        (sampleCalls ⟨5, 600, 70, 0⟩ [⟨"write_iops_sec", .uint64 100⟩] 10000000000)
        (sampleCache ⟨0, 100, 0, 0⟩ 0)).sent =
      [⟨.libvirtDomainBlockWriteRequestsPercentDesc, .GaugeValue, v, sampleLabels ++ ["vda"]⟩] := by
  have h := blockDeviceRound_zero_or_absent_limit "instance-0001" sampleLabels sampleDisk
    (sampleCalls ⟨5, 600, 70, 0⟩ [⟨"write_iops_sec", .uint64 100⟩] 10000000000)
    (sampleCache ⟨0, 100, 0, 0⟩ 0) [⟨"write_iops_sec", .uint64 100⟩] .readIopsSec rfl
    (Or.inl (by decide))
  exact ⟨h.1, h.2 .writeIopsSec ⟨5, 600, 70, 0⟩ 1073741824 []
    { Limits.zero with writeIopsSec := F64.fin 100 } (diskSnapshot ⟨0, 100, 0, 0⟩ 0)
    (by decide) rfl rfl rfl (by decide) rfl (by simp [sampleCache])
    (by simp [LimitKind.get])⟩

/-! ## C4: cold start of a disk -/

/-- A round that reaches the cache and finds no entry sends the counters and the
limits, writes the snapshot and returns from the collector. -/
theorem blockDeviceRound_no_entry (domainName : String) (promLabels : List String) (disk : Disk)
    (l : DiskCalls) (cache : DiskTimeCache) (bs : BlockStats) (capacityBytes : Nat)
    (blockIOTune blockStats : List TypedParam) (lim : Limits) (rt wt : F64)
    (hdev : ¬ (disk.Device = "cdrom" ∨ disk.Device = "fd"))
    (h1 : l.DomainBlockStats = .ok bs) (h2 : l.DomainGetBlockInfo = .ok capacityBytes)
    (h3 : l.DomainGetBlockIOTune = .ok blockIOTune)
    (h4 : l.DomainBlockStatsFlags = .ok blockStats)
    (hlim : decodeTune blockIOTune Limits.zero = some lim)
    (hst : decodeStats blockStats (F64.fin 0, F64.fin 0) = some (rt, wt))
    (hc : cache domainName = none) :
    blockDeviceRound domainName promLabels disk l cache =
      ⟨blockCounterMetrics bs (promLabels ++ [disk.Target.Device])
          ++ blockLimitMetrics capacityBytes lim rt wt (promLabels ++ [disk.Target.Device]),
        Function.update cache domainName (some (diskSnapshot bs l.now)), .returned none⟩ := by
  unfold blockDeviceRound
  rw [if_neg hdev]
  simp only [h1, h2, h3, h4, hlim, hst, hc]

/-- C4. A round of `CollectDomainBlockDeviceInfo` that starts with no entry for
its key in `diskTimeCache` sends no `*_usage_percent` metric; and when the
round reaches the cache (the four calls succeed and the parameters decode), the
cache then holds for that key exactly the current read/write byte and request
counters and the current timestamp. -/
theorem blockDeviceRound_cold_start (domainName : String) (promLabels : List String)
    (disk : Disk) (l : DiskCalls) (cache : DiskTimeCache)
    (hc : cache domainName = none) :
    (∀ m ∈ (blockDeviceRound domainName promLabels disk l cache).sent,
      m.desc.isDiskUsagePercent = false) ∧
    ∀ (c : BlockStats) (capacityBytes : Nat) (blockIOTune blockStats : List TypedParam),
      ¬ (disk.Device = "cdrom" ∨ disk.Device = "fd") →
      l.DomainBlockStats = .ok c → l.DomainGetBlockInfo = .ok capacityBytes →
      l.DomainGetBlockIOTune = .ok blockIOTune → l.DomainBlockStatsFlags = .ok blockStats →
      (decodeTune blockIOTune Limits.zero).isSome = true →
      (decodeStats blockStats (F64.fin 0, F64.fin 0)).isSome = true →
      (blockDeviceRound domainName promLabels disk l cache).cache domainName =
        some { ReadBytes := F64.ofInt c.rRdBytes, ReadRequests := F64.ofInt c.rRdReq,
               WriteBytes := F64.ofInt c.rWrBytes, WriteRequests := F64.ofInt c.rWrReq,
               Timestamp := l.now } := by
  constructor
  · intro m hm
    cases hu : m.desc.isDiskUsagePercent with
    | false => rfl
    | true =>
      exfalso
      have hmem : m ∈ withDesc m.desc (blockDeviceRound domainName promLabels disk l cache).sent := by
        unfold withDesc
        rw [List.mem_filter]
        exact ⟨hm, by simp⟩
      rcases withDesc_blockDeviceRound_cases m.desc hu domainName promLabels disk l cache with
        h | ⟨_, _, _, cached, _, _, _, hsome, _⟩
      · rw [h] at hmem
        exact absurd hmem (List.not_mem_nil m)
      · rw [hc] at hsome
        exact absurd hsome (by simp)
  · intro c capacityBytes blockIOTune blockStats hdev h1 h2 h3 h4 hlim hst
    obtain ⟨lim, hlim⟩ := Option.isSome_iff_exists.mp hlim
    obtain ⟨⟨rt, wt⟩, hst⟩ := Option.isSome_iff_exists.mp hst
    rw [blockDeviceRound_no_entry domainName promLabels disk l cache c capacityBytes blockIOTune
      blockStats lim rt wt hdev h1 h2 h3 h4 hlim hst hc]
    simp [diskSnapshot]

/-- Witness of C4: the first round for `instance-0001`. -/
theorem blockDeviceRound_cold_start_witness :
    (∀ m ∈ (blockDeviceRound "instance-0001" sampleLabels sampleDisk
        (sampleCalls ⟨5, 600, 70, 900⟩ [⟨"read_bytes_sec", .uint64 200⟩] 10000000000)
        (fun _ => none)).sent, m.desc.isDiskUsagePercent = false) ∧
    (blockDeviceRound "instance-0001" sampleLabels sampleDisk
        (sampleCalls ⟨5, 600, 70, 900⟩ [⟨"read_bytes_sec", .uint64 200⟩] 10000000000)
        (fun _ => none)).cache "instance-0001" =
      some { ReadBytes := F64.fin 600, ReadRequests := F64.fin 5, WriteBytes := F64.fin 900,
             WriteRequests := F64.fin 70, Timestamp := 10000000000 } := by
  have h := blockDeviceRound_cold_start "instance-0001" sampleLabels sampleDisk
    (sampleCalls ⟨5, 600, 70, 900⟩ [⟨"read_bytes_sec", .uint64 200⟩] 10000000000)
    (fun _ => none) rfl
  refine ⟨h.1, ?_⟩
  rw [h.2 ⟨5, 600, 70, 900⟩ 1073741824 [⟨"read_bytes_sec", .uint64 200⟩] [] (by decide) rfl rfl
    rfl rfl (by decide) rfl]
  simp [F64.ofInt, sampleCalls]

/-! ## C6: a disk interval that is not positive -/

/-- C6, on the code. The cache entry is `{t=5s, readBytes=100}` and the limit is
200 bytes per second.  A sample `{t=5s, readBytes=600}` with the same timestamp
still sends `read_bytes_usage_percent`, with the value `+Inf` of the division
by the zero interval; a sample at `t=4s` sends it with the value `-250`.  In
both rounds the cache entry is replaced by the current counters and timestamp. -/
theorem blockDeviceRound_nonpositive_interval_still_sends :
    withDesc .libvirtDomainBlockReadBytesPercentDesc
      (blockDeviceRound "instance-0001" sampleLabels sampleDisk
        (sampleCalls ⟨0, 600, 0, 0⟩ [⟨"read_bytes_sec", .uint64 200⟩] 5000000000)
        (sampleCache ⟨0, 100, 0, 0⟩ 5000000000)).sent =
      [⟨.libvirtDomainBlockReadBytesPercentDesc, .GaugeValue, F64.inf false,
        sampleLabels ++ ["vda"]⟩] ∧
    withDesc .libvirtDomainBlockReadBytesPercentDesc
      (blockDeviceRound "instance-0001" sampleLabels sampleDisk
        (sampleCalls ⟨0, 600, 0, 0⟩ [⟨"read_bytes_sec", .uint64 200⟩] 4000000000)
        (sampleCache ⟨0, 100, 0, 0⟩ 5000000000)).sent =
      [⟨.libvirtDomainBlockReadBytesPercentDesc, .GaugeValue, F64.fin (-250),
        sampleLabels ++ ["vda"]⟩] ∧
    (blockDeviceRound "instance-0001" sampleLabels sampleDisk
        (sampleCalls ⟨0, 600, 0, 0⟩ [⟨"read_bytes_sec", .uint64 200⟩] 5000000000)
        (sampleCache ⟨0, 100, 0, 0⟩ 5000000000)).cache "instance-0001" =
      some (diskSnapshot ⟨0, 600, 0, 0⟩ 5000000000) ∧
    (blockDeviceRound "instance-0001" sampleLabels sampleDisk
        (sampleCalls ⟨0, 600, 0, 0⟩ [⟨"read_bytes_sec", .uint64 200⟩] 4000000000)
        (sampleCache ⟨0, 100, 0, 0⟩ 5000000000)).cache "instance-0001" =
      some (diskSnapshot ⟨0, 600, 0, 0⟩ 4000000000) := by
  have hw := fun now => blockDeviceRound_warm "instance-0001" sampleLabels sampleDisk
    (sampleCalls ⟨0, 600, 0, 0⟩ [⟨"read_bytes_sec", .uint64 200⟩] now)
    (sampleCache ⟨0, 100, 0, 0⟩ 5000000000) ⟨0, 600, 0, 0⟩ 1073741824
    [⟨"read_bytes_sec", .uint64 200⟩] []
    { Limits.zero with readBytesSec := F64.fin 200 } (F64.fin 0) (F64.fin 0)
    (diskSnapshot ⟨0, 100, 0, 0⟩ 5000000000) (by decide) rfl rfl rfl rfl (by decide) rfl
    (by simp [sampleCache])
  have hd := fun now => withDesc_blockDeviceRound_warm .libvirtDomainBlockReadBytesPercentDesc rfl
    "instance-0001" sampleLabels sampleDisk
    (sampleCalls ⟨0, 600, 0, 0⟩ [⟨"read_bytes_sec", .uint64 200⟩] now)
    (sampleCache ⟨0, 100, 0, 0⟩ 5000000000) ⟨0, 600, 0, 0⟩ 1073741824
    [⟨"read_bytes_sec", .uint64 200⟩] []
    { Limits.zero with readBytesSec := F64.fin 200 }
    (diskSnapshot ⟨0, 100, 0, 0⟩ 5000000000) (by decide) rfl rfl rfl rfl (by decide) rfl
    (by simp [sampleCache])
  refine ⟨?_, ?_, ?_, ?_⟩
  · rw [hd, withDesc_usage_readBytes]
    simp only [diskSnapshot, F64.sub_ofInt, sampleCalls, sampleDisk, Duration.Seconds_eq]
    rw [if_pos (by decide)]
    simp only [Time.Sub, maxDuration, minDuration]
    norm_num [F64.div, F64.mul]
  · rw [hd, withDesc_usage_readBytes]
    simp only [diskSnapshot, F64.sub_ofInt, sampleCalls, sampleDisk, Duration.Seconds_eq]
    rw [if_pos (by decide)]
    simp only [Time.Sub, maxDuration, minDuration]
    norm_num [F64.div, F64.mul]
  · rw [hw]
    simp [sampleCalls]
  · rw [hw]
    simp [sampleCalls]

/-! ## C9: a disk counter that went down -/

/-- C9, counterexample. The cache entry is `{t=0, readBytes=1000, writeBytes=100}`,
the sample `{t=10s, readBytes=200, writeBytes=600}`, both limits 200 bytes per
second: the percentage of the counter that went down is sent, with the value
`-40`, next to the percentage `25` of its sibling. -/
theorem blockDeviceRound_lower_counter_percent_sent :
    withDesc .libvirtDomainBlockReadBytesPercentDesc
      (blockDeviceRound "instance-0001" sampleLabels sampleDisk
        (sampleCalls ⟨0, 200, 0, 600⟩
          [⟨"read_bytes_sec", .uint64 200⟩, ⟨"write_bytes_sec", .uint64 200⟩] 10000000000)
        (sampleCache ⟨0, 1000, 0, 100⟩ 0)).sent =
      [⟨.libvirtDomainBlockReadBytesPercentDesc, .GaugeValue, F64.fin (-40),
        sampleLabels ++ ["vda"]⟩] ∧
    withDesc .libvirtDomainBlockWriteBytesPercentDesc
      (blockDeviceRound "instance-0001" sampleLabels sampleDisk
        (sampleCalls ⟨0, 200, 0, 600⟩
          [⟨"read_bytes_sec", .uint64 200⟩, ⟨"write_bytes_sec", .uint64 200⟩] 10000000000)
        (sampleCache ⟨0, 1000, 0, 100⟩ 0)).sent =
      [⟨.libvirtDomainBlockWriteBytesPercentDesc, .GaugeValue, F64.fin 25,
        sampleLabels ++ ["vda"]⟩] := by
  have hk := fun a q hq hq0 => blockDeviceRound_counter_percent a "instance-0001" sampleLabels
    sampleDisk
    (sampleCalls ⟨0, 200, 0, 600⟩
      [⟨"read_bytes_sec", .uint64 200⟩, ⟨"write_bytes_sec", .uint64 200⟩] 10000000000)
    (sampleCache ⟨0, 1000, 0, 100⟩ 0) ⟨0, 200, 0, 600⟩ ⟨0, 1000, 0, 100⟩ 0 1073741824
    [⟨"read_bytes_sec", .uint64 200⟩, ⟨"write_bytes_sec", .uint64 200⟩] []
    { Limits.zero with readBytesSec := F64.fin 200, writeBytesSec := F64.fin 200 }
    (by decide) rfl rfl rfl rfl (by decide) rfl (by simp [sampleCache]) (by decide) q hq hq0
  constructor
  · have h := hk .readBytes 200 rfl (by norm_num)
    simp only [CounterKind.limit, LimitKind.percentDesc, CounterKind.get] at h
    rw [h]
    simp only [sampleCalls, sampleDisk, Time.Sub, maxDuration, minDuration]
    norm_num
  · have h := hk .writeBytes 200 rfl (by norm_num)
    simp only [CounterKind.limit, LimitKind.percentDesc, CounterKind.get] at h
    rw [h]
    simp only [sampleCalls, sampleDisk, Time.Sub, maxDuration, minDuration]
    norm_num

/-- C9, amended. In a round that finds the cache entry written at `t0` from the
counters `p` and samples `c` at a later time, with the limits of the counters
`a` and `b` not zero: when the counter `a` is lower than its cached value, its
usage percentage is sent all the same, with the negative value
`(((c - p) / dt) / q) * 100`, and the percentage of the sibling `b` is sent with
its value `(((c - p) / dt) / q) * 100`. -/
theorem blockDeviceRound_counter_reset (a b : CounterKind) (domainName : String)
    (promLabels : List String) (disk : Disk) (l : DiskCalls) (cache : DiskTimeCache)
    (c p : BlockStats) (t0 : Int) (capacityBytes : Nat)
    (blockIOTune blockStats : List TypedParam) (lim : Limits)
    (hdev : ¬ (disk.Device = "cdrom" ∨ disk.Device = "fd"))
    (h1 : l.DomainBlockStats = .ok c) (h2 : l.DomainGetBlockInfo = .ok capacityBytes)
    (h3 : l.DomainGetBlockIOTune = .ok blockIOTune)
    (h4 : l.DomainBlockStatsFlags = .ok blockStats)
    (hlim : decodeTune blockIOTune Limits.zero = some lim)
    (hst : (decodeStats blockStats (F64.fin 0, F64.fin 0)).isSome = true)
    (hc : cache domainName = some (diskSnapshot p t0))
    (ht : t0 < l.now) (qa qb : ℚ)
    (hqa : a.limit.get lim = F64.fin qa) (hqa0 : qa ≠ 0)
    (hqb : b.limit.get lim = F64.fin qb) (hqb0 : qb ≠ 0)
    (hreset : a.get c < a.get p) :
    let sent := (blockDeviceRound domainName promLabels disk l cache).sent
    let dt : ℚ := ((Time.Sub l.now t0 : Int) : ℚ) / 1000000000
    let labels := promLabels ++ [disk.Target.Device]
    withDesc a.limit.percentDesc sent =
      [⟨a.limit.percentDesc, .GaugeValue,
        F64.fin (((((a.get c : ℚ) - a.get p) / dt) / qa) * 100), labels⟩] ∧
    ((((a.get c : ℚ) - a.get p) / dt) / qa) * 100 < 0 ∧
    withDesc b.limit.percentDesc sent =
      [⟨b.limit.percentDesc, .GaugeValue,
        F64.fin (((((b.get c : ℚ) - b.get p) / dt) / qb) * 100), labels⟩] := by
  intro sent dt labels
  have hk := fun a q hq hq0 => blockDeviceRound_counter_percent a domainName promLabels disk l
    cache c p t0 capacityBytes blockIOTune blockStats lim hdev h1 h2 h3 h4 hlim hst hc ht q hq hq0
  refine ⟨hk a qa hqa hqa0, ?_, hk b qb hqb hqb0⟩
  have hdt : 0 < dt := by
    have h := (Time.Sub_pos l.now t0).mpr ht
    have hq : (0 : ℚ) < ((Time.Sub l.now t0 : Int) : ℚ) := by exact_mod_cast h
    positivity
  have hqpos : 0 < qa := by
    obtain ⟨n, hn⟩ := decodeTune_ofNat a.limit blockIOTune Limits.zero lim hlim
      ⟨0, Limits.zero_get _⟩
    rw [hqa] at hn
    simp only [F64.ofNat, F64.fin.injEq] at hn
    have h0 : (0 : ℚ) ≤ qa := by rw [hn]; exact Nat.cast_nonneg n
    exact lt_of_le_of_ne h0 (Ne.symm hqa0)
  have hneg : ((a.get c : ℚ) - a.get p) < 0 := by
    have : (a.get c : ℚ) < a.get p := by exact_mod_cast hreset
    linarith
  have h1 : ((a.get c : ℚ) - a.get p) / dt < 0 := div_neg_of_neg_of_pos hneg hdt
  have h2 : ((a.get c : ℚ) - a.get p) / dt / qa < 0 := div_neg_of_neg_of_pos h1 hqpos
  linarith

/-- Witness of C9, amended: the read-bytes counter falls from 1000 to 200 while
the write-bytes counter rises from 100 to 600. -/
theorem blockDeviceRound_counter_reset_witness :
    withDesc .libvirtDomainBlockReadBytesPercentDesc
      (blockDeviceRound "instance-0001" sampleLabels sampleDisk
        (sampleCalls ⟨0, 200, 0, 600⟩
          [⟨"read_bytes_sec", .uint64 200⟩, ⟨"write_bytes_sec", .uint64 200⟩] 10000000000)
        (sampleCache ⟨0, 1000, 0, 100⟩ 0)).sent =
      [⟨.libvirtDomainBlockReadBytesPercentDesc, .GaugeValue,
        F64.fin (((((200 : Int) : ℚ) - (1000 : Int)) /
          (((Time.Sub 10000000000 0 : Int) : ℚ) / 1000000000) / 200) * 100),
        sampleLabels ++ ["vda"]⟩] :=
  (blockDeviceRound_counter_reset .readBytes .writeBytes "instance-0001" sampleLabels sampleDisk
    (sampleCalls ⟨0, 200, 0, 600⟩
      [⟨"read_bytes_sec", .uint64 200⟩, ⟨"write_bytes_sec", .uint64 200⟩] 10000000000)
    (sampleCache ⟨0, 1000, 0, 100⟩ 0) ⟨0, 200, 0, 600⟩ ⟨0, 1000, 0, 100⟩ 0 1073741824
    [⟨"read_bytes_sec", .uint64 200⟩, ⟨"write_bytes_sec", .uint64 200⟩] []
    { Limits.zero with readBytesSec := F64.fin 200, writeBytesSec := F64.fin 200 }
    (by decide) rfl rfl rfl rfl (by decide) rfl (by simp [sampleCache]) (by decide)
    200 200 rfl (by norm_num) rfl (by norm_num) (by decide)).1

/-! ## One parameter of a vCPU -/

/-- The `time` case of the switch. -/
theorem vcpuParamRound_time (promLabels : List String) (param : TypedParam) (now : Int)
    (m : VcpuMap) (digits : List Char) (c : Nat)
    (hcur : currentMatchString param.Field.toList = false)
    (hmax : maximumMatchString param.Field.toList = false)
    (hsub : vcpuFindStringSubmatch param.Field.toList = some (digits, "time".toList))
    (hval : param.Value = .uint64 c) :
    vcpuParamRound promLabels param now m =
      ⟨[⟨.libvirtDomainVCPUStatsTime, .CounterValue,
          F64.div (F64.ofNat c) (F64.fin 1000000000), promLabels ++ [String.mk digits]⟩]
        ++ (if (m (Atoi digits)).isSome = true then
              if F64.lt (F64.fin 0) (Duration.Seconds
                  (Time.Sub now ((m (Atoi digits)).getD vcpuCache.zero).lastTimestamp)) = true then
                [⟨.libvirtDomainVCPUStatsSysPercent, .GaugeValue,
                  F64.mul (F64.div
                    (F64.div (F64.ofNat
                        (subUint64 c ((m (Atoi digits)).getD vcpuCache.zero).lastTime))
                      (F64.fin 1000000000))
                    (Duration.Seconds
                      (Time.Sub now ((m (Atoi digits)).getD vcpuCache.zero).lastTimestamp)))
                    (F64.fin 100),
                  promLabels ++ [String.mk digits]⟩]
              else []
            else []),
        Function.update m (Atoi digits)
          (some ⟨c, ((m (Atoi digits)).getD vcpuCache.zero).lastDelay, now⟩),
        false⟩ := by
  unfold vcpuParamRound
  rw [hcur, hmax]
  simp only [Bool.false_eq_true, if_false, hsub, hval, TypedParamValue.asUint64]
  rfl

/-- The `wait` case of the switch, for a vCPU with a cache entry. -/
theorem vcpuParamRound_wait_found (promLabels : List String) (param : TypedParam) (now : Int)
    (m : VcpuMap) (digits : List Char) (c : Nat) (cached : vcpuCache)
    (hcur : currentMatchString param.Field.toList = false)
    (hmax : maximumMatchString param.Field.toList = false)
    (hsub : vcpuFindStringSubmatch param.Field.toList = some (digits, "wait".toList))
    (hval : param.Value = .uint64 c) (hm : m (Atoi digits) = some cached) :
    vcpuParamRound promLabels param now m =
      ⟨[⟨.libvirtDomainVCPUStatsWait, .CounterValue,
          F64.div (F64.ofNat c) (F64.fin 1000000000), promLabels ++ [String.mk digits]⟩]
        ++ (if F64.lt (F64.fin 0)
                (Duration.Seconds (Time.Sub now cached.lastTimestamp)) = true then
              [⟨.libvirtDomainVCPUStatsStealPercent, .GaugeValue,
                F64.mul (F64.div
                  (F64.div (F64.ofNat (subUint64 c cached.lastDelay)) (F64.fin 1000000000))
                  (Duration.Seconds (Time.Sub now cached.lastTimestamp)))
                  (F64.fin 100),
                promLabels ++ [String.mk digits]⟩]
            else []),
        Function.update m (Atoi digits) (some ⟨cached.lastTime, c, now⟩),
        false⟩ := by
  unfold vcpuParamRound
  rw [hcur, hmax]
  simp only [Bool.false_eq_true, if_false, hsub, hval, TypedParamValue.asUint64, hm,
    Option.isSome_some, Option.getD_some, if_true]
  rfl

/-- The `wait` case of the switch, for a vCPU without a cache entry. -/
theorem vcpuParamRound_wait_missing (promLabels : List String) (param : TypedParam) (now : Int)
    (m : VcpuMap) (digits : List Char) (c : Nat)
    (hcur : currentMatchString param.Field.toList = false)
    (hmax : maximumMatchString param.Field.toList = false)
    (hsub : vcpuFindStringSubmatch param.Field.toList = some (digits, "wait".toList))
    (hval : param.Value = .uint64 c) (hm : m (Atoi digits) = none) :
    vcpuParamRound promLabels param now m =
      ⟨[⟨.libvirtDomainVCPUStatsWait, .CounterValue,
          F64.div (F64.ofNat c) (F64.fin 1000000000), promLabels ++ [String.mk digits]⟩],
        m, false⟩ := by
  unfold vcpuParamRound
  rw [hcur, hmax]
  simp only [Bool.false_eq_true, if_false, hsub, hval, TypedParamValue.asUint64, hm,
    Option.isSome_none]
  rfl

/-- The seconds of an interval are positive exactly when the clock advanced. -/
theorem Duration.Seconds_pos (t u : Int) :
    F64.lt (F64.fin 0) (Duration.Seconds (Time.Sub t u)) = true ↔ u < t := by
  rw [Duration.Seconds_eq, ← Time.Sub_pos t u]
  simp only [F64.lt, decide_eq_true_eq]
  constructor
  · intro h
    have h2 : (0 : ℚ) < ((Time.Sub t u : Int) : ℚ) := by
      by_contra hc
      simp only [not_lt] at hc
      have : ((Time.Sub t u : Int) : ℚ) / 1000000000 ≤ 0 :=
        div_nonpos_of_nonpos_of_nonneg hc (by norm_num)
      linarith
    exact_mod_cast h2
  · intro h
    have h2 : (0 : ℚ) < ((Time.Sub t u : Int) : ℚ) := by exact_mod_cast h
    positivity

/-! ## C7: a vCPU interval that is not positive -/

/-- C7. For a vCPU with a cache entry, when the time elapsed since its
`lastTimestamp` is not positive: a `time` parameter sends no `sys_percent` and
a `wait` parameter sends no `steal_percent`, and in both cases the entry is
overwritten with the current counter and the current timestamp (the other
counter is kept). -/
theorem vcpuParamRound_nonpositive_interval (promLabels : List String) (param : TypedParam)
    (now : Int) (m : VcpuMap) (digits : List Char) (c : Nat) (cached : vcpuCache)
    (hcur : currentMatchString param.Field.toList = false)
    (hmax : maximumMatchString param.Field.toList = false)
    (hval : param.Value = .uint64 c)
    (hm : m (Atoi digits) = some cached)
    (hdt : Time.Sub now cached.lastTimestamp ≤ 0) :
    (vcpuFindStringSubmatch param.Field.toList = some (digits, "time".toList) →
      withDesc .libvirtDomainVCPUStatsSysPercent
          (vcpuParamRound promLabels param now m).sent = [] ∧
        (vcpuParamRound promLabels param now m).cache (Atoi digits) =
          some { lastTime := c, lastDelay := cached.lastDelay, lastTimestamp := now }) ∧
    (vcpuFindStringSubmatch param.Field.toList = some (digits, "wait".toList) →
      withDesc .libvirtDomainVCPUStatsStealPercent
          (vcpuParamRound promLabels param now m).sent = [] ∧
        (vcpuParamRound promLabels param now m).cache (Atoi digits) =
          some { lastTime := cached.lastTime, lastDelay := c, lastTimestamp := now }) := by
  have hlt : ¬ (F64.lt (F64.fin 0) (Duration.Seconds (Time.Sub now cached.lastTimestamp)) = true) := by
    rw [Duration.Seconds_pos]
    have := (Time.Sub_nonpos now cached.lastTimestamp).mp hdt
    omega
  constructor
  · intro hsub
    rw [vcpuParamRound_time promLabels param now m digits c hcur hmax hsub hval]
    simp only [hm, Option.isSome_some, Option.getD_some, if_true, if_neg hlt,
      List.append_nil, Function.update_same, and_true]
    rfl
  · intro hsub
    rw [vcpuParamRound_wait_found promLabels param now m digits c cached hcur hmax hsub hval hm]
    simp only [if_neg hlt, List.append_nil, Function.update_same, and_true]
    rfl

/-- Witness of C7: the `time` parameter of vCPU 0 arrives at the timestamp of
the cache entry. -/
theorem vcpuParamRound_nonpositive_interval_witness :
    withDesc .libvirtDomainVCPUStatsSysPercent
        (vcpuParamRound sampleLabels ⟨"vcpu.0.time", .uint64 7000000000⟩ 1000
          (Function.update (fun _ => none) 0 (some ⟨5000000000, 1000000000, 1000⟩))).sent = [] ∧
      (vcpuParamRound sampleLabels ⟨"vcpu.0.time", .uint64 7000000000⟩ 1000
          (Function.update (fun _ => none) 0 (some ⟨5000000000, 1000000000, 1000⟩))).cache
            (Atoi "0".toList) =
        some { lastTime := 7000000000, lastDelay := 1000000000, lastTimestamp := 1000 } :=
  (vcpuParamRound_nonpositive_interval sampleLabels ⟨"vcpu.0.time", .uint64 7000000000⟩ 1000
    (Function.update (fun _ => none) 0 (some ⟨5000000000, 1000000000, 1000⟩)) "0".toList
    7000000000 ⟨5000000000, 1000000000, 1000⟩ (by decide) (by decide) rfl (by decide)
    (by decide)).1 (by decide)

/-! ## C8: a vCPU counter that went down -/

/-- The unsigned difference of a lower counter wraps around `2^64`. -/
theorem subUint64_wrap (c p : Nat) (h : c < p) (hp : p < 18446744073709551616) :
    ((subUint64 c p : Nat) : ℚ) = 18446744073709551616 - ((p : ℚ) - c) := by
  have e : subUint64 c p = 18446744073709551616 - (p - c) := by
    unfold subUint64
    omega
  rw [e]
  have h1 : p - c ≤ 18446744073709551616 := by omega
  have h2 : c ≤ p := by omega
  push_cast [Nat.cast_sub h1, Nat.cast_sub h2]
  ring

/-- Percentage of a vCPU counter delta over a positive interval, on finite values. -/
theorem F64.vcpu_percent_fin (x : Nat) (now t0 : Int) (ht : t0 < now) :
    F64.mul (F64.div (F64.div (F64.ofNat x) (F64.fin 1000000000))
        (Duration.Seconds (Time.Sub now t0))) (F64.fin 100) =
      F64.fin ((((x : ℚ) / 1000000000) / (((Time.Sub now t0 : Int) : ℚ) / 1000000000)) * 100) := by
  rw [Duration.Seconds_eq, F64.ofNat, F64.div_fin _ _ (by norm_num),
    F64.div_fin _ _ (Time.Sub_seconds_ne_zero now t0 ht), F64.mul_fin]

/-- C8, counterexample. The cache entry of vCPU 0 is `{lastTime=1000, t=0}` and
the `time` parameter holds 200 at `t=10s`: `sys_percent` is sent, with the
value of the wrapped difference `2^64 - 800`. -/
theorem vcpuParamRound_lower_counter_sends_sys_percent :
    withDesc .libvirtDomainVCPUStatsSysPercent
        (vcpuParamRound sampleLabels ⟨"vcpu.0.time", .uint64 200⟩ 10000000000
          (Function.update (fun _ => none) 0 (some ⟨1000, 0, 0⟩))).sent =
      [⟨.libvirtDomainVCPUStatsSysPercent, .GaugeValue,
        F64.fin (18446744073709550816 / 100000000), sampleLabels ++ ["0"]⟩] := by
  rw [vcpuParamRound_time sampleLabels ⟨"vcpu.0.time", .uint64 200⟩ 10000000000
    (Function.update (fun _ => none) 0 (some ⟨1000, 0, 0⟩)) "0".toList 200
    (by decide) (by decide) (by decide) rfl]
  have hm : (Function.update (fun _ => none) 0 (some ⟨1000, 0, 0⟩) : VcpuMap) (Atoi "0".toList)
      = some ⟨1000, 0, 0⟩ := by decide
  simp only [hm, Option.isSome_some, Option.getD_some, if_true]
  rw [if_pos ((Duration.Seconds_pos _ _).mpr (by decide)),
    F64.vcpu_percent_fin _ _ _ (by decide), subUint64_wrap 200 1000 (by decide) (by decide)]
  simp only [withDesc, Time.Sub, maxDuration, minDuration]
  norm_num
  rfl

/-- C8, amended. For a vCPU with a cache entry and a positive elapsed time, when
the `time` counter (respectively the `wait` counter) is lower than the cached
`lastTime` (respectively `lastDelay`), `sys_percent` (respectively
`steal_percent`) is sent all the same: its value is that of the difference
wrapped around `2^64`, `(((2^64 - (p - c)) / 1e9) / dt) * 100`, and positive. -/
theorem vcpuParamRound_counter_reset (promLabels : List String) (param : TypedParam)
    (now : Int) (m : VcpuMap) (digits : List Char) (c : Nat) (cached : vcpuCache)
    (hcur : currentMatchString param.Field.toList = false)
    (hmax : maximumMatchString param.Field.toList = false)
    (hval : param.Value = .uint64 c)
    (hm : m (Atoi digits) = some cached)
    (ht : cached.lastTimestamp < now) :
    (vcpuFindStringSubmatch param.Field.toList = some (digits, "time".toList) →
      c < cached.lastTime → cached.lastTime < 18446744073709551616 →
      withDesc .libvirtDomainVCPUStatsSysPercent (vcpuParamRound promLabels param now m).sent =
        [⟨.libvirtDomainVCPUStatsSysPercent, .GaugeValue,
          F64.fin ((((18446744073709551616 - ((cached.lastTime : ℚ) - c)) / 1000000000) /
            (((Time.Sub now cached.lastTimestamp : Int) : ℚ) / 1000000000)) * 100),
          promLabels ++ [String.mk digits]⟩] ∧
      0 < (((18446744073709551616 - ((cached.lastTime : ℚ) - c)) / 1000000000) /
            (((Time.Sub now cached.lastTimestamp : Int) : ℚ) / 1000000000)) * 100) ∧
    (vcpuFindStringSubmatch param.Field.toList = some (digits, "wait".toList) →
      c < cached.lastDelay → cached.lastDelay < 18446744073709551616 →
      withDesc .libvirtDomainVCPUStatsStealPercent (vcpuParamRound promLabels param now m).sent =
        [⟨.libvirtDomainVCPUStatsStealPercent, .GaugeValue,
          F64.fin ((((18446744073709551616 - ((cached.lastDelay : ℚ) - c)) / 1000000000) /
            (((Time.Sub now cached.lastTimestamp : Int) : ℚ) / 1000000000)) * 100),
          promLabels ++ [String.mk digits]⟩] ∧
      0 < (((18446744073709551616 - ((cached.lastDelay : ℚ) - c)) / 1000000000) /
            (((Time.Sub now cached.lastTimestamp : Int) : ℚ) / 1000000000)) * 100) := by
  have hpos := (Duration.Seconds_pos now cached.lastTimestamp).mpr ht
  have hdt : (0 : ℚ) < ((Time.Sub now cached.lastTimestamp : Int) : ℚ) / 1000000000 := by
    have h := (Time.Sub_pos now cached.lastTimestamp).mpr ht
    have hq : (0 : ℚ) < ((Time.Sub now cached.lastTimestamp : Int) : ℚ) := by exact_mod_cast h
    positivity
  have key : ∀ p : Nat, c < p → p < 18446744073709551616 →
      0 < (((18446744073709551616 - ((p : ℚ) - c)) / 1000000000) /
            (((Time.Sub now cached.lastTimestamp : Int) : ℚ) / 1000000000)) * 100 := by
    intro p _ hp
    have h1 : (p : ℚ) < 18446744073709551616 := by exact_mod_cast hp
    have h2 : (0 : ℚ) ≤ c := Nat.cast_nonneg c
    have h3 : (0 : ℚ) < 18446744073709551616 - ((p : ℚ) - c) := by linarith
    positivity
  constructor
  · intro hsub hlow hp
    refine ⟨?_, key _ hlow hp⟩
    rw [vcpuParamRound_time promLabels param now m digits c hcur hmax hsub hval]
    simp only [hm, Option.isSome_some, Option.getD_some, if_true]
    rw [if_pos hpos, F64.vcpu_percent_fin _ _ _ ht, subUint64_wrap c _ hlow hp]
    simp [withDesc]
  · intro hsub hlow hp
    refine ⟨?_, key _ hlow hp⟩
    rw [vcpuParamRound_wait_found promLabels param now m digits c cached hcur hmax hsub hval hm]
    rw [if_pos hpos, F64.vcpu_percent_fin _ _ _ ht, subUint64_wrap c _ hlow hp]
    simp [withDesc]

/-- Witness of C8, amended: `lastTime` 1000, current value 200, ten seconds later. -/
theorem vcpuParamRound_counter_reset_witness :
    withDesc .libvirtDomainVCPUStatsSysPercent
        (vcpuParamRound sampleLabels ⟨"vcpu.0.time", .uint64 200⟩ 10000000000
          (Function.update (fun _ => none) 0 (some ⟨1000, 0, 0⟩))).sent =
      [⟨.libvirtDomainVCPUStatsSysPercent, .GaugeValue,
        F64.fin ((((18446744073709551616 - (((1000 : Nat) : ℚ) - (200 : Nat))) / 1000000000) /
          (((Time.Sub 10000000000 0 : Int) : ℚ) / 1000000000)) * 100),
        sampleLabels ++ ["0"]⟩] ∧
    0 < (((18446744073709551616 - (((1000 : Nat) : ℚ) - (200 : Nat))) / 1000000000) /
            (((Time.Sub 10000000000 0 : Int) : ℚ) / 1000000000)) * 100 :=
  (vcpuParamRound_counter_reset sampleLabels ⟨"vcpu.0.time", .uint64 200⟩ 10000000000
    (Function.update (fun _ => none) 0 (some ⟨1000, 0, 0⟩)) "0".toList 200 ⟨1000, 0, 0⟩
    (by decide) (by decide) rfl (by decide) (by decide)).1 (by decide) (by decide)
    (by decide)

/-! ## C5: cold start of a vCPU -/

/-- C5, on the code. `vcpuTimeCache` is empty and the stats record lists
`vcpu.0.time` and then `vcpu.0.wait`, processed one microsecond apart.  The
`time` parameter writes the entry of vCPU 0, the `wait` parameter then finds it:
`steal_percent` is sent in this first call, computed from the whole `wait`
counter over the microsecond between the two parameters. -/
theorem CollectDomainVCPUInfo_cold_start_sends_steal_percent :
    withDesc .libvirtDomainVCPUStatsStealPercent
        (CollectDomainVCPUInfo "instance-0001" sampleLabels
          (.ok [⟨[(⟨"vcpu.0.time", .uint64 5000000000⟩, 1000),
                  (⟨"vcpu.0.wait", .uint64 1000000000⟩, 2000)]⟩])
          (fun _ => none)).sent =
      [⟨.libvirtDomainVCPUStatsStealPercent, .GaugeValue, F64.fin 100000000,
        sampleLabels ++ ["0"]⟩] := by
  have r1 := vcpuParamRound_time sampleLabels ⟨"vcpu.0.time", .uint64 5000000000⟩ 1000
    (fun _ => none) "0".toList 5000000000 (by decide) (by decide) (by decide) rfl
  simp only [Option.isSome_none, Bool.false_eq_true, if_false, List.append_nil,
    Option.getD_none, vcpuCache.zero] at r1
  have r2 := vcpuParamRound_wait_found sampleLabels ⟨"vcpu.0.wait", .uint64 1000000000⟩ 2000
    (Function.update (fun _ => none) (Atoi "0".toList) (some ⟨5000000000, 0, 1000⟩))
    "0".toList 1000000000 ⟨5000000000, 0, 1000⟩ (by decide) (by decide) (by decide) rfl
    (by simp)
  rw [if_pos ((Duration.Seconds_pos _ _).mpr (by decide)),
    F64.vcpu_percent_fin _ _ _ (by decide)] at r2
  simp only [CollectDomainVCPUInfo, vcpuStatsLoop, vcpuParamsLoop, Option.getD_none, r1, r2,
    Bool.false_eq_true, if_false, List.append_nil]
  have hs : subUint64 1000000000 0 = 1000000000 := by decide
  simp only [List.cons_append, List.nil_append, withDesc_cons, withDesc_nil, hs,
    Time.Sub, maxDuration, minDuration, reduceCtorEq, if_false, if_true]
  norm_num

/-! ## C10: the sign of the percentages -/

/-- A vCPU percentage, sent only over a positive interval, is not negative. -/
theorem F64.vcpu_percent_nonneg (n : Nat) (d : Int)
    (h : F64.lt (F64.fin 0) (Duration.Seconds d) = true) :
    F64.nonneg (F64.mul (F64.div (F64.div (F64.ofNat n) (F64.fin 1000000000))
      (Duration.Seconds d)) (F64.fin 100)) = true := by
  rw [Duration.Seconds_eq] at h ⊢
  simp only [F64.lt, decide_eq_true_eq] at h
  rw [F64.ofNat, F64.div_fin _ _ (by norm_num), F64.div_fin _ _ (ne_of_gt h), F64.mul_fin]
  simp only [F64.nonneg, decide_eq_true_eq]
  have : (0 : ℚ) ≤ n := Nat.cast_nonneg n
  positivity

theorem vcpuParamRound_percent_nonneg (promLabels : List String) (param : TypedParam)
    (now : Int) (m : VcpuMap) :
    ∀ x ∈ (vcpuParamRound promLabels param now m).sent,
      x.desc = .libvirtDomainVCPUStatsSysPercent ∨ x.desc = .libvirtDomainVCPUStatsStealPercent →
      F64.nonneg x.value = true := by
  intro x hx hd
  unfold vcpuParamRound at hx
  repeat' split at hx
  all_goals
    simp only [List.mem_cons, List.mem_append, List.mem_singleton, List.not_mem_nil, or_false,
      false_or] at hx
  all_goals repeat' split at hx
  all_goals
    try simp only [List.mem_cons, List.mem_append, List.mem_singleton, List.not_mem_nil,
      or_false, false_or] at hx
  all_goals first
    | (subst hx
       simp at hd)
    | (rcases hx with rfl | rfl <;>
       first
       | exact F64.vcpu_percent_nonneg _ _ (by assumption)
       | simp at hd)

theorem vcpuParamsLoop_percent_nonneg (promLabels : List String)
    (params : List (TypedParam × Int)) :
    ∀ (m : VcpuMap), ∀ x ∈ (vcpuParamsLoop promLabels params m).sent,
      x.desc = .libvirtDomainVCPUStatsSysPercent ∨ x.desc = .libvirtDomainVCPUStatsStealPercent →
      F64.nonneg x.value = true := by
  induction params with
  | nil =>
    intro m x hx
    simp [vcpuParamsLoop] at hx
  | cons pn rest ih =>
    obtain ⟨param, now⟩ := pn
    intro m x hx hd
    simp only [vcpuParamsLoop] at hx
    split at hx
    · exact vcpuParamRound_percent_nonneg promLabels param now m x hx hd
    · rcases List.mem_append.mp hx with h | h
      · exact vcpuParamRound_percent_nonneg promLabels param now m x h hd
      · exact ih _ x h hd

theorem vcpuStatsLoop_percent_nonneg (promLabels : List String)
    (stats : List DomainStatsRecord) :
    ∀ (m : VcpuMap), ∀ x ∈ (vcpuStatsLoop promLabels stats m).sent,
      x.desc = .libvirtDomainVCPUStatsSysPercent ∨ x.desc = .libvirtDomainVCPUStatsStealPercent →
      F64.nonneg x.value = true := by
  induction stats with
  | nil =>
    intro m x hx
    simp [vcpuStatsLoop] at hx
  | cons stat rest ih =>
    intro m x hx hd
    simp only [vcpuStatsLoop] at hx
    split at hx
    · exact vcpuParamsLoop_percent_nonneg promLabels stat.Params m x hx hd
    · rcases List.mem_append.mp hx with h | h
      · exact vcpuParamsLoop_percent_nonneg promLabels stat.Params m x h hd
      · exact ih _ x h hd

/-- Every percentage of a vCPU that `CollectDomainVCPUInfo` sends is not negative. -/
theorem CollectDomainVCPUInfo_percent_nonneg (domainName : String) (promLabels : List String)
    (stats : Except String (List DomainStatsRecord)) (cache : VcpuTimeCache) :
    ∀ x ∈ (CollectDomainVCPUInfo domainName promLabels stats cache).sent,
      x.desc = .libvirtDomainVCPUStatsSysPercent ∨ x.desc = .libvirtDomainVCPUStatsStealPercent →
      F64.nonneg x.value = true := by
  intro x hx hd
  unfold CollectDomainVCPUInfo at hx
  cases stats with
  | error err => simp at hx
  | ok recs => exact vcpuStatsLoop_percent_nonneg promLabels recs _ x hx hd

/-- A disk percentage of a rate, over a positive interval and a limit that is
not negative, with a delta that is not negative. -/
theorem F64.rate_percent_nonneg (x q : ℚ) (now t0 : Int) (ht : t0 < now) (hx : 0 ≤ x)
    (hq : 0 ≤ q) (hq0 : F64.fin q ≠ F64.fin 0) :
    F64.nonneg (F64.mul (F64.div (F64.div (F64.fin x) (Duration.Seconds (Time.Sub now t0)))
      (F64.fin q)) (F64.fin 100)) = true := by
  have hq1 : q ≠ 0 := fun h => hq0 (by rw [h])
  rw [F64.rate_percent_fin x q now t0 ht hq1]
  simp only [F64.nonneg, decide_eq_true_eq]
  have hdt : (0 : ℚ) < ((Time.Sub now t0 : Int) : ℚ) / 1000000000 := by
    have h := (Time.Sub_pos now t0).mpr ht
    have h2 : (0 : ℚ) < ((Time.Sub now t0 : Int) : ℚ) := by exact_mod_cast h
    positivity
  positivity

/-- The total-bytes percentage, a delta over a limit, with a delta that is not negative. -/
theorem F64.delta_percent_nonneg (x q : ℚ) (hx : 0 ≤ x) (hq : 0 ≤ q)
    (hq0 : F64.fin q ≠ F64.fin 0) :
    F64.nonneg (F64.mul (F64.div (F64.fin x) (F64.fin q)) (F64.fin 100)) = true := by
  have hq1 : q ≠ 0 := fun h => hq0 (by rw [h])
  rw [F64.div_fin _ _ hq1, F64.mul_fin]
  simp only [F64.nonneg, decide_eq_true_eq]
  positivity

/-- With counters that did not go down and a clock that advanced, every usage
percentage of a disk is not negative. -/
theorem diskUsagePercentMetrics_nonneg (c p : BlockStats) (t0 now : Int) (lim : Limits)
    (labels : List String) (ht : t0 < now)
    (hlim : ∀ k : LimitKind, ∃ n : Nat, k.get lim = F64.ofNat n)
    (hge : ∀ a : CounterKind, a.get p ≤ a.get c) :
    ∀ x ∈ diskUsagePercentMetrics (diskSnapshot p t0) c now lim labels,
      F64.nonneg x.value = true := by
  intro x hx
  obtain ⟨n1, h1⟩ := hlim .totalBytesSec
  obtain ⟨n2, h2⟩ := hlim .readBytesSec
  obtain ⟨n3, h3⟩ := hlim .writeBytesSec
  obtain ⟨n4, h4⟩ := hlim .totalIopsSec
  obtain ⟨n5, h5⟩ := hlim .writeIopsSec
  obtain ⟨n6, h6⟩ := hlim .readIopsSec
  simp only [LimitKind.get, F64.ofNat] at h1 h2 h3 h4 h5 h6
  have g1 : (0 : ℚ) ≤ (c.rRdReq : ℚ) - p.rRdReq := by
    have := hge .readRequests
    simp only [CounterKind.get] at this
    have h : (p.rRdReq : ℚ) ≤ c.rRdReq := by exact_mod_cast this
    linarith
  have g2 : (0 : ℚ) ≤ (c.rWrReq : ℚ) - p.rWrReq := by
    have := hge .writeRequests
    simp only [CounterKind.get] at this
    have h : (p.rWrReq : ℚ) ≤ c.rWrReq := by exact_mod_cast this
    linarith
  have g3 : (0 : ℚ) ≤ (c.rRdBytes : ℚ) - p.rRdBytes := by
    have := hge .readBytes
    simp only [CounterKind.get] at this
    have h : (p.rRdBytes : ℚ) ≤ c.rRdBytes := by exact_mod_cast this
    linarith
  have g4 : (0 : ℚ) ≤ (c.rWrBytes : ℚ) - p.rWrBytes := by
    have := hge .writeBytes
    simp only [CounterKind.get] at this
    have h : (p.rWrBytes : ℚ) ≤ c.rWrBytes := by exact_mod_cast this
    linarith
  unfold diskUsagePercentMetrics at hx
  simp only [diskSnapshot, F64.sub_ofInt, F64.add_fin, h1, h2, h3, h4, h5, h6,
    List.mem_append] at hx
  rcases hx with ((((hx | hx) | hx) | hx) | hx) | hx <;> split at hx <;>
    simp only [List.mem_singleton, List.not_mem_nil] at hx <;> subst hx
  · exact F64.rate_percent_nonneg _ _ _ _ ht g1 (Nat.cast_nonneg _) (by assumption)
  · exact F64.rate_percent_nonneg _ _ _ _ ht g2 (Nat.cast_nonneg _) (by assumption)
  · exact F64.rate_percent_nonneg _ _ _ _ ht (add_nonneg g1 g2) (Nat.cast_nonneg _)
      (by assumption)
  · exact F64.rate_percent_nonneg _ _ _ _ ht g3 (Nat.cast_nonneg _) (by assumption)
  · exact F64.rate_percent_nonneg _ _ _ _ ht g4 (Nat.cast_nonneg _) (by assumption)
  · exact F64.delta_percent_nonneg _ _ (add_nonneg g3 g4) (Nat.cast_nonneg _) (by assumption)

/-- C10, counterexample. The cache entry is `{t=0, writeBytes=1000}`, the sample
`{t=10s, writeBytes=200}` and the write limit 200 bytes per second: the round
sends `write_bytes_usage_percent = -40`, a negative percentage. -/
theorem blockDeviceRound_negative_percent :
    ∃ x ∈ (blockDeviceRound "instance-0001" sampleLabels sampleDisk
        (sampleCalls ⟨0, 0, 0, 200⟩ [⟨"write_bytes_sec", .uint64 200⟩] 10000000000)
        (sampleCache ⟨0, 0, 0, 1000⟩ 0)).sent,
      x.desc = .libvirtDomainBlockWriteBytesPercentDesc ∧ x.value = F64.fin (-40) ∧
        F64.nonneg x.value = false := by
  have h := blockDeviceRound_counter_percent .writeBytes "instance-0001" sampleLabels sampleDisk
    (sampleCalls ⟨0, 0, 0, 200⟩ [⟨"write_bytes_sec", .uint64 200⟩] 10000000000)
    (sampleCache ⟨0, 0, 0, 1000⟩ 0) ⟨0, 0, 0, 200⟩ ⟨0, 0, 0, 1000⟩ 0 1073741824
    [⟨"write_bytes_sec", .uint64 200⟩] []
    { Limits.zero with writeBytesSec := F64.fin 200 }
    (by decide) rfl rfl rfl rfl (by decide) rfl (by simp [sampleCache]) (by decide)
    200 rfl (by norm_num)
  simp only [CounterKind.limit, LimitKind.percentDesc, CounterKind.get] at h
  have hv : ((((((200 : Int) : ℚ) - ((1000 : Int) : ℚ)) /
      (((Time.Sub (sampleCalls ⟨0, 0, 0, 200⟩ [⟨"write_bytes_sec", .uint64 200⟩]
        10000000000).now 0 : Int) : ℚ) / 1000000000)) / 200) * 100) = -40 := by
    simp only [sampleCalls, Time.Sub, maxDuration, minDuration]
    norm_num
  rw [hv] at h
  refine ⟨⟨.libvirtDomainBlockWriteBytesPercentDesc, .GaugeValue, F64.fin (-40),
    sampleLabels ++ [sampleDisk.Target.Device]⟩, ?_, rfl, rfl, ?_⟩
  · have hmem : (⟨.libvirtDomainBlockWriteBytesPercentDesc, .GaugeValue, F64.fin (-40),
        sampleLabels ++ [sampleDisk.Target.Device]⟩ : Metric) ∈
        withDesc .libvirtDomainBlockWriteBytesPercentDesc
          (blockDeviceRound "instance-0001" sampleLabels sampleDisk
            (sampleCalls ⟨0, 0, 0, 200⟩ [⟨"write_bytes_sec", .uint64 200⟩] 10000000000)
            (sampleCache ⟨0, 0, 0, 1000⟩ 0)).sent := by
      rw [h]
      exact List.mem_singleton_self _
    exact (List.mem_filter.mp hmem).1
  · simp only [F64.nonneg, decide_eq_false_iff_not, not_le]
    norm_num

/-- C10, amended. Every `sys_percent` and `steal_percent` that
`CollectDomainVCPUInfo` sends is `>= 0`, for every cache, every list of
parameters and every reading of the clock.  The `*_usage_percent` values of a
disk are `>= 0` in a round that finds the cache entry written at `t0` from the
counters `p` and samples, at a later time, counters that are all at least `p`;
a counter below its cached value gives a negative percentage. -/
theorem percent_values_nonneg :
    (∀ (domainName : String) (promLabels : List String)
        (stats : Except String (List DomainStatsRecord)) (cache : VcpuTimeCache),
      ∀ x ∈ (CollectDomainVCPUInfo domainName promLabels stats cache).sent,
        x.desc = .libvirtDomainVCPUStatsSysPercent ∨
          x.desc = .libvirtDomainVCPUStatsStealPercent →
        F64.nonneg x.value = true) ∧
    (∀ (domainName : String) (promLabels : List String) (disk : Disk) (l : DiskCalls)
        (cache : DiskTimeCache) (c p : BlockStats) (t0 : Int) (capacityBytes : Nat)
        (blockIOTune blockStats : List TypedParam),
      ¬ (disk.Device = "cdrom" ∨ disk.Device = "fd") →
      l.DomainBlockStats = .ok c → l.DomainGetBlockInfo = .ok capacityBytes →
      l.DomainGetBlockIOTune = .ok blockIOTune → l.DomainBlockStatsFlags = .ok blockStats →
      (decodeTune blockIOTune Limits.zero).isSome = true →
      (decodeStats blockStats (F64.fin 0, F64.fin 0)).isSome = true →
      cache domainName = some (diskSnapshot p t0) → t0 < l.now →
      (∀ a : CounterKind, a.get p ≤ a.get c) →
      ∀ x ∈ (blockDeviceRound domainName promLabels disk l cache).sent,
        x.desc.isDiskUsagePercent = true → F64.nonneg x.value = true) := by
  constructor
  · exact CollectDomainVCPUInfo_percent_nonneg
  · intro domainName promLabels disk l cache c p t0 capacityBytes blockIOTune blockStats hdev h1
      h2 h3 h4 hlim hst hc ht hge x hx hd
    obtain ⟨lim, hlim⟩ := Option.isSome_iff_exists.mp hlim
    obtain ⟨⟨rt, wt⟩, hst⟩ := Option.isSome_iff_exists.mp hst
    rw [blockDeviceRound_warm domainName promLabels disk l cache c capacityBytes blockIOTune
      blockStats lim rt wt (diskSnapshot p t0) hdev h1 h2 h3 h4 hlim hst hc] at hx
    simp only [List.mem_append] at hx
    rcases hx with ((hx | hx) | hx) | hx
    · rw [blockCounterMetrics_not_usage c _ x hx] at hd
      exact absurd hd (by decide)
    · rw [blockLimitMetrics_not_usage _ lim rt wt _ x hx] at hd
      exact absurd hd (by decide)
    · exact diskUsagePercentMetrics_nonneg c p t0 l.now lim _ ht
        (fun k => decodeTune_ofNat k blockIOTune Limits.zero lim hlim ⟨0, Limits.zero_get k⟩)
        hge x hx
    · rw [blockInfoMetric_not_usage promLabels disk x hx] at hd
      exact absurd hd (by decide)

/-- Witness of C10, amended: the percentage 25 of the round with the cache entry
`{t=0, readBytes=100}` and the sample `{t=10s, readBytes=600}`. -/
theorem percent_values_nonneg_witness :
    ∀ x ∈ (blockDeviceRound "instance-0001" sampleLabels sampleDisk
        (sampleCalls ⟨0, 600, 0, 0⟩ [⟨"read_bytes_sec", .uint64 200⟩] 10000000000)
        (sampleCache ⟨0, 100, 0, 0⟩ 0)).sent,
      x.desc.isDiskUsagePercent = true → F64.nonneg x.value = true :=
  percent_values_nonneg.2 "instance-0001" sampleLabels sampleDisk
    (sampleCalls ⟨0, 600, 0, 0⟩ [⟨"read_bytes_sec", .uint64 200⟩] 10000000000)
    (sampleCache ⟨0, 100, 0, 0⟩ 0) ⟨0, 600, 0, 0⟩ ⟨0, 100, 0, 0⟩ 0 1073741824
    [⟨"read_bytes_sec", .uint64 200⟩] [] (by decide) rfl rfl rfl rfl (by decide) rfl
    (by simp [sampleCache]) (by decide) (by intro a; cases a <;> decide)

/-! ## Writes of a round to `diskTimeCache` -/

/-- A round leaves the cache as it is or writes the snapshot of the current
counters under the domain's name. -/
theorem blockDeviceRound_cache_cases (domainName : String) (promLabels : List String)
    (disk : Disk) (l : DiskCalls) (cache : DiskTimeCache) :
    (blockDeviceRound domainName promLabels disk l cache).cache = cache ∨
    ∃ bs, l.DomainBlockStats = .ok bs ∧ l.anyCallFails = false ∧
      (blockDeviceRound domainName promLabels disk l cache).cache =
        Function.update cache domainName (some (diskSnapshot bs l.now)) := by
  unfold blockDeviceRound
  split
  · exact Or.inl rfl
  · split
    · exact Or.inl rfl
    · split
      · exact Or.inl rfl
      · split
        · exact Or.inl rfl
        · split
          · exact Or.inl rfl
          · split
            · exact Or.inl rfl
            · split
              · exact Or.inl rfl
              · right
                refine ⟨_, by assumption, ?_, ?_⟩
                · simp [DiskCalls.anyCallFails, isError, *]
                · split <;> rfl

/-- A round in which one of the four calls fails: the cache is untouched, only
raw counters may have been sent, and the collector returns the error. -/
theorem blockDeviceRound_failed (domainName : String) (promLabels : List String)
    (disk : Disk) (l : DiskCalls) (cache : DiskTimeCache)
    (hdev : ¬ (disk.Device = "cdrom" ∨ disk.Device = "fd"))
    (hfail : l.anyCallFails = true) :
    (blockDeviceRound domainName promLabels disk l cache).cache = cache ∧
    (∃ err, (blockDeviceRound domainName promLabels disk l cache).exit = .returned (some err)) ∧
    ((blockDeviceRound domainName promLabels disk l cache).sent = [] ∨
      ∃ bs, (blockDeviceRound domainName promLabels disk l cache).sent =
        blockCounterMetrics bs (promLabels ++ [disk.Target.Device])) := by
  unfold blockDeviceRound
  rw [if_neg hdev]
  cases h1 : l.DomainBlockStats with
  | error err => exact ⟨rfl, ⟨err, rfl⟩, Or.inl rfl⟩
  | ok bs =>
    cases h2 : l.DomainGetBlockInfo with
    | error err => exact ⟨rfl, ⟨err, rfl⟩, Or.inr ⟨bs, rfl⟩⟩
    | ok capacityBytes =>
      cases h3 : l.DomainGetBlockIOTune with
      | error err => exact ⟨rfl, ⟨err, rfl⟩, Or.inr ⟨bs, rfl⟩⟩
      | ok blockIOTune =>
        cases h4 : l.DomainBlockStatsFlags with
        | error err => exact ⟨rfl, ⟨err, rfl⟩, Or.inr ⟨bs, rfl⟩⟩
        | ok blockStats =>
          simp [DiskCalls.anyCallFails, isError, h1, h2, h3, h4] at hfail

/-- A key of `diskTimeCache` stays present over a round. -/
theorem blockDeviceRound_keeps_keys (domainName : String) (promLabels : List String)
    (disk : Disk) (l : DiskCalls) (cache : DiskTimeCache) (key : String)
    (h : (cache key).isSome = true) :
    ((blockDeviceRound domainName promLabels disk l cache).cache key).isSome = true := by
  rcases blockDeviceRound_cache_cases domainName promLabels disk l cache with e | ⟨bs, _, _, e⟩
  · rw [e]; exact h
  · rw [e]
    by_cases hk : key = domainName
    · rw [hk, Function.update_same]; rfl
    · rw [Function.update_noteq hk]; exact h

/-- A key of `diskTimeCache` stays present over the loop. -/
theorem blockDeviceLoop_keeps_keys (domainName : String) (promLabels : List String)
    (disks : List (Disk × DiskCalls)) :
    ∀ (cache : DiskTimeCache) (key : String), (cache key).isSome = true →
      ((blockDeviceLoop domainName promLabels disks cache).cache key).isSome = true := by
  induction disks with
  | nil => intro cache key h; exact h
  | cons dl rest ih =>
    obtain ⟨disk, l⟩ := dl
    intro cache key h
    have h1 := blockDeviceRound_keeps_keys domainName promLabels disk l cache key h
    simp only [blockDeviceLoop]
    split
    · exact ih _ key h1
    · exact h1

/-! ## C16: a failed call leaves the caches unchanged -/

/-- C16. When one of the four calls made for a disk (`DomainBlockStats`,
`DomainGetBlockInfo`, `DomainGetBlockIOTune`, `DomainBlockStatsFlags`) fails,
the round of `CollectDomainBlockDeviceInfo` for that disk leaves
`diskTimeCache` as it was and sends no `*_usage_percent`; and when
`ConnectGetAllDomainStats` fails, `CollectDomainVCPUInfo` returns the error,
sends nothing and leaves `vcpuTimeCache` as it was. -/
theorem failed_call_leaves_cache_unchanged (domainName : String) (promLabels : List String)
    (disk : Disk) (l : DiskCalls) (cache : DiskTimeCache)
    (hfail : l.anyCallFails = true) :
    ((blockDeviceRound domainName promLabels disk l cache).cache = cache ∧
      ∀ m ∈ (blockDeviceRound domainName promLabels disk l cache).sent,
        m.desc.isDiskUsagePercent = false) ∧
    ∀ (err : String) (vcpuTimeCache : VcpuTimeCache),
      (CollectDomainVCPUInfo domainName promLabels (.error err) vcpuTimeCache).cache =
          vcpuTimeCache ∧
        (CollectDomainVCPUInfo domainName promLabels (.error err) vcpuTimeCache).exit =
          .returned (some err) ∧
        (CollectDomainVCPUInfo domainName promLabels (.error err) vcpuTimeCache).sent = [] := by
  constructor
  · by_cases hdev : disk.Device = "cdrom" ∨ disk.Device = "fd"
    · unfold blockDeviceRound
      rw [if_pos hdev]
      exact ⟨rfl, fun m hm => absurd hm (List.not_mem_nil m)⟩
    · obtain ⟨hc, _, hs⟩ := blockDeviceRound_failed domainName promLabels disk l cache hdev hfail
      refine ⟨hc, ?_⟩
      rcases hs with hs | ⟨bs, hs⟩
      · rw [hs]
        exact fun m hm => absurd hm (List.not_mem_nil m)
      · rw [hs]
        exact blockCounterMetrics_not_usage bs _
  · intro err vcpuTimeCache
    exact ⟨rfl, rfl, rfl⟩

/-- Witness of C16: `l.DomainBlockStats` fails for `vda`. -/
theorem failed_call_leaves_cache_unchanged_witness :
    (blockDeviceRound "instance-0001" sampleLabels sampleDisk (failingCalls 10000000000)
        (sampleCache ⟨0, 100, 0, 0⟩ 0)).cache = sampleCache ⟨0, 100, 0, 0⟩ 0 :=
  (failed_call_leaves_cache_unchanged "instance-0001" sampleLabels sampleDisk
    (failingCalls 10000000000) (sampleCache ⟨0, 100, 0, 0⟩ 0) (by decide)).1.1

/-! ## C17: the disks after a failed one -/

/-- The loop stops at a round that does not end with `next`. -/
theorem blockDeviceLoop_stop (domainName : String) (promLabels : List String) (disk : Disk)
    (l : DiskCalls) (rest : List (Disk × DiskCalls)) (cache : DiskTimeCache)
    (h : (blockDeviceRound domainName promLabels disk l cache).exit ≠ .next) :
    blockDeviceLoop domainName promLabels ((disk, l) :: rest) cache =
      blockDeviceRound domainName promLabels disk l cache := by
  simp only [blockDeviceLoop]

/-- The loop goes on after a round that ends with `next`. -/
theorem blockDeviceLoop_next (domainName : String) (promLabels : List String) (disk : Disk)
    (l : DiskCalls) (rest : List (Disk × DiskCalls)) (cache : DiskTimeCache)
    (h : (blockDeviceRound domainName promLabels disk l cache).exit = .next) :
    blockDeviceLoop domainName promLabels ((disk, l) :: rest) cache =
      ⟨(blockDeviceRound domainName promLabels disk l cache).sent ++
          (blockDeviceLoop domainName promLabels rest
            (blockDeviceRound domainName promLabels disk l cache).cache).sent,
        (blockDeviceLoop domainName promLabels rest
            (blockDeviceRound domainName promLabels disk l cache).cache).cache,
        (blockDeviceLoop domainName promLabels rest
            (blockDeviceRound domainName promLabels disk l cache).cache).exit⟩ := by
  simp only [blockDeviceLoop, h]

/-- C17, counterexample. The call `l.DomainBlockStats` fails for `vda`, every call
for the following disk `vdb` would succeed: the collector returns the error and
has sent no metric at all, none for `vdb`. -/
theorem CollectDomainBlockDeviceInfo_failure_skips_later_disk :
    (CollectDomainBlockDeviceInfo "instance-0001" sampleLabels
        [(sampleDisk, failingCalls 10000000000),
         (sampleDiskB, sampleCalls ⟨0, 600, 0, 0⟩ [] 10000001000)]
        (sampleCache ⟨0, 100, 0, 0⟩ 0)).sent = [] ∧
    (CollectDomainBlockDeviceInfo "instance-0001" sampleLabels
        [(sampleDisk, failingCalls 10000000000),
         (sampleDiskB, sampleCalls ⟨0, 600, 0, 0⟩ [] 10000001000)]
        (sampleCache ⟨0, 100, 0, 0⟩ 0)).exit = .returned (some "Domain not found") := by
  constructor <;> rfl

/-- A round in which a call fails returns the error of the first call that
fails, with the cache untouched and at most the four raw counters sent. -/
theorem blockDeviceRound_first_error (domainName : String) (promLabels : List String)
    (disk : Disk) (l : DiskCalls) (cache : DiskTimeCache) (err : String)
    (hdev : ¬ (disk.Device = "cdrom" ∨ disk.Device = "fd"))
    (herr : l.firstError = some err) :
    (blockDeviceRound domainName promLabels disk l cache).exit = .returned (some err) ∧
    (blockDeviceRound domainName promLabels disk l cache).cache = cache ∧
    ((blockDeviceRound domainName promLabels disk l cache).sent = [] ∨
      ∃ bs, l.DomainBlockStats = .ok bs ∧
        (blockDeviceRound domainName promLabels disk l cache).sent =
          blockCounterMetrics bs (promLabels ++ [disk.Target.Device])) := by
  unfold blockDeviceRound
  rw [if_neg hdev]
  unfold DiskCalls.firstError at herr
  cases h1 : l.DomainBlockStats with
  | error e =>
    simp only [h1, Option.some.injEq] at herr
    rw [herr]
    exact ⟨rfl, rfl, Or.inl rfl⟩
  | ok bs =>
    cases h2 : l.DomainGetBlockInfo with
    | error e =>
      simp only [h1, h2, Option.some.injEq] at herr
      rw [herr]
      exact ⟨rfl, rfl, Or.inr ⟨bs, rfl, rfl⟩⟩
    | ok capacityBytes =>
      cases h3 : l.DomainGetBlockIOTune with
      | error e =>
        simp only [h1, h2, h3, Option.some.injEq] at herr
        rw [herr]
        exact ⟨rfl, rfl, Or.inr ⟨bs, rfl, rfl⟩⟩
      | ok blockIOTune =>
        cases h4 : l.DomainBlockStatsFlags with
        | error e =>
          simp only [h1, h2, h3, h4, Option.some.injEq] at herr
          rw [herr]
          exact ⟨rfl, rfl, Or.inr ⟨bs, rfl, rfl⟩⟩
        | ok blockStats =>
          simp [h1, h2, h3, h4] at herr

/-- The loop over the disks, when the rounds of its first part all go on to
the next disk. -/
theorem blockDeviceLoop_after (domainName : String) (promLabels : List String)
    (tail : List (Disk × DiskCalls)) (earlier : List (Disk × DiskCalls)) :
    ∀ (cache : DiskTimeCache) (sent0 : List Metric) (cache0 : DiskTimeCache),
      roundsBefore domainName promLabels earlier cache = some (sent0, cache0) →
      blockDeviceLoop domainName promLabels (earlier ++ tail) cache =
        ⟨sent0 ++ (blockDeviceLoop domainName promLabels tail cache0).sent,
          (blockDeviceLoop domainName promLabels tail cache0).cache,
          (blockDeviceLoop domainName promLabels tail cache0).exit⟩ := by
  induction earlier with
  | nil =>
    intro cache sent0 cache0 h
    simp only [roundsBefore, Option.some.injEq, Prod.mk.injEq] at h
    rw [← h.1, ← h.2]
    rfl
  | cons dl earlier ih =>
    obtain ⟨d0, l0⟩ := dl
    intro cache sent0 cache0 h
    simp only [roundsBefore] at h
    split at h
    · rename_i hn
      cases hr : roundsBefore domainName promLabels earlier
          (blockDeviceRound domainName promLabels d0 l0 cache).cache with
      | none => rw [hr] at h; simp at h
      | some p =>
        obtain ⟨s1, c1⟩ := p
        rw [hr] at h
        simp only [Option.map_some', Option.some.injEq, Prod.mk.injEq] at h
        rw [List.cons_append, blockDeviceLoop_next _ _ _ _ _ _ hn, ih _ s1 c1 hr, ← h.1, ← h.2]
        simp only [List.append_assoc]
    · simp at h

/-- C17, amended. When a call fails while `CollectDomainBlockDeviceInfo` processes
a disk, the collector returns that error at once.  If the rounds of the disks
before it have sent `sent0` and left the cache `cache0`, the collector returns
the error of the first call that fails for the disk, leaves the cache at
`cache0` and has sent `sent0` and at most the four raw counters of the disk.
The result is the same whatever disks follow in the list, so no sample is
taken and no metric is sent for any later disk. -/
theorem CollectDomainBlockDeviceInfo_stops_at_failure (domainName : String)
    (promLabels : List String) (disk : Disk) (l : DiskCalls) (err : String)
    (hdev : ¬ (disk.Device = "cdrom" ∨ disk.Device = "fd"))
    (herr : l.firstError = some err) (rest : List (Disk × DiskCalls)) :
    ∀ (earlier : List (Disk × DiskCalls)) (cache : DiskTimeCache),
      CollectDomainBlockDeviceInfo domainName promLabels (earlier ++ (disk, l) :: rest) cache =
        CollectDomainBlockDeviceInfo domainName promLabels (earlier ++ [(disk, l)]) cache ∧
      ∀ (sent0 : List Metric) (cache0 : DiskTimeCache),
        roundsBefore domainName promLabels earlier cache = some (sent0, cache0) →
        (CollectDomainBlockDeviceInfo domainName promLabels
          (earlier ++ (disk, l) :: rest) cache).exit = .returned (some err) ∧
        (CollectDomainBlockDeviceInfo domainName promLabels
          (earlier ++ (disk, l) :: rest) cache).cache = cache0 ∧
        ((CollectDomainBlockDeviceInfo domainName promLabels
            (earlier ++ (disk, l) :: rest) cache).sent = sent0 ∨
          ∃ bs, l.DomainBlockStats = .ok bs ∧
            (CollectDomainBlockDeviceInfo domainName promLabels
              (earlier ++ (disk, l) :: rest) cache).sent =
              sent0 ++ blockCounterMetrics bs (promLabels ++ [disk.Target.Device])) := by
  have hstop : ∀ (tail : List (Disk × DiskCalls)) (c : DiskTimeCache),
      blockDeviceLoop domainName promLabels ((disk, l) :: tail) c =
        blockDeviceRound domainName promLabels disk l c := by
    intro tail c
    have he := (blockDeviceRound_first_error domainName promLabels disk l c err hdev herr).1
    exact blockDeviceLoop_stop _ _ _ _ _ _ (by rw [he]; simp)
  intro earlier cache
  unfold CollectDomainBlockDeviceInfo
  constructor
  · clear herr
    induction earlier generalizing cache with
    | nil => rw [List.nil_append, List.nil_append, hstop, hstop]
    | cons dl earlier ih =>
      obtain ⟨d0, l0⟩ := dl
      rw [List.cons_append, List.cons_append]
      by_cases hn : (blockDeviceRound domainName promLabels d0 l0 cache).exit = .next
      · rw [blockDeviceLoop_next _ _ _ _ _ _ hn, blockDeviceLoop_next _ _ _ _ _ _ hn, ih]
      · rw [blockDeviceLoop_stop _ _ _ _ _ _ hn, blockDeviceLoop_stop _ _ _ _ _ _ hn]
  · intro sent0 cache0 hb
    obtain ⟨he, hc, hs⟩ :=
      blockDeviceRound_first_error domainName promLabels disk l cache0 err hdev herr
    rw [blockDeviceLoop_after domainName promLabels _ earlier cache sent0 cache0 hb, hstop]
    refine ⟨he, hc, ?_⟩
    rcases hs with hs | ⟨bs, hbs, hs⟩
    · left
      simp only [hs, List.append_nil]
    · right
      exact ⟨bs, hbs, by simp only [hs]⟩

/-- Witness of C17, amended: `l.DomainBlockStats` fails for `vda`, the first
disk; the collector returns that error with the cache untouched, with or
without `vdb` after it. -/
theorem CollectDomainBlockDeviceInfo_stops_at_failure_witness :
    (CollectDomainBlockDeviceInfo "instance-0001" sampleLabels
        ([] ++ (sampleDisk, failingCalls 10000000000) ::
          [(sampleDiskB, sampleCalls ⟨0, 600, 0, 0⟩ [] 10000001000)])
        (sampleCache ⟨0, 100, 0, 0⟩ 0)).exit = .returned (some "Domain not found") ∧
    (CollectDomainBlockDeviceInfo "instance-0001" sampleLabels
        ([] ++ (sampleDisk, failingCalls 10000000000) ::
          [(sampleDiskB, sampleCalls ⟨0, 600, 0, 0⟩ [] 10000001000)])
        (sampleCache ⟨0, 100, 0, 0⟩ 0)).cache = sampleCache ⟨0, 100, 0, 0⟩ 0 ∧
    CollectDomainBlockDeviceInfo "instance-0001" sampleLabels
        ([] ++ (sampleDisk, failingCalls 10000000000) ::
          [(sampleDiskB, sampleCalls ⟨0, 600, 0, 0⟩ [] 10000001000)])
        (sampleCache ⟨0, 100, 0, 0⟩ 0) =
      CollectDomainBlockDeviceInfo "instance-0001" sampleLabels
        ([] ++ [(sampleDisk, failingCalls 10000000000)]) (sampleCache ⟨0, 100, 0, 0⟩ 0) :=
  have h := CollectDomainBlockDeviceInfo_stops_at_failure "instance-0001" sampleLabels
    sampleDisk (failingCalls 10000000000) "Domain not found" (by decide) rfl
    [(sampleDiskB, sampleCalls ⟨0, 600, 0, 0⟩ [] 10000001000)] []
    (sampleCache ⟨0, 100, 0, 0⟩ 0)
  ⟨(h.2 [] (sampleCache ⟨0, 100, 0, 0⟩ 0) rfl).1,
   (h.2 [] (sampleCache ⟨0, 100, 0, 0⟩ 0) rfl).2.1, h.1⟩

/-! ## C19: the first scrape of a domain -/

/-- C19, on the code. `diskTimeCache` has no entry for `instance-0001`, the domain
has the disks `vda` and `vdb`, and every call succeeds.  The round of `vda`
writes the cache entry and returns from the collector: what has been sent are
the counters and the limits of `vda`; the info metric of `vda` is not sent, and
nothing at all is sent for `vdb`. -/
theorem CollectDomainBlockDeviceInfo_first_scrape_stops_after_first_disk :
    (CollectDomainBlockDeviceInfo "instance-0001" sampleLabels
        [(sampleDisk, sampleCalls ⟨5, 600, 70, 900⟩ [] 10000000000),
         (sampleDiskB, sampleCalls ⟨1, 200, 3, 400⟩ [] 10000001000)]
        (fun _ => none)).sent =
      blockCounterMetrics ⟨5, 600, 70, 900⟩ (sampleLabels ++ ["vda"]) ++
        blockLimitMetrics 1073741824 Limits.zero (F64.fin 0) (F64.fin 0)
          (sampleLabels ++ ["vda"]) ∧
    withDesc .libvirtDomainBlockStatsInfo
      (CollectDomainBlockDeviceInfo "instance-0001" sampleLabels
        [(sampleDisk, sampleCalls ⟨5, 600, 70, 900⟩ [] 10000000000),
         (sampleDiskB, sampleCalls ⟨1, 200, 3, 400⟩ [] 10000001000)]
        (fun _ => none)).sent = [] ∧
    (∀ m ∈ (CollectDomainBlockDeviceInfo "instance-0001" sampleLabels
        [(sampleDisk, sampleCalls ⟨5, 600, 70, 900⟩ [] 10000000000),
         (sampleDiskB, sampleCalls ⟨1, 200, 3, 400⟩ [] 10000001000)]
        (fun _ => none)).sent, m.labels = sampleLabels ++ ["vda"]) := by
  have hA := blockDeviceRound_no_entry "instance-0001" sampleLabels sampleDisk
    (sampleCalls ⟨5, 600, 70, 900⟩ [] 10000000000) (fun _ => none) ⟨5, 600, 70, 900⟩
    1073741824 [] [] Limits.zero (F64.fin 0) (F64.fin 0) (by decide) rfl rfl rfl rfl rfl rfl rfl
  have hne : (blockDeviceRound "instance-0001" sampleLabels sampleDisk
      (sampleCalls ⟨5, 600, 70, 900⟩ [] 10000000000) (fun _ => none)).exit ≠ .next := by
    rw [hA]; simp
  have hs : (CollectDomainBlockDeviceInfo "instance-0001" sampleLabels
        [(sampleDisk, sampleCalls ⟨5, 600, 70, 900⟩ [] 10000000000),
         (sampleDiskB, sampleCalls ⟨1, 200, 3, 400⟩ [] 10000001000)]
        (fun _ => none)).sent =
      blockCounterMetrics ⟨5, 600, 70, 900⟩ (sampleLabels ++ ["vda"]) ++
        blockLimitMetrics 1073741824 Limits.zero (F64.fin 0) (F64.fin 0)
          (sampleLabels ++ ["vda"]) := by
    unfold CollectDomainBlockDeviceInfo
    rw [blockDeviceLoop_stop _ _ _ _ _ _ hne, hA]
    rfl
  refine ⟨hs, ?_, ?_⟩
  · rw [hs]
    simp [withDesc_append, withDesc_cons, withDesc_nil, blockCounterMetrics, blockLimitMetrics]
  · rw [hs]
    intro m hm
    simp only [blockCounterMetrics, blockLimitMetrics, List.cons_append, List.nil_append,
      List.mem_cons, List.mem_singleton, List.not_mem_nil, or_false] at hm
    rcases hm with h | h | h | h | h | h | h | h | h | h | h | h | h <;> rw [h]

/-! ## C11: the key of a disk snapshot -/

/-- C11, on the code. The domain `instance-0001` has the disks `vda` and `vdb`, both
with a read limit of 200 bytes per second; the cache holds the entry
`{t=0, readBytes=100}` under the domain's name.  The round of `vda`
(`readBytes=600` at `t=10s`) overwrites that entry with the counters of `vda`,
and the round of `vdb` (`readBytes=5000`, one microsecond later) takes its delta
against them: `read_bytes_usage_percent` of `vdb` is
`((5000 - 600) / 1e-6 / 200) * 100`. -/
theorem CollectDomainBlockDeviceInfo_disks_share_one_snapshot :
    (blockDeviceRound "instance-0001" sampleLabels sampleDisk
        (sampleCalls ⟨0, 600, 0, 0⟩ [⟨"read_bytes_sec", .uint64 200⟩] 10000000000)
        (sampleCache ⟨0, 100, 0, 0⟩ 0)).cache "instance-0001" =
      some (diskSnapshot ⟨0, 600, 0, 0⟩ 10000000000) ∧
    withDesc .libvirtDomainBlockReadBytesPercentDesc
      (CollectDomainBlockDeviceInfo "instance-0001" sampleLabels
        [(sampleDisk, sampleCalls ⟨0, 600, 0, 0⟩ [⟨"read_bytes_sec", .uint64 200⟩] 10000000000),
         (sampleDiskB,
           sampleCalls ⟨0, 5000, 0, 0⟩ [⟨"read_bytes_sec", .uint64 200⟩] 10000001000)]
        (sampleCache ⟨0, 100, 0, 0⟩ 0)).sent =
      [⟨.libvirtDomainBlockReadBytesPercentDesc, .GaugeValue, F64.fin 25,
          sampleLabels ++ ["vda"]⟩,
       ⟨.libvirtDomainBlockReadBytesPercentDesc, .GaugeValue, F64.fin 2200000000,
          sampleLabels ++ ["vdb"]⟩] := by
  have hA := blockDeviceRound_warm "instance-0001" sampleLabels sampleDisk
    (sampleCalls ⟨0, 600, 0, 0⟩ [⟨"read_bytes_sec", .uint64 200⟩] 10000000000)
    (sampleCache ⟨0, 100, 0, 0⟩ 0) ⟨0, 600, 0, 0⟩ 1073741824
    [⟨"read_bytes_sec", .uint64 200⟩] [] { Limits.zero with readBytesSec := F64.fin 200 }
    (F64.fin 0) (F64.fin 0) (diskSnapshot ⟨0, 100, 0, 0⟩ 0) (by decide) rfl rfl rfl rfl
    (by decide) rfl (by simp [sampleCache])
  have hAexit : (blockDeviceRound "instance-0001" sampleLabels sampleDisk
      (sampleCalls ⟨0, 600, 0, 0⟩ [⟨"read_bytes_sec", .uint64 200⟩] 10000000000)
      (sampleCache ⟨0, 100, 0, 0⟩ 0)).exit = .next := by rw [hA]
  have hAcache : (blockDeviceRound "instance-0001" sampleLabels sampleDisk
      (sampleCalls ⟨0, 600, 0, 0⟩ [⟨"read_bytes_sec", .uint64 200⟩] 10000000000)
      (sampleCache ⟨0, 100, 0, 0⟩ 0)).cache =
      Function.update (sampleCache ⟨0, 100, 0, 0⟩ 0) "instance-0001"
        (some (diskSnapshot ⟨0, 600, 0, 0⟩ 10000000000)) := by rw [hA]; rfl
  have hApct := blockDeviceRound_counter_percent .readBytes "instance-0001" sampleLabels
    sampleDisk (sampleCalls ⟨0, 600, 0, 0⟩ [⟨"read_bytes_sec", .uint64 200⟩] 10000000000)
    (sampleCache ⟨0, 100, 0, 0⟩ 0) ⟨0, 600, 0, 0⟩ ⟨0, 100, 0, 0⟩ 0 1073741824
    [⟨"read_bytes_sec", .uint64 200⟩] [] { Limits.zero with readBytesSec := F64.fin 200 }
    (by decide) rfl rfl rfl rfl (by decide) rfl (by simp [sampleCache]) (by decide)
    200 rfl (by norm_num)
  have hBwarm := blockDeviceRound_warm "instance-0001" sampleLabels sampleDiskB
    (sampleCalls ⟨0, 5000, 0, 0⟩ [⟨"read_bytes_sec", .uint64 200⟩] 10000001000)
    (Function.update (sampleCache ⟨0, 100, 0, 0⟩ 0) "instance-0001"
      (some (diskSnapshot ⟨0, 600, 0, 0⟩ 10000000000))) ⟨0, 5000, 0, 0⟩ 1073741824
    [⟨"read_bytes_sec", .uint64 200⟩] [] { Limits.zero with readBytesSec := F64.fin 200 }
    (F64.fin 0) (F64.fin 0) (diskSnapshot ⟨0, 600, 0, 0⟩ 10000000000) (by decide) rfl rfl rfl
    rfl (by decide) rfl (by simp)
  have hBexit : (blockDeviceRound "instance-0001" sampleLabels sampleDiskB
      (sampleCalls ⟨0, 5000, 0, 0⟩ [⟨"read_bytes_sec", .uint64 200⟩] 10000001000)
      (Function.update (sampleCache ⟨0, 100, 0, 0⟩ 0) "instance-0001"
        (some (diskSnapshot ⟨0, 600, 0, 0⟩ 10000000000)))).exit = .next := by rw [hBwarm]
  have hBpct := blockDeviceRound_counter_percent .readBytes "instance-0001" sampleLabels
    sampleDiskB (sampleCalls ⟨0, 5000, 0, 0⟩ [⟨"read_bytes_sec", .uint64 200⟩] 10000001000)
    (Function.update (sampleCache ⟨0, 100, 0, 0⟩ 0) "instance-0001"
      (some (diskSnapshot ⟨0, 600, 0, 0⟩ 10000000000))) ⟨0, 5000, 0, 0⟩ ⟨0, 600, 0, 0⟩
    10000000000 1073741824
    [⟨"read_bytes_sec", .uint64 200⟩] [] { Limits.zero with readBytesSec := F64.fin 200 }
    (by decide) rfl rfl rfl rfl (by decide) rfl (by simp) (by decide)
    200 rfl (by norm_num)
  simp only [CounterKind.limit, LimitKind.percentDesc, CounterKind.get] at hApct hBpct
  constructor
  · rw [hAcache, Function.update_same]
  · unfold CollectDomainBlockDeviceInfo
    rw [blockDeviceLoop_next _ _ _ _ _ _ hAexit, hAcache,
      blockDeviceLoop_next _ _ _ _ _ _ hBexit]
    simp only [withDesc_append, hApct, hBpct, blockDeviceLoop, withDesc_nil, List.append_nil]
    simp only [sampleCalls, sampleDisk, sampleDiskB, Time.Sub, maxDuration, minDuration]
    norm_num

/-! ## C12: the value of `sys_percent` -/

/-- The unsigned difference of a counter that did not go down is the difference. -/
theorem subUint64_of_le (c p : Nat) (h : p ≤ c) (hc : c < 18446744073709551616) :
    ((subUint64 c p : Nat) : ℚ) = (c : ℚ) - p := by
  have e : subUint64 c p = c - p := by
    unfold subUint64
    omega
  rw [e, Nat.cast_sub h]

/-- C12. For a `time` parameter of a vCPU whose cache entry holds `lastTime = p`
and `lastTimestamp = t0`, with a current value `c >= p` and a current time after
`t0`: exactly one `sys_percent` is sent, and its value is
`(((c - p) / 1e9) / (t1 - t0)) * 100`, the interval being in seconds. -/
theorem vcpuParamRound_sys_percent_formula (promLabels : List String) (param : TypedParam)
    (now : Int) (m : VcpuMap) (digits : List Char) (c : Nat) (cached : vcpuCache)
    (hcur : currentMatchString param.Field.toList = false)
    (hmax : maximumMatchString param.Field.toList = false)
    (hsub : vcpuFindStringSubmatch param.Field.toList = some (digits, "time".toList))
    (hval : param.Value = .uint64 c) (hc : c < 18446744073709551616)
    (hm : m (Atoi digits) = some cached)
    (hge : cached.lastTime ≤ c) (ht : cached.lastTimestamp < now) :
    withDesc .libvirtDomainVCPUStatsSysPercent (vcpuParamRound promLabels param now m).sent =
      [⟨.libvirtDomainVCPUStatsSysPercent, .GaugeValue,
        F64.fin (((((c : ℚ) - cached.lastTime) / 1000000000) /
          (((Time.Sub now cached.lastTimestamp : Int) : ℚ) / 1000000000)) * 100),
        promLabels ++ [String.mk digits]⟩] := by
  rw [vcpuParamRound_time promLabels param now m digits c hcur hmax hsub hval]
  simp only [hm, Option.isSome_some, Option.getD_some, if_true]
  rw [if_pos ((Duration.Seconds_pos now cached.lastTimestamp).mpr ht),
    F64.vcpu_percent_fin _ _ _ ht, subUint64_of_le c _ hge hc]
  simp [withDesc]

/-- Witness of C12: `lastTime` one second, current value three seconds, ten
seconds later: 20 percent. -/
theorem vcpuParamRound_sys_percent_formula_witness :
    withDesc .libvirtDomainVCPUStatsSysPercent
        (vcpuParamRound sampleLabels ⟨"vcpu.0.time", .uint64 3000000000⟩ 10000000000
          (Function.update (fun _ => none) 0 (some ⟨1000000000, 0, 0⟩))).sent =
      [⟨.libvirtDomainVCPUStatsSysPercent, .GaugeValue,
        F64.fin ((((((3000000000 : Nat) : ℚ) - (1000000000 : Nat)) / 1000000000) /
          (((Time.Sub 10000000000 0 : Int) : ℚ) / 1000000000)) * 100),
        sampleLabels ++ ["0"]⟩] :=
  vcpuParamRound_sys_percent_formula sampleLabels ⟨"vcpu.0.time", .uint64 3000000000⟩
    10000000000 (Function.update (fun _ => none) 0 (some ⟨1000000000, 0, 0⟩)) "0".toList
    3000000000 ⟨1000000000, 0, 0⟩ (by decide) (by decide) (by decide) rfl (by decide)
    (by decide) (by decide) (by decide)

/-! ## C13, C14, C15: what `steal_percent` is computed from, and the write-back -/

/-- The `delay` case of the switch: the counter is sent and the cache is not touched. -/
theorem vcpuParamRound_delay (promLabels : List String) (param : TypedParam) (now : Int)
    (m : VcpuMap) (digits : List Char) (c : Nat)
    (hcur : currentMatchString param.Field.toList = false)
    (hmax : maximumMatchString param.Field.toList = false)
    (hsub : vcpuFindStringSubmatch param.Field.toList = some (digits, "delay".toList))
    (hval : param.Value = .uint64 c) :
    vcpuParamRound promLabels param now m =
      ⟨[⟨.libvirtDomainVCPUStatsDelay, .CounterValue,
          F64.div (F64.ofNat c) (F64.fin 1000000000), promLabels ++ [String.mk digits]⟩],
        m, false⟩ := by
  unfold vcpuParamRound
  rw [hcur, hmax]
  simp only [Bool.false_eq_true, if_false, hsub, hval, TypedParamValue.asUint64]
  rfl

/-- C13, on the code. The cache entry of vCPU 0 is
`{lastTime=1s, lastDelay=1s, t=0}` and the record lists `vcpu.0.wait = 3s` at
`t=10s` and then `vcpu.0.delay = d`.  Whatever the value `d` of the delay
counter, `steal_percent` is 20: the difference of the `wait` values (3s - 1s)
over ten seconds.  The `delay` parameter only sends its own counter. -/
theorem CollectDomainVCPUInfo_steal_percent_from_wait (d : Nat) :
    withDesc .libvirtDomainVCPUStatsStealPercent
        (CollectDomainVCPUInfo "instance-0001" sampleLabels
          (.ok [⟨[(⟨"vcpu.0.wait", .uint64 3000000000⟩, 10000000000),
                  (⟨"vcpu.0.delay", .uint64 d⟩, 10000001000)]⟩])
          (sampleVcpuCache ⟨1000000000, 1000000000, 0⟩)).sent =
      [⟨.libvirtDomainVCPUStatsStealPercent, .GaugeValue, F64.fin 20,
        sampleLabels ++ ["0"]⟩] := by
  have r1 := vcpuParamRound_wait_found sampleLabels ⟨"vcpu.0.wait", .uint64 3000000000⟩
    10000000000 (Function.update (fun _ => none) 0 (some ⟨1000000000, 1000000000, 0⟩))
    "0".toList 3000000000 ⟨1000000000, 1000000000, 0⟩ (by decide) (by decide) (by decide) rfl
    (by decide)
  rw [if_pos ((Duration.Seconds_pos _ _).mpr (by decide)),
    F64.vcpu_percent_fin _ _ _ (by decide),
    subUint64_of_le 3000000000 1000000000 (by decide) (by decide)] at r1
  have r2 := fun m => vcpuParamRound_delay sampleLabels ⟨"vcpu.0.delay", .uint64 d⟩
    10000001000 m "0".toList d
    (show currentMatchString "vcpu.0.delay".toList = false by decide)
    (show maximumMatchString "vcpu.0.delay".toList = false by decide)
    (show vcpuFindStringSubmatch "vcpu.0.delay".toList = some ("0".toList, "delay".toList)
      by decide) rfl
  have hinner : (sampleVcpuCache ⟨1000000000, 1000000000, 0⟩ "instance-0001").getD
      (fun _ => none) = Function.update (fun _ => none) 0 (some ⟨1000000000, 1000000000, 0⟩) := by
    simp [sampleVcpuCache]
  simp only [CollectDomainVCPUInfo, vcpuStatsLoop, vcpuParamsLoop, hinner, r1, r2,
    Bool.false_eq_true, if_false, List.append_nil]
  simp only [List.cons_append, List.nil_append, withDesc_cons, withDesc_nil,
    Time.Sub, maxDuration, minDuration, reduceCtorEq, if_false, if_true]
  norm_num

/-- C14, on the code. The cache entry of vCPU 0 is
`{lastTime=1s, lastDelay=1s, t=0}`; the record lists `vcpu.0.time = 2s` at
`t=10s` and `vcpu.0.wait = 2s` one microsecond later.  The `time` parameter
sets `lastTimestamp` to `t=10s`, and the interval of the `wait` parameter is
measured from there: `steal_percent` is `(1s / 1e-6s) * 100 = 1e8`, where ten
seconds since the steal baseline give about 10. -/
theorem CollectDomainVCPUInfo_steal_interval_from_time_parameter :
    (vcpuParamRound sampleLabels ⟨"vcpu.0.time", .uint64 2000000000⟩ 10000000000
        (Function.update (fun _ => none) 0 (some ⟨1000000000, 1000000000, 0⟩))).cache 0 =
      some ⟨2000000000, 1000000000, 10000000000⟩ ∧
    withDesc .libvirtDomainVCPUStatsStealPercent
        (CollectDomainVCPUInfo "instance-0001" sampleLabels
          (.ok [⟨[(⟨"vcpu.0.time", .uint64 2000000000⟩, 10000000000),
                  (⟨"vcpu.0.wait", .uint64 2000000000⟩, 10000001000)]⟩])
          (sampleVcpuCache ⟨1000000000, 1000000000, 0⟩)).sent =
      [⟨.libvirtDomainVCPUStatsStealPercent, .GaugeValue, F64.fin 100000000,
        sampleLabels ++ ["0"]⟩] := by
  have r1 := vcpuParamRound_time sampleLabels ⟨"vcpu.0.time", .uint64 2000000000⟩
    10000000000 (Function.update (fun _ => none) 0 (some ⟨1000000000, 1000000000, 0⟩))
    "0".toList 2000000000 (by decide) (by decide) (by decide) rfl
  have hm : (Function.update (fun _ => none) 0 (some ⟨1000000000, 1000000000, 0⟩) : VcpuMap)
      (Atoi "0".toList) = some ⟨1000000000, 1000000000, 0⟩ := by decide
  have hA : Atoi "0".toList = 0 := by decide
  simp only [hm, Option.isSome_some, Option.getD_some, if_true] at r1
  rw [if_pos ((Duration.Seconds_pos _ _).mpr (by decide)),
    F64.vcpu_percent_fin _ _ _ (by decide),
    subUint64_of_le 2000000000 1000000000 (by decide) (by decide)] at r1
  have r2 := vcpuParamRound_wait_found sampleLabels ⟨"vcpu.0.wait", .uint64 2000000000⟩
    10000001000
    (Function.update (Function.update (fun _ => none) 0 (some ⟨1000000000, 1000000000, 0⟩))
      (Atoi "0".toList) (some ⟨2000000000, 1000000000, 10000000000⟩))
    "0".toList 2000000000 ⟨2000000000, 1000000000, 10000000000⟩ (by decide) (by decide)
    (by decide) rfl (by simp)
  rw [if_pos ((Duration.Seconds_pos _ _).mpr (by decide)),
    F64.vcpu_percent_fin _ _ _ (by decide),
    subUint64_of_le 2000000000 1000000000 (by decide) (by decide)] at r2
  have hinner : (sampleVcpuCache ⟨1000000000, 1000000000, 0⟩ "instance-0001").getD
      (fun _ => none) = Function.update (fun _ => none) 0 (some ⟨1000000000, 1000000000, 0⟩) := by
    simp [sampleVcpuCache]
  constructor
  · rw [r1]
    decide
  · simp only [CollectDomainVCPUInfo, vcpuStatsLoop, vcpuParamsLoop, hinner, r1, r2,
      Bool.false_eq_true, if_false, List.append_nil]
    simp only [List.cons_append, List.nil_append, withDesc_cons, withDesc_nil,
      Time.Sub, maxDuration, minDuration, reduceCtorEq, if_false, if_true]
    norm_num

/-- C15, on the code. `vcpuTimeCache` is empty and the record holds `vcpu.0.wait`
alone: after the call the inner map of the domain exists but has no entry for
vCPU 0, the observed `wait` value is not stored.  A `time` parameter in the same
place does write its entry. -/
theorem CollectDomainVCPUInfo_wait_without_entry_not_stored :
    (∃ inner, (CollectDomainVCPUInfo "instance-0001" sampleLabels
          (.ok [⟨[(⟨"vcpu.0.wait", .uint64 1000000000⟩, 10000000000)]⟩])
          (fun _ => none)).cache "instance-0001" = some inner ∧ inner 0 = none) ∧
    (∃ inner, (CollectDomainVCPUInfo "instance-0001" sampleLabels
          (.ok [⟨[(⟨"vcpu.0.time", .uint64 1000000000⟩, 10000000000)]⟩])
          (fun _ => none)).cache "instance-0001" = some inner ∧
        inner 0 = some ⟨1000000000, 0, 10000000000⟩) := by
  have r1 := vcpuParamRound_wait_missing sampleLabels ⟨"vcpu.0.wait", .uint64 1000000000⟩
    10000000000 (fun _ => none) "0".toList 1000000000 (by decide) (by decide) (by decide) rfl
    rfl
  have r2 := vcpuParamRound_time sampleLabels ⟨"vcpu.0.time", .uint64 1000000000⟩
    10000000000 (fun _ => none) "0".toList 1000000000 (by decide) (by decide) (by decide) rfl
  have hA : Atoi "0".toList = 0 := by decide
  constructor
  · refine ⟨fun _ => none, ?_, rfl⟩
    simp only [CollectDomainVCPUInfo, vcpuStatsLoop, vcpuParamsLoop, Option.getD_none, r1,
      Bool.false_eq_true, if_false, Function.update_same]
  · refine ⟨Function.update (fun _ => none) 0 (some ⟨1000000000, 0, 10000000000⟩), ?_, ?_⟩
    · simp only [CollectDomainVCPUInfo, vcpuStatsLoop, vcpuParamsLoop, Option.getD_none, r2,
        Bool.false_eq_true, if_false, Function.update_same, hA, vcpuCache.zero]
    · rw [Function.update_same]

/-! ## C20: no key leaves a cache -/

/-- Writing a value under a key keeps every key present. -/
theorem isSome_update {α β : Type} [DecidableEq α] (m : α → Option β) (k : α) (v : β)
    (idx : α) (h : (m idx).isSome = true) :
    (Function.update m k (some v) idx).isSome = true := by
  by_cases hk : idx = k
  · rw [hk, Function.update_same]; rfl
  · rw [Function.update_noteq hk]; exact h

/-- An index of the inner map stays present over one parameter. -/
theorem vcpuParamRound_keeps_keys (promLabels : List String) (param : TypedParam) (now : Int)
    (m : VcpuMap) (idx : Int) (h : (m idx).isSome = true) :
    ((vcpuParamRound promLabels param now m).cache idx).isSome = true := by
  unfold vcpuParamRound
  repeat' split
  all_goals try dsimp only
  all_goals repeat' split
  all_goals first
    | exact h
    | exact isSome_update _ _ _ _ h

/-- An index of the inner map stays present over the parameters of a record. -/
theorem vcpuParamsLoop_keeps_keys (promLabels : List String)
    (params : List (TypedParam × Int)) :
    ∀ (m : VcpuMap) (idx : Int), (m idx).isSome = true →
      ((vcpuParamsLoop promLabels params m).cache idx).isSome = true := by
  induction params with
  | nil => intro m idx h; exact h
  | cons pn rest ih =>
    obtain ⟨param, now⟩ := pn
    intro m idx h
    have h1 := vcpuParamRound_keeps_keys promLabels param now m idx h
    simp only [vcpuParamsLoop]
    split
    · exact h1
    · exact ih _ idx h1

/-- An index of the inner map stays present over the records. -/
theorem vcpuStatsLoop_keeps_keys (promLabels : List String) (stats : List DomainStatsRecord) :
    ∀ (m : VcpuMap) (idx : Int), (m idx).isSome = true →
      ((vcpuStatsLoop promLabels stats m).cache idx).isSome = true := by
  induction stats with
  | nil => intro m idx h; exact h
  | cons stat rest ih =>
    intro m idx h
    have h1 := vcpuParamsLoop_keeps_keys promLabels stat.Params m idx h
    simp only [vcpuStatsLoop]
    split
    · exact h1
    · exact ih _ idx h1

/-- C20. Every key of `diskTimeCache` present before a call of
`CollectDomainBlockDeviceInfo` is present after it, and every domain name and
every vCPU index under it present in `vcpuTimeCache` before a call of
`CollectDomainVCPUInfo` is present after it; this holds whether the call
succeeds, returns an error or panics. -/
theorem caches_keep_their_keys :
    (∀ (domainName : String) (promLabels : List String) (disks : List (Disk × DiskCalls))
        (diskTimeCache : DiskTimeCache) (key : String),
      (diskTimeCache key).isSome = true →
      ((CollectDomainBlockDeviceInfo domainName promLabels disks diskTimeCache).cache key).isSome
        = true) ∧
    (∀ (domainName : String) (promLabels : List String)
        (stats : Except String (List DomainStatsRecord)) (vcpuTimeCache : VcpuTimeCache)
        (key : String) (inner : VcpuMap),
      vcpuTimeCache key = some inner →
      ∃ inner1, (CollectDomainVCPUInfo domainName promLabels stats vcpuTimeCache).cache key =
          some inner1 ∧
        ∀ idx : Int, (inner idx).isSome = true → (inner1 idx).isSome = true) := by
  constructor
  · intro domainName promLabels disks diskTimeCache key h
    exact blockDeviceLoop_keeps_keys domainName promLabels disks diskTimeCache key h
  · intro domainName promLabels stats vcpuTimeCache key inner h
    cases stats with
    | error err => exact ⟨inner, h, fun _ hi => hi⟩
    | ok recs =>
      simp only [CollectDomainVCPUInfo]
      by_cases hk : key = domainName
      · subst hk
        refine ⟨_, Function.update_same _ _ _, ?_⟩
        intro idx hi
        rw [h, Option.getD_some]
        exact vcpuStatsLoop_keeps_keys promLabels recs inner idx hi
      · refine ⟨inner, ?_, fun _ hi => hi⟩
        rw [Function.update_noteq hk]
        exact h

/-- Witness of C20: the entry of `instance-0001` after a scrape of another domain. -/
theorem caches_keep_their_keys_witness :
    ((CollectDomainBlockDeviceInfo "instance-0002" sampleLabels
        [(sampleDisk, sampleCalls ⟨5, 600, 70, 900⟩ [] 10000000000)]
        (sampleCache ⟨0, 100, 0, 0⟩ 0)).cache "instance-0001").isSome = true :=
  caches_keep_their_keys.1 "instance-0002" sampleLabels
    [(sampleDisk, sampleCalls ⟨5, 600, 70, 900⟩ [] 10000000000)]
    (sampleCache ⟨0, 100, 0, 0⟩ 0) "instance-0001" (by simp [sampleCache])

/-! ## C18: errors of the collectors in `CollectDomain` -/

theorem CollectDomainNetworkInfo_no_panic (promLabels : List String)
    (ifaces : List (Interface × Except String InterfaceStats)) :
    (CollectDomainNetworkInfo promLabels ifaces).exit ≠ .panicked := by
  induction ifaces with
  | nil => simp [CollectDomainNetworkInfo]
  | cons ia rest ih =>
    obtain ⟨iface, answer⟩ := ia
    simp only [CollectDomainNetworkInfo]
    split
    · exact ih
    · cases answer with
      | error err => simp
      | ok st => exact ih

theorem CollectDomainMemoryStatInfo_no_panic (promLabels : List String)
    (rStats : Except String (List DomainMemoryStat)) (rmaxmem : Nat) :
    (CollectDomainMemoryStatInfo promLabels rStats rmaxmem).exit ≠ .panicked := by
  cases rStats <;> simp [CollectDomainMemoryStatInfo]

/-- Every record that the loop over the collectors logs is a warning. -/
theorem warnOf_level (e : Exit) : ∀ r ∈ warnOf e, r.level = .Warn := by
  intro r hr
  cases e with
  | next => simp [warnOf] at hr
  | panicked => simp [warnOf] at hr
  | returned err =>
    cases err with
    | none => simp [warnOf] at hr
    | some msg =>
      simp only [warnOf, List.mem_singleton] at hr
      rw [hr]

/-- C18. For an active domain (`l.DomainGetInfo` succeeds and `l.DomainIsActive`
answers 1) whose collectors do not panic: `CollectDomain` runs the block
device, network, memory and vCPU collectors in this order, each one whatever
the earlier ones returned; it logs one warning for each error returned and
nothing else, and returns nil. -/
theorem CollectDomain_collector_errors_are_warnings (k : DomainStateConsts)
    (domain : domainMeta) (l : DomainCalls) (g : Globals)
    (hinfo : l.DomainGetInfo.err = none) (hactive : l.DomainIsActive = .ok 1)
    (h1 : (CollectDomainBlockDeviceInfo domain.domainName
        [domain.domainName, domain.instanceName, domain.projectName, domain.projectId]
        l.Disks g.diskTimeCache).exit ≠ .panicked)
    (h4 : (CollectDomainVCPUInfo domain.libvirtDomain.Name
        [domain.domainName, domain.instanceName, domain.projectName, domain.projectId]
        l.ConnectGetAllDomainStats g.vcpuTimeCache).exit ≠ .panicked) :
    let promLabels :=
      [domain.domainName, domain.instanceName, domain.projectName, domain.projectId]
    let r1 := CollectDomainBlockDeviceInfo domain.domainName promLabels l.Disks g.diskTimeCache
    let r2 := CollectDomainNetworkInfo promLabels l.Interfaces
    let r3 := CollectDomainMemoryStatInfo promLabels l.DomainMemoryStats l.DomainGetInfo.rMaxMem
    let r4 := CollectDomainVCPUInfo domain.libvirtDomain.Name promLabels
      l.ConnectGetAllDomainStats g.vcpuTimeCache
    (CollectDomain k domain l g).exit = .returned none ∧
    (CollectDomain k domain l g).sent =
      domainInfoMetrics k domain l.DomainGetInfo ++ r1.sent ++ r2.sent ++ r3.sent ++ r4.sent ∧
    (CollectDomain k domain l g).log =
      warnOf r1.exit ++ warnOf r2.exit ++ warnOf r3.exit ++ warnOf r4.exit ∧
    ∀ r ∈ (CollectDomain k domain l g).log, r.level = .Warn := by
  intro promLabels r1 r2 r3 r4
  have h2 := CollectDomainNetworkInfo_no_panic promLabels l.Interfaces
  have h3 := CollectDomainMemoryStatInfo_no_panic promLabels l.DomainMemoryStats
    l.DomainGetInfo.rMaxMem
  have e : CollectDomain k domain l g =
      ⟨domainInfoMetrics k domain l.DomainGetInfo ++ r1.sent ++ r2.sent ++ r3.sent ++ r4.sent,
        { diskTimeCache := r1.cache, vcpuTimeCache := r4.cache,
          rmaxmem := l.DomainGetInfo.rMaxMem, rmemory := l.DomainGetInfo.rMemory },
        warnOf r1.exit ++ warnOf r2.exit ++ warnOf r3.exit ++ warnOf r4.exit,
        .returned none⟩ := by
    unfold CollectDomain
    simp only [hinfo, hactive]
    unfold collectDomainLoop
    simp only [ne_eq, not_true_eq_false, if_false]
    rw [if_neg h1, if_neg h2, if_neg h3, if_neg h4]
  rw [e]
  refine ⟨rfl, rfl, rfl, ?_⟩
  intro r hr
  simp only [List.mem_append] at hr
  rcases hr with ((hr | hr) | hr) | hr
  · exact warnOf_level _ r hr
  · exact warnOf_level _ r hr
  · exact warnOf_level _ r hr
  · exact warnOf_level _ r hr

/-- Witness of C18: the block, memory and vCPU collectors return errors; three
warnings are logged and `CollectDomain` returns nil. -/
theorem CollectDomain_collector_errors_are_warnings_witness :
    (CollectDomain sampleConsts sampleDomain failingDomainCalls emptyGlobals).exit =
      .returned none ∧
    (CollectDomain sampleConsts sampleDomain failingDomainCalls emptyGlobals).log =
      [⟨.Warn, some "Domain not found"⟩, ⟨.Warn, some "memory stats unavailable"⟩,
       ⟨.Warn, some "vcpu stats unavailable"⟩] := by
  have h := CollectDomain_collector_errors_are_warnings sampleConsts sampleDomain
    failingDomainCalls emptyGlobals rfl rfl (by decide) (by decide)
  exact ⟨h.1, h.2.2.1⟩

/-! ## C22: the descriptors that `Describe` sends -/

/-- Every descriptor of the `var` block is among those that `Describe` sends. -/
theorem mem_Describe (d : Desc) : d ∈ Describe := by
  cases d <;> simp [Describe]

/-- C22. Every metric that a call of `CollectFromLibvirt` sends, on whatever
path (the domain loop, `CollectDomain`, the four collectors of a domain, the
storage pools, a call cut short by an error or a panic), carries a descriptor
that `Describe` sends. -/
theorem Describe_covers_collected_metrics (k : DomainStateConsts)
    (Unmarshal : String → Except String libvirt_schema.Domain) (l : LibvirtCalls) (g : Globals)
    (m : Metric) (_hm : m ∈ (CollectFromLibvirt k Unmarshal l g).sent) :
    m.desc ∈ Describe :=
  mem_Describe m.desc

/-- Witness of C22: the sample `up` of a scrape whose domain listing fails. -/
theorem Describe_covers_collected_metrics_witness :
    Desc.libvirtUpDesc ∈ Describe :=
  Describe_covers_collected_metrics sampleConsts sampleUnmarshal listingFails emptyGlobals
    ⟨.libvirtUpDesc, .GaugeValue, F64.fin 1, []⟩ (List.mem_singleton.mpr rfl)

/-! ## C23: the sample `up` -/

/-- C23, on the code. The connection is made and `l.ConnectListAllDomains`
fails: `CollectFromLibvirt` has sent `up = 1` and returns the error. -/
theorem CollectFromLibvirt_up_sent_before_failure :
    (CollectFromLibvirt sampleConsts sampleUnmarshal listingFails emptyGlobals).sent =
      [⟨.libvirtUpDesc, .GaugeValue, F64.fin 1, []⟩] ∧
    (CollectFromLibvirt sampleConsts sampleUnmarshal listingFails emptyGlobals).exit =
      .returned (some "connection reset") :=
  ⟨rfl, rfl⟩

/-! ## C24: label names and label values -/

/-- C24, on the code. For the domain `instance-0001` of project `demo` with
id `p-1`: the metric `maximum_memory_bytes` and the domain info metric publish
`demo` under `project_id` and `p-1` under `project_name`; the OpenStack info
metric publishes `p-1` under `project_id` and `demo` under `project_name`. -/
theorem CollectDomain_project_labels_swapped :
    (withDesc .libvirtDomainInfoMaxMemDesc
        (CollectDomain sampleConsts sampleDomain failingDomainCalls emptyGlobals).sent).map
      (fun m => (m.labelValue "project_id", m.labelValue "project_name")) =
      [(some "demo", some "p-1")] ∧
    (withDesc .libvirtDomainInfoDesc
        (CollectDomain sampleConsts sampleDomain failingDomainCalls emptyGlobals).sent).map
      (fun m => (m.labelValue "project_id", m.labelValue "project_name")) =
      [(some "demo", some "p-1")] ∧
    (withDesc .libvirtDomainOpenstackInfoDesc
        (CollectDomain sampleConsts sampleDomain failingDomainCalls emptyGlobals).sent).map
      (fun m => (m.labelValue "project_id", m.labelValue "project_name")) =
      [(some "p-1", some "demo")] := by
  refine ⟨?_, ?_, ?_⟩ <;> decide

/-! ## C26: the counter delta of a vCPU in unsigned arithmetic -/

/-- The unsigned difference is the integer difference modulo `2^64`. -/
theorem subUint64_cast (c p : Nat) :
    ((subUint64 c p : Nat) : ℚ) = ((((c : Int) - p) % 18446744073709551616 : Int) : ℚ) := by
  unfold subUint64
  have h : 0 ≤ ((c : Int) - p) % 18446744073709551616 := Int.emod_nonneg _ (by norm_num)
  rw [← Int.cast_natCast, Int.toNat_of_nonneg h]

/-- The unsigned difference of a lower counter is positive. -/
theorem subUint64_pos (c p : Nat) (h : c < p) (hp : p < 18446744073709551616) :
    0 < subUint64 c p := by
  unfold subUint64
  omega

/-- The percentage of a vCPU over a positive interval has the sign of the delta. -/
theorem vcpu_percent_pos (x : Nat) (now t0 : Int) (ht : t0 < now) (hx : 0 < x) :
    (0 : ℚ) < (((x : ℚ) / 1000000000) / (((Time.Sub now t0 : Int) : ℚ) / 1000000000)) * 100 := by
  have h1 : (0 : ℚ) < ((Time.Sub now t0 : Int) : ℚ) := by
    exact_mod_cast (Time.Sub_pos now t0).mpr ht
  have h2 : (0 : ℚ) < (x : ℚ) := by exact_mod_cast hx
  positivity

/-- C26. For a vCPU with a cache entry and a positive elapsed time `dt`, the
`time` parameter with current value `c` sends
`sys_percent = ((((c - lastTime) mod 2^64) / 1e9) / dt) * 100`, and the `wait`
parameter sends `steal_percent` by the same formula on `lastDelay`.  The value
is never negative, and it is positive when the current value is below the
cached one. -/
theorem vcpuParamRound_unsigned_delta (promLabels : List String) (param : TypedParam)
    (now : Int) (m : VcpuMap) (digits : List Char) (c : Nat) (cached : vcpuCache)
    (hcur : currentMatchString param.Field.toList = false)
    (hmax : maximumMatchString param.Field.toList = false)
    (hval : param.Value = .uint64 c)
    (hm : m (Atoi digits) = some cached)
    (ht : cached.lastTimestamp < now) :
    (vcpuFindStringSubmatch param.Field.toList = some (digits, "time".toList) →
      withDesc .libvirtDomainVCPUStatsSysPercent (vcpuParamRound promLabels param now m).sent =
        [⟨.libvirtDomainVCPUStatsSysPercent, .GaugeValue,
          F64.fin (((((((c : Int) - cached.lastTime) % 18446744073709551616 : Int) : ℚ)
            / 1000000000) / (((Time.Sub now cached.lastTimestamp : Int) : ℚ) / 1000000000))
              * 100),
          promLabels ++ [String.mk digits]⟩] ∧
      (0 : ℚ) ≤ ((((((c : Int) - cached.lastTime) % 18446744073709551616 : Int) : ℚ)
            / 1000000000) / (((Time.Sub now cached.lastTimestamp : Int) : ℚ) / 1000000000))
              * 100 ∧
      (c < cached.lastTime → cached.lastTime < 18446744073709551616 →
        (0 : ℚ) < ((((((c : Int) - cached.lastTime) % 18446744073709551616 : Int) : ℚ)
            / 1000000000) / (((Time.Sub now cached.lastTimestamp : Int) : ℚ) / 1000000000))
              * 100)) ∧
    (vcpuFindStringSubmatch param.Field.toList = some (digits, "wait".toList) →
      withDesc .libvirtDomainVCPUStatsStealPercent (vcpuParamRound promLabels param now m).sent =
        [⟨.libvirtDomainVCPUStatsStealPercent, .GaugeValue,
          F64.fin (((((((c : Int) - cached.lastDelay) % 18446744073709551616 : Int) : ℚ)
            / 1000000000) / (((Time.Sub now cached.lastTimestamp : Int) : ℚ) / 1000000000))
              * 100),
          promLabels ++ [String.mk digits]⟩] ∧
      (0 : ℚ) ≤ ((((((c : Int) - cached.lastDelay) % 18446744073709551616 : Int) : ℚ)
            / 1000000000) / (((Time.Sub now cached.lastTimestamp : Int) : ℚ) / 1000000000))
              * 100 ∧
      (c < cached.lastDelay → cached.lastDelay < 18446744073709551616 →
        (0 : ℚ) < ((((((c : Int) - cached.lastDelay) % 18446744073709551616 : Int) : ℚ)
            / 1000000000) / (((Time.Sub now cached.lastTimestamp : Int) : ℚ) / 1000000000))
              * 100)) := by
  have hdt : (0 : ℚ) < ((Time.Sub now cached.lastTimestamp : Int) : ℚ) := by
    exact_mod_cast (Time.Sub_pos now cached.lastTimestamp).mpr ht
  constructor
  · intro hsub
    rw [← subUint64_cast]
    refine ⟨?_, by positivity, ?_⟩
    · rw [vcpuParamRound_time promLabels param now m digits c hcur hmax hsub hval]
      simp only [hm, Option.isSome_some, Option.getD_some, if_true]
      rw [if_pos ((Duration.Seconds_pos now cached.lastTimestamp).mpr ht),
        F64.vcpu_percent_fin _ _ _ ht]
      simp [withDesc]
    · intro hlt hp
      exact vcpu_percent_pos _ now _ ht (subUint64_pos c _ hlt hp)
  · intro hsub
    rw [← subUint64_cast]
    refine ⟨?_, by positivity, ?_⟩
    · rw [vcpuParamRound_wait_found promLabels param now m digits c cached hcur hmax hsub hval hm]
      rw [if_pos ((Duration.Seconds_pos now cached.lastTimestamp).mpr ht),
        F64.vcpu_percent_fin _ _ _ ht]
      simp [withDesc]
    · intro hlt hp
      exact vcpu_percent_pos _ now _ ht (subUint64_pos c _ hlt hp)

/-- Witness of C26: `lastTime = 1000`, current value 200, ten seconds later. -/
theorem vcpuParamRound_unsigned_delta_witness :
    withDesc .libvirtDomainVCPUStatsSysPercent
        (vcpuParamRound sampleLabels ⟨"vcpu.0.time", .uint64 200⟩ 10000000000
          (Function.update (fun _ => none) 0 (some ⟨1000, 0, 0⟩))).sent =
      [⟨.libvirtDomainVCPUStatsSysPercent, .GaugeValue,
        F64.fin (((((((200 : Nat) : Int) - (1000 : Nat)) % 18446744073709551616 : Int) : ℚ)
            / 1000000000) / (((Time.Sub 10000000000 0 : Int) : ℚ) / 1000000000) * 100),
        sampleLabels ++ ["0"]⟩] :=
  ((vcpuParamRound_unsigned_delta sampleLabels ⟨"vcpu.0.time", .uint64 200⟩ 10000000000
    (Function.update (fun _ => none) 0 (some ⟨1000, 0, 0⟩)) "0".toList 200 ⟨1000, 0, 0⟩
    (by decide) (by decide) rfl (by decide) (by decide)).1 (by decide)).1

/-! ## C30: the three memory percentages -/

/-- One round of the loop over the statistics sends no percentage. -/
theorem memoryStatRound_sent (promLabels : List String) (acc : MemoryAcc)
    (stat : DomainMemoryStat)
    (h : ∀ m ∈ acc.sent, m.desc.isMemoryPercent = false) :
    ∀ m ∈ (memoryStatRound promLabels acc stat).sent, m.desc.isMemoryPercent = false := by
  intro m hm
  unfold memoryStatRound at hm
  split_ifs at hm
  all_goals first
    | exact h m hm
    | (simp only [List.mem_append, List.mem_singleton] at hm
       rcases hm with hm | hm
       · exact h m hm
       · rw [hm]; rfl)

/-- The loop over the statistics sends no percentage. -/
theorem memoryStatLoop_sent (promLabels : List String) (rStats : List DomainMemoryStat) :
    ∀ acc : MemoryAcc, (∀ m ∈ acc.sent, m.desc.isMemoryPercent = false) →
      ∀ m ∈ (rStats.foldl (memoryStatRound promLabels) acc).sent,
        m.desc.isMemoryPercent = false := by
  induction rStats with
  | nil => intro acc h; exact h
  | cons stat rest ih =>
    intro acc h
    exact ih _ (memoryStatRound_sent promLabels acc stat h)

/-- The last statistic with a tag, of a list with one more statistic at its end. -/
theorem lastStat_concat (tag : Int) (rStats : List DomainMemoryStat) (stat : DomainMemoryStat) :
    lastStat tag (rStats ++ [stat]) =
      if stat.Tag = tag then some stat.Val else lastStat tag rStats := by
  unfold lastStat
  rw [List.filter_append]
  by_cases h : stat.Tag = tag
  · simp [h, List.getLast?_append]
  · simp [h]

/-- What one round of the loop does to `freeMemoryBytes`. -/
theorem memoryStatRound_freeMemoryBytes (promLabels : List String) (acc : MemoryAcc)
    (stat : DomainMemoryStat) :
    (memoryStatRound promLabels acc stat).freeMemoryBytes =
      if stat.Tag = DomainMemoryStatUnused then mulUint64 stat.Val 1024
      else acc.freeMemoryBytes := by
  unfold memoryStatRound
  simp only [DomainMemoryStatSwapIn, DomainMemoryStatSwapOut, DomainMemoryStatUnused,
    DomainMemoryStatAvailable, DomainMemoryStatUsable, DomainMemoryStatRss,
    DomainMemoryStatDiskCaches]
  split_ifs <;> first | rfl | omega

/-- What one round of the loop does to `diskCached`. -/
theorem memoryStatRound_diskCached (promLabels : List String) (acc : MemoryAcc)
    (stat : DomainMemoryStat) :
    (memoryStatRound promLabels acc stat).diskCached =
      if stat.Tag = DomainMemoryStatDiskCaches then mulUint64 stat.Val 1024
      else acc.diskCached := by
  unfold memoryStatRound
  simp only [DomainMemoryStatSwapIn, DomainMemoryStatSwapOut, DomainMemoryStatUnused,
    DomainMemoryStatAvailable, DomainMemoryStatUsable, DomainMemoryStatRss,
    DomainMemoryStatDiskCaches]
  split_ifs <;> first | rfl | omega

/-- After the loop, `freeMemoryBytes` is 1024 times the last statistic `unused`
and `diskCached` 1024 times the last statistic `disk_caches`, as `uint64`
products, and 0 without such a statistic. -/
theorem memoryStatLoop_values (promLabels : List String) (rStats : List DomainMemoryStat) :
    (rStats.foldl (memoryStatRound promLabels) ⟨[], 0, 0⟩).freeMemoryBytes =
      ((lastStat DomainMemoryStatUnused rStats).map (fun v => mulUint64 v 1024)).getD 0 ∧
    (rStats.foldl (memoryStatRound promLabels) ⟨[], 0, 0⟩).diskCached =
      ((lastStat DomainMemoryStatDiskCaches rStats).map (fun v => mulUint64 v 1024)).getD 0 := by
  induction rStats using List.reverseRecOn with
  | nil => exact ⟨rfl, rfl⟩
  | append_singleton xs stat ih =>
    rw [List.foldl_append, List.foldl_cons, List.foldl_nil, memoryStatRound_freeMemoryBytes,
      memoryStatRound_diskCached, lastStat_concat, lastStat_concat, ih.1, ih.2]
    constructor <;> split_ifs <;> rfl

/-- Without a statistic that carries the tag there is no last one. -/
theorem lastStat_eq_none (tag : Int) (rStats : List DomainMemoryStat)
    (h : ∀ stat ∈ rStats, stat.Tag ≠ tag) : lastStat tag rStats = none := by
  unfold lastStat
  have e : rStats.filter (fun stat => decide (stat.Tag = tag)) = [] := by
    rw [List.filter_eq_nil_iff]
    intro stat hs
    simpa using h stat hs
  rw [e]
  rfl

/-- Sum, difference, product and quotient of the values that the memory
percentages are made of. -/
theorem F64.sub_fin (a b : ℚ) : F64.sub (F64.fin a) (F64.fin b) = F64.fin (a - b) := by
  simp [F64.sub, F64.neg, F64.add, sub_eq_add_neg]

/-- The three percentages, on finite values. -/
theorem memoryPercentMetrics_fin (promLabels : List String) (rmaxmem freeMemoryBytes
    diskCached : Nat) (hmax : rmaxmem ≠ 0) :
    memoryPercentMetrics promLabels rmaxmem freeMemoryBytes diskCached =
      [ ⟨.libvirtDomainMemoryStatUsedPercentDesc, .GaugeValue,
          F64.fin (100 - (freeMemoryBytes : ℚ) / ((rmaxmem : ℚ) * 1024) * 100), promLabels⟩,
        ⟨.libvirtDomainMemoryStatFreePercentDesc, .GaugeValue,
          F64.fin ((freeMemoryBytes : ℚ) / ((rmaxmem : ℚ) * 1024) * 100), promLabels⟩,
        ⟨.libvirtDomainMemoryStatUsednocachePercentDesc, .GaugeValue,
          F64.fin ((((rmaxmem : ℚ) * 1024 - freeMemoryBytes - diskCached) /
            ((rmaxmem : ℚ) * 1024)) * 100), promLabels⟩ ] := by
  have h : ((rmaxmem : ℚ) * 1024) ≠ 0 := by
    have : (rmaxmem : ℚ) ≠ 0 := by exact_mod_cast hmax
    positivity
  simp only [memoryPercentMetrics, F64.ofNat, F64.mul_fin, F64.div_fin _ _ h, F64.sub_fin]

/-- C30. With a max memory other than 0 and any list of statistics, the
collector returns nil and sends each of the three percentages once.  With
`free` 1024 times the value of the last statistic `unused` of the list and
`diskCaches` 1024 times that of the last statistic `disk_caches` (products of
`uint64`, 0 without such a statistic) and `max = rmaxmem * 1024`:
`free_percent = free / max * 100`, `used_percent = 100 - free_percent`, so that
the two add up to 100 (on exact values), and
`usednocache_percent = (max - free - diskCaches) / max * 100`.  When no
statistic is `unused`, `free_percent` is 0, `used_percent` is 100 and
`usednocache_percent` is `(max - diskCaches) / max * 100`. -/
theorem CollectDomainMemoryStatInfo_percentages (promLabels : List String)
    (rStats : List DomainMemoryStat) (rmaxmem : Nat) (hmax : rmaxmem ≠ 0) :
    let freeBytes : Nat :=
      ((lastStat DomainMemoryStatUnused rStats).map (fun v => mulUint64 v 1024)).getD 0
    let diskCaches : Nat :=
      ((lastStat DomainMemoryStatDiskCaches rStats).map (fun v => mulUint64 v 1024)).getD 0
    let max : ℚ := (rmaxmem : ℚ) * 1024
    let free : ℚ := (freeBytes : ℚ) / max * 100
    let r := CollectDomainMemoryStatInfo promLabels (.ok rStats) rmaxmem
    r.exit = .returned none ∧
    withDesc .libvirtDomainMemoryStatUsedPercentDesc r.sent =
      [⟨.libvirtDomainMemoryStatUsedPercentDesc, .GaugeValue, F64.fin (100 - free),
        promLabels⟩] ∧
    withDesc .libvirtDomainMemoryStatFreePercentDesc r.sent =
      [⟨.libvirtDomainMemoryStatFreePercentDesc, .GaugeValue, F64.fin free, promLabels⟩] ∧
    withDesc .libvirtDomainMemoryStatUsednocachePercentDesc r.sent =
      [⟨.libvirtDomainMemoryStatUsednocachePercentDesc, .GaugeValue,
        F64.fin ((max - freeBytes - diskCaches) / max * 100), promLabels⟩] ∧
    F64.add (F64.fin (100 - free)) (F64.fin free) = F64.fin 100 ∧
    ((∀ stat ∈ rStats, stat.Tag ≠ DomainMemoryStatUnused) →
      withDesc .libvirtDomainMemoryStatUsedPercentDesc r.sent =
        [⟨.libvirtDomainMemoryStatUsedPercentDesc, .GaugeValue, F64.fin 100, promLabels⟩] ∧
      withDesc .libvirtDomainMemoryStatFreePercentDesc r.sent =
        [⟨.libvirtDomainMemoryStatFreePercentDesc, .GaugeValue, F64.fin 0, promLabels⟩] ∧
      withDesc .libvirtDomainMemoryStatUsednocachePercentDesc r.sent =
        [⟨.libvirtDomainMemoryStatUsednocachePercentDesc, .GaugeValue,
          F64.fin ((max - diskCaches) / max * 100), promLabels⟩]) := by
  intro freeBytes diskCaches max free r
  have hacc : ∀ m ∈ (rStats.foldl (memoryStatRound promLabels) ⟨[], 0, 0⟩).sent,
      m.desc.isMemoryPercent = false :=
    memoryStatLoop_sent promLabels rStats ⟨[], 0, 0⟩ (by simp)
  obtain ⟨hfb, hdc⟩ := memoryStatLoop_values promLabels rStats
  have hr : r.sent = (rStats.foldl (memoryStatRound promLabels) ⟨[], 0, 0⟩).sent ++
      memoryPercentMetrics promLabels rmaxmem freeBytes diskCaches := by
    simp only [r, CollectDomainMemoryStatInfo, hfb, hdc, freeBytes, diskCaches]
  have hU : withDesc .libvirtDomainMemoryStatUsedPercentDesc r.sent =
      [⟨.libvirtDomainMemoryStatUsedPercentDesc, .GaugeValue, F64.fin (100 - free),
        promLabels⟩] := by
    rw [hr, withDesc_append,
      withDesc_eq_nil_of .libvirtDomainMemoryStatUsedPercentDesc _ Desc.isMemoryPercent rfl hacc,
      memoryPercentMetrics_fin _ _ _ _ hmax]
    simp [withDesc, free, max]
  have hF : withDesc .libvirtDomainMemoryStatFreePercentDesc r.sent =
      [⟨.libvirtDomainMemoryStatFreePercentDesc, .GaugeValue, F64.fin free, promLabels⟩] := by
    rw [hr, withDesc_append,
      withDesc_eq_nil_of .libvirtDomainMemoryStatFreePercentDesc _ Desc.isMemoryPercent rfl hacc,
      memoryPercentMetrics_fin _ _ _ _ hmax]
    simp [withDesc, free, max]
  have hN : withDesc .libvirtDomainMemoryStatUsednocachePercentDesc r.sent =
      [⟨.libvirtDomainMemoryStatUsednocachePercentDesc, .GaugeValue,
        F64.fin ((max - freeBytes - diskCaches) / max * 100), promLabels⟩] := by
    rw [hr, withDesc_append,
      withDesc_eq_nil_of .libvirtDomainMemoryStatUsednocachePercentDesc _ Desc.isMemoryPercent
        rfl hacc,
      memoryPercentMetrics_fin _ _ _ _ hmax]
    simp [withDesc, max]
  refine ⟨rfl, hU, hF, hN, ?_, ?_⟩
  · rw [F64.add_fin]; congr 1; ring
  · intro hno
    have h0 : freeBytes = 0 := by
      simp only [freeBytes, lastStat_eq_none _ _ hno, Option.map_none', Option.getD_none]
    have hfree : free = 0 := by simp [free, h0]
    rw [hU, hF, hN, hfree, h0]
    simp

/-- Witness of C30: 2 GiB of max memory and the statistics `available` and
`disk_caches` (512 MiB), without `unused`: `used_percent` is 100,
`free_percent` is 0 and `usednocache_percent` is 75. -/
theorem CollectDomainMemoryStatInfo_percentages_witness :
    withDesc .libvirtDomainMemoryStatUsedPercentDesc
        (CollectDomainMemoryStatInfo sampleLabels (.ok [⟨5, 2097152⟩, ⟨10, 524288⟩])
          2097152).sent =
      [⟨.libvirtDomainMemoryStatUsedPercentDesc, .GaugeValue, F64.fin 100, sampleLabels⟩] ∧
    withDesc .libvirtDomainMemoryStatFreePercentDesc
        (CollectDomainMemoryStatInfo sampleLabels (.ok [⟨5, 2097152⟩, ⟨10, 524288⟩])
          2097152).sent =
      [⟨.libvirtDomainMemoryStatFreePercentDesc, .GaugeValue, F64.fin 0, sampleLabels⟩] ∧
    withDesc .libvirtDomainMemoryStatUsednocachePercentDesc
        (CollectDomainMemoryStatInfo sampleLabels (.ok [⟨5, 2097152⟩, ⟨10, 524288⟩])
          2097152).sent =
      [⟨.libvirtDomainMemoryStatUsednocachePercentDesc, .GaugeValue, F64.fin 75,
        sampleLabels⟩] := by
  have h := (CollectDomainMemoryStatInfo_percentages sampleLabels
    [⟨5, 2097152⟩, ⟨10, 524288⟩] 2097152 (by decide)).2.2.2.2.2 (by decide)
  have hd : ((lastStat DomainMemoryStatDiskCaches [⟨5, 2097152⟩, ⟨10, 524288⟩]).map
      (fun v => mulUint64 v 1024)).getD 0 = 536870912 := by decide
  refine ⟨h.1, h.2.1, ?_⟩
  rw [h.2.2, hd]
  norm_num

/-! ## C25: the max memory that the memory collector divides by -/

/-- C25. The metrics of a call of `CollectDomain` do not depend on the value
that `rmaxmem` held before the call.  For an active domain whose block device
collector does not panic, the memory collector runs with the max memory that
`l.DomainGetInfo` answered in this call; when the statistics are at hand and
that max memory is not 0, the three percentages have `rMaxMem * 1024` for
denominator. -/
theorem CollectDomain_max_memory_of_same_call (k : DomainStateConsts) (domain : domainMeta)
    (l : DomainCalls) (g : Globals)
    (hinfo : l.DomainGetInfo.err = none) (hactive : l.DomainIsActive = .ok 1)
    (h1 : (CollectDomainBlockDeviceInfo domain.domainName
        [domain.domainName, domain.instanceName, domain.projectName, domain.projectId]
        l.Disks g.diskTimeCache).exit ≠ .panicked) :
    let promLabels :=
      [domain.domainName, domain.instanceName, domain.projectName, domain.projectId]
    let r1 := CollectDomainBlockDeviceInfo domain.domainName promLabels l.Disks g.diskTimeCache
    let r2 := CollectDomainNetworkInfo promLabels l.Interfaces
    let r3 := CollectDomainMemoryStatInfo promLabels l.DomainMemoryStats l.DomainGetInfo.rMaxMem
    let r4 := CollectDomainVCPUInfo domain.libvirtDomain.Name promLabels
      l.ConnectGetAllDomainStats g.vcpuTimeCache
    (∀ x : Nat, (CollectDomain k domain l { g with rmaxmem := x }).sent =
      (CollectDomain k domain l g).sent) ∧
    (CollectDomain k domain l g).sent =
      domainInfoMetrics k domain l.DomainGetInfo ++ r1.sent ++ r2.sent ++ r3.sent ++ r4.sent ∧
    (∀ rStats : List DomainMemoryStat, l.DomainMemoryStats = .ok rStats →
      l.DomainGetInfo.rMaxMem ≠ 0 →
      r3.sent = (rStats.foldl (memoryStatRound promLabels) ⟨[], 0, 0⟩).sent ++
        [ ⟨.libvirtDomainMemoryStatUsedPercentDesc, .GaugeValue,
            F64.fin (100 -
              ((rStats.foldl (memoryStatRound promLabels) ⟨[], 0, 0⟩).freeMemoryBytes : ℚ) /
                ((l.DomainGetInfo.rMaxMem : ℚ) * 1024) * 100), promLabels⟩,
          ⟨.libvirtDomainMemoryStatFreePercentDesc, .GaugeValue,
            F64.fin (((rStats.foldl (memoryStatRound promLabels) ⟨[], 0, 0⟩).freeMemoryBytes : ℚ) /
              ((l.DomainGetInfo.rMaxMem : ℚ) * 1024) * 100), promLabels⟩,
          ⟨.libvirtDomainMemoryStatUsednocachePercentDesc, .GaugeValue,
            F64.fin ((((l.DomainGetInfo.rMaxMem : ℚ) * 1024
              - (rStats.foldl (memoryStatRound promLabels) ⟨[], 0, 0⟩).freeMemoryBytes
              - (rStats.foldl (memoryStatRound promLabels) ⟨[], 0, 0⟩).diskCached) /
              ((l.DomainGetInfo.rMaxMem : ℚ) * 1024)) * 100), promLabels⟩ ]) := by
  intro promLabels r1 r2 r3 r4
  refine ⟨fun x => rfl, ?_, ?_⟩
  · have h2 := CollectDomainNetworkInfo_no_panic promLabels l.Interfaces
    have h3 := CollectDomainMemoryStatInfo_no_panic promLabels l.DomainMemoryStats
      l.DomainGetInfo.rMaxMem
    unfold CollectDomain
    simp only [hinfo, hactive]
    unfold collectDomainLoop
    simp only [ne_eq, not_true_eq_false, if_false]
    rw [if_neg h1, if_neg h2, if_neg h3]
    split <;> rfl
  · intro rStats hstats hmax
    have e : r3 = CollectDomainMemoryStatInfo promLabels (.ok rStats) l.DomainGetInfo.rMaxMem := by
      simp only [r3, hstats]
    rw [e]
    simp only [CollectDomainMemoryStatInfo]
    rw [memoryPercentMetrics_fin _ _ _ _ hmax]

/-- Witness of C25: `rmaxmem` holds 1 KiB from another domain before the call;
the domain has 2 GiB of max memory and 1 GiB unused: `free_percent` is 50. -/
theorem CollectDomain_max_memory_of_same_call_witness :
    withDesc .libvirtDomainMemoryStatFreePercentDesc
        (CollectDomain sampleConsts sampleDomain memoryDomainCalls
          { emptyGlobals with rmaxmem := 1 }).sent =
      [⟨.libvirtDomainMemoryStatFreePercentDesc, .GaugeValue, F64.fin 50, sampleLabels⟩] := by
  have h := CollectDomain_max_memory_of_same_call sampleConsts sampleDomain memoryDomainCalls
    { emptyGlobals with rmaxmem := 1 } rfl rfl (by decide)
  rw [h.2.1, h.2.2 [⟨4, 1048576⟩, ⟨10, 524288⟩] rfl (by decide)]
  simp only [withDesc_append]
  have hA : ((List.foldl (memoryStatRound [sampleDomain.domainName, sampleDomain.instanceName,
      sampleDomain.projectName, sampleDomain.projectId]) ⟨[], 0, 0⟩
        [⟨4, 1048576⟩, ⟨10, 524288⟩]).freeMemoryBytes : ℚ) = 1073741824 := by
    have : (List.foldl (memoryStatRound [sampleDomain.domainName, sampleDomain.instanceName,
      sampleDomain.projectName, sampleDomain.projectId]) ⟨[], 0, 0⟩
        [⟨4, 1048576⟩, ⟨10, 524288⟩]).freeMemoryBytes = 1073741824 := by decide
    rw [this]; norm_num
  rw [hA]
  simp [withDesc, domainInfoMetrics, CollectDomainBlockDeviceInfo, blockDeviceLoop,
    CollectDomainNetworkInfo, CollectDomainVCPUInfo, memoryDomainCalls, memoryStatRound,
    DomainMemoryStatSwapIn, DomainMemoryStatSwapOut, DomainMemoryStatUnused,
    DomainMemoryStatAvailable, DomainMemoryStatUsable, DomainMemoryStatRss,
    DomainMemoryStatDiskCaches, sampleDomain, sampleLabels]
  norm_num

/-! ## C27: the number of label values -/

/-- The metrics of one disk have five label values, the info metric fourteen. -/
theorem blockDeviceRound_arity (domainName : String) (promLabels : List String) (disk : Disk)
    (l : DiskCalls) (diskTimeCache : DiskTimeCache) (h : promLabels.length = 4) :
    ∀ m ∈ (blockDeviceRound domainName promLabels disk l diskTimeCache).sent, m.arityOk := by
  have hc : ∀ bs, ∀ m ∈ blockCounterMetrics bs (promLabels ++ [disk.Target.Device]),
      m.arityOk := by
    intro bs
    simp [blockCounterMetrics, Metric.arityOk, Desc.variableLabels, h]
  have hl : ∀ cap lim rt wt,
      ∀ m ∈ blockLimitMetrics cap lim rt wt (promLabels ++ [disk.Target.Device]), m.arityOk := by
    intro cap lim rt wt
    simp [blockLimitMetrics, Metric.arityOk, Desc.variableLabels, h]
  have hp : ∀ cached bs now lim,
      ∀ m ∈ diskUsagePercentMetrics cached bs now lim (promLabels ++ [disk.Target.Device]),
        m.arityOk := by
    intro cached bs now lim m hm
    simp only [diskUsagePercentMetrics, List.mem_append] at hm
    rcases hm with ((((hm | hm) | hm) | hm) | hm) | hm <;>
      (split_ifs at hm
       · simp only [List.mem_singleton] at hm
         rw [hm]
         simp [Metric.arityOk, Desc.variableLabels, h]
       · simp at hm)
  have hi : (blockInfoMetric promLabels disk).arityOk := by
    simp [blockInfoMetric, Metric.arityOk, Desc.variableLabels, h]
  intro m hm
  unfold blockDeviceRound at hm
  repeat' split at hm
  all_goals simp only [List.mem_append, List.mem_singleton, List.not_mem_nil] at hm
  all_goals first
    | exact hc _ m hm
    | (rcases hm with hm | hm
       · exact hc _ m hm
       · exact hl _ _ _ _ m hm)
    | (rcases hm with ((hm | hm) | hm) | hm
       · exact hc _ m hm
       · exact hl _ _ _ _ m hm
       · exact hp _ _ _ _ m hm
       · rw [hm]; exact hi)

/-- Every metric of the block device collector has the declared number of labels. -/
theorem CollectDomainBlockDeviceInfo_arity (domainName : String) (promLabels : List String)
    (h : promLabels.length = 4) (disks : List (Disk × DiskCalls)) :
    ∀ (diskTimeCache : DiskTimeCache),
      ∀ m ∈ (CollectDomainBlockDeviceInfo domainName promLabels disks diskTimeCache).sent,
        m.arityOk := by
  unfold CollectDomainBlockDeviceInfo
  induction disks with
  | nil => intro c m hm; simp [blockDeviceLoop] at hm
  | cons dl rest ih =>
    obtain ⟨disk, l⟩ := dl
    intro c m hm
    have h1 := blockDeviceRound_arity domainName promLabels disk l c h
    simp only [blockDeviceLoop] at hm
    split at hm
    · simp only [List.mem_append] at hm
      rcases hm with hm | hm
      · exact h1 m hm
      · exact ih _ m hm
    · exact h1 m hm

/-- Every metric of the network collector has the declared number of labels. -/
theorem CollectDomainNetworkInfo_arity (promLabels : List String) (h : promLabels.length = 4)
    (ifaces : List (Interface × Except String InterfaceStats)) :
    ∀ m ∈ (CollectDomainNetworkInfo promLabels ifaces).sent, m.arityOk := by
  induction ifaces with
  | nil => intro m hm; simp [CollectDomainNetworkInfo] at hm
  | cons ia rest ih =>
    obtain ⟨iface, answer⟩ := ia
    intro m hm
    simp only [CollectDomainNetworkInfo] at hm
    split at hm
    · exact ih m hm
    · cases answer with
      | error err => simp at hm
      | ok st =>
        simp only [List.mem_append] at hm
        rcases hm with hm | hm
        · revert m
          simp [interfaceMetrics, Metric.arityOk, Desc.variableLabels, h]
        · exact ih m hm

/-- One round of the loop over the memory statistics keeps the number of labels right. -/
theorem memoryStatRound_arity (promLabels : List String) (h : promLabels.length = 4)
    (acc : MemoryAcc) (stat : DomainMemoryStat) (hacc : ∀ m ∈ acc.sent, m.arityOk) :
    ∀ m ∈ (memoryStatRound promLabels acc stat).sent, m.arityOk := by
  intro m hm
  unfold memoryStatRound at hm
  split_ifs at hm
  all_goals first
    | exact hacc m hm
    | (simp only [List.mem_append, List.mem_singleton] at hm
       rcases hm with hm | hm
       · exact hacc m hm
       · rw [hm]; simp [Metric.arityOk, Desc.variableLabels, h])

/-- Every metric of the memory collector has the declared number of labels. -/
theorem CollectDomainMemoryStatInfo_arity (promLabels : List String) (h : promLabels.length = 4)
    (rStats : Except String (List DomainMemoryStat)) (rmaxmem : Nat) :
    ∀ m ∈ (CollectDomainMemoryStatInfo promLabels rStats rmaxmem).sent, m.arityOk := by
  cases rStats with
  | error err => intro m hm; simp [CollectDomainMemoryStatInfo] at hm
  | ok rStats =>
    have hfold : ∀ (xs : List DomainMemoryStat) (acc : MemoryAcc),
        (∀ m ∈ acc.sent, m.arityOk) →
        ∀ m ∈ (xs.foldl (memoryStatRound promLabels) acc).sent, m.arityOk := by
      intro xs
      induction xs with
      | nil => intro acc hacc; exact hacc
      | cons stat rest ih =>
        intro acc hacc
        exact ih _ (memoryStatRound_arity promLabels h acc stat hacc)
    intro m hm
    simp only [CollectDomainMemoryStatInfo, List.mem_append] at hm
    rcases hm with hm | hm
    · exact hfold rStats ⟨[], 0, 0⟩ (by simp) m hm
    · revert m
      simp [memoryPercentMetrics, Metric.arityOk, Desc.variableLabels, h]

/-- Every metric of one vCPU parameter has the declared number of labels. -/
theorem vcpuParamRound_arity (promLabels : List String) (h : promLabels.length = 4)
    (param : TypedParam) (now : Int) (m0 : VcpuMap) :
    ∀ m ∈ (vcpuParamRound promLabels param now m0).sent, m.arityOk := by
  intro m hm
  unfold vcpuParamRound at hm
  repeat' split at hm
  all_goals try dsimp only at hm
  all_goals repeat' split at hm
  all_goals simp only [List.mem_append, List.mem_singleton, List.not_mem_nil, or_false,
    false_or] at hm
  all_goals first
    | (rw [hm]; simp [Metric.arityOk, Desc.variableLabels, h])
    | (rcases hm with hm | hm <;> rw [hm] <;> simp [Metric.arityOk, Desc.variableLabels, h])

/-- Every metric of the parameters of a record has the declared number of labels. -/
theorem vcpuParamsLoop_arity (promLabels : List String) (h : promLabels.length = 4)
    (params : List (TypedParam × Int)) :
    ∀ (m0 : VcpuMap), ∀ m ∈ (vcpuParamsLoop promLabels params m0).sent, m.arityOk := by
  induction params with
  | nil => intro m0 m hm; simp [vcpuParamsLoop] at hm
  | cons pn rest ih =>
    obtain ⟨param, now⟩ := pn
    intro m0 m hm
    have h1 := vcpuParamRound_arity promLabels h param now m0
    simp only [vcpuParamsLoop] at hm
    split at hm
    · exact h1 m hm
    · simp only [List.mem_append] at hm
      rcases hm with hm | hm
      · exact h1 m hm
      · exact ih _ m hm

/-- Every metric of the records has the declared number of labels. -/
theorem vcpuStatsLoop_arity (promLabels : List String) (h : promLabels.length = 4)
    (stats : List DomainStatsRecord) :
    ∀ (m0 : VcpuMap), ∀ m ∈ (vcpuStatsLoop promLabels stats m0).sent, m.arityOk := by
  induction stats with
  | nil => intro m0 m hm; simp [vcpuStatsLoop] at hm
  | cons stat rest ih =>
    intro m0 m hm
    have h1 := vcpuParamsLoop_arity promLabels h stat.Params m0
    simp only [vcpuStatsLoop] at hm
    split at hm
    · exact h1 m hm
    · simp only [List.mem_append] at hm
      rcases hm with hm | hm
      · exact h1 m hm
      · exact ih _ m hm

/-- Every metric of the vCPU collector has the declared number of labels. -/
theorem CollectDomainVCPUInfo_arity (domainName : String) (promLabels : List String)
    (h : promLabels.length = 4) (stats : Except String (List DomainStatsRecord))
    (vcpuTimeCache : VcpuTimeCache) :
    ∀ m ∈ (CollectDomainVCPUInfo domainName promLabels stats vcpuTimeCache).sent, m.arityOk := by
  cases stats with
  | error err => intro m hm; simp [CollectDomainVCPUInfo] at hm
  | ok recs =>
    intro m hm
    exact vcpuStatsLoop_arity promLabels h recs _ m hm

/-- The seven metrics sent after `l.DomainGetInfo` have the declared number of labels. -/
theorem domainInfoMetrics_arity (k : DomainStateConsts) (domain : domainMeta)
    (info : DomainInfo) : ∀ m ∈ domainInfoMetrics k domain info, m.arityOk := by
  simp [domainInfoMetrics, Metric.arityOk, Desc.variableLabels]

/-- Every metric of the loop over the collectors has the declared number of labels. -/
theorem collectDomainLoop_arity (domain : domainMeta) (promLabels : List String)
    (h : promLabels.length = 4) (l : DomainCalls) (sent0 : List Metric) (g : Globals)
    (h0 : ∀ m ∈ sent0, m.arityOk) :
    ∀ m ∈ (collectDomainLoop domain promLabels l sent0 g).sent, m.arityOk := by
  have h1 := CollectDomainBlockDeviceInfo_arity domain.domainName promLabels h l.Disks
    g.diskTimeCache
  have h2 := CollectDomainNetworkInfo_arity promLabels h l.Interfaces
  have h3 := CollectDomainMemoryStatInfo_arity promLabels h l.DomainMemoryStats g.rmaxmem
  have h4 := CollectDomainVCPUInfo_arity domain.libvirtDomain.Name promLabels h
    l.ConnectGetAllDomainStats g.vcpuTimeCache
  simp only [collectDomainLoop]
  split_ifs
  all_goals simp only [List.forall_mem_append]
  all_goals and_intros
  all_goals first | exact h0 | exact h1 | exact h2 | exact h3 | exact h4

/-- Every metric of `CollectDomain` has the declared number of labels. -/
theorem CollectDomain_arity (k : DomainStateConsts) (domain : domainMeta) (l : DomainCalls)
    (g : Globals) : ∀ m ∈ (CollectDomain k domain l g).sent, m.arityOk := by
  have h : [domain.domainName, domain.instanceName, domain.projectName,
      domain.projectId].length = 4 := rfl
  have h0 := domainInfoMetrics_arity k domain l.DomainGetInfo
  intro m hm
  cases hinfo : l.DomainGetInfo.err with
  | some err => simp [CollectDomain, hinfo] at hm
  | none =>
    cases hact : l.DomainIsActive with
    | error err =>
      simp only [CollectDomain, hinfo, hact] at hm
      exact h0 m hm
    | ok isActive =>
      simp only [CollectDomain, hinfo, hact] at hm
      split at hm
      · exact h0 m hm
      · exact collectDomainLoop_arity domain _ h l _ _ h0 m hm

/-- The four metrics of a storage pool have one label value. -/
theorem CollectStoragePoolInfo_arity (pool : StoragePool)
    (answer : Except String StoragePoolInfo) :
    ∀ m ∈ (CollectStoragePoolInfo pool answer).sent, m.arityOk := by
  cases answer <;> simp [CollectStoragePoolInfo, Metric.arityOk, Desc.variableLabels]

/-- Every metric of the loop over the storage pools has the declared number of labels. -/
theorem collectPoolsLoop_arity (StoragePoolGetInfo : StoragePool → Except String StoragePoolInfo)
    (pools : List StoragePool) :
    ∀ m ∈ (collectPoolsLoop StoragePoolGetInfo pools).sent, m.arityOk := by
  induction pools with
  | nil => intro m hm; simp [collectPoolsLoop] at hm
  | cons pool rest ih =>
    intro m hm
    have h1 := CollectStoragePoolInfo_arity pool (StoragePoolGetInfo pool)
    simp only [collectPoolsLoop] at hm
    split at hm
    · simp only [List.mem_append] at hm
      rcases hm with hm | hm
      · exact h1 m hm
      · exact ih m hm
    · exact h1 m hm

/-- Every metric of the loop over the domains has the declared number of labels. -/
theorem collectDomainsLoop_arity (k : DomainStateConsts) (answers : Domain → DomainAnswers)
    (domains : List domainMeta) :
    ∀ (g : Globals), ∀ m ∈ (collectDomainsLoop k answers domains g).sent, m.arityOk := by
  induction domains with
  | nil => intro g m hm; simp [collectDomainsLoop] at hm
  | cons domain rest ih =>
    intro g m hm
    have h1 := CollectDomain_arity k domain ((answers domain.libvirtDomain).calls domain) g
    simp only [collectDomainsLoop] at hm
    split at hm
    · simp only [List.mem_append] at hm
      rcases hm with hm | hm
      · exact h1 m hm
      · exact ih _ m hm
    · exact h1 m hm

/-- Every metric of a scrape has the declared number of labels. -/
theorem CollectFromLibvirt_arity (k : DomainStateConsts)
    (Unmarshal : String → Except String libvirt_schema.Domain) (l : LibvirtCalls) (g : Globals) :
    ∀ m ∈ (CollectFromLibvirt k Unmarshal l g).sent, m.arityOk := by
  have hup : ∀ m ∈ [(⟨.libvirtUpDesc, .GaugeValue, F64.fin 1, []⟩ : Metric)], m.arityOk := by
    simp [Metric.arityOk, Desc.variableLabels]
  have hnum : ∀ n : Nat,
      ∀ m ∈ [(⟨.libvirtDomainNumbers, .GaugeValue, F64.ofNat n, []⟩ : Metric)], m.arityOk := by
    simp [Metric.arityOk, Desc.variableLabels]
  unfold CollectFromLibvirt
  cases l.ConnectToURI with
  | some err => simp
  | none =>
    simp only
    cases DomainsFromLibvirt Unmarshal l.ConnectListAllDomains l.DomainGetXMLDesc with
    | error err => exact hup
    | ok domains =>
      have hd := collectDomainsLoop_arity k l.domain domains g
      simp only
      split
      · cases l.ConnectListAllStoragePools with
        | error err =>
          simp only [List.forall_mem_append]
          exact ⟨⟨hup, hnum _⟩, hd⟩
        | ok pools =>
          have hp := collectPoolsLoop_arity l.StoragePoolGetInfo pools
          simp only
          split <;>
            (simp only [List.forall_mem_append]
             exact ⟨⟨⟨hup, hnum _⟩, hd⟩, hp⟩)
      · simp only [List.forall_mem_append]
        exact ⟨⟨hup, hnum _⟩, hd⟩

/-- C27. Every metric that `CollectFromLibvirt`, `CollectDomain` with its four
collectors, or `CollectStoragePoolInfo` builds has as many label values as its
descriptor declares variable labels, for every domain, disk, interface, vCPU
parameter and pool. -/
theorem label_arity_correct (k : DomainStateConsts) :
    (∀ (Unmarshal : String → Except String libvirt_schema.Domain) (l : LibvirtCalls)
        (g : Globals), ∀ m ∈ (CollectFromLibvirt k Unmarshal l g).sent,
      m.labels.length = m.desc.variableLabels.length) ∧
    (∀ (domain : domainMeta) (l : DomainCalls) (g : Globals),
      ∀ m ∈ (CollectDomain k domain l g).sent,
        m.labels.length = m.desc.variableLabels.length) ∧
    (∀ (pool : StoragePool) (answer : Except String StoragePoolInfo),
      ∀ m ∈ (CollectStoragePoolInfo pool answer).sent,
        m.labels.length = m.desc.variableLabels.length) :=
  ⟨fun Unmarshal l g => CollectFromLibvirt_arity k Unmarshal l g,
   fun domain l g => CollectDomain_arity k domain l g,
   fun pool answer => CollectStoragePoolInfo_arity pool answer⟩

/-! ## The loop of `CollectFromLibvirt` over the domains -/

/-- Function `CollectDomain` returns or panics. -/
theorem CollectDomain_exit_ne_next (k : DomainStateConsts) (domain : domainMeta)
    (l : DomainCalls) (g : Globals) : (CollectDomain k domain l g).exit ≠ .next := by
  cases hinfo : l.DomainGetInfo.err with
  | some err => simp [CollectDomain, hinfo]
  | none =>
    cases hact : l.DomainIsActive with
    | error err => simp [CollectDomain, hinfo, hact]
    | ok isActive =>
      simp only [CollectDomain, hinfo, hact]
      split
      · simp
      · simp only [collectDomainLoop]
        split_ifs <;> simp

/-- An error that `CollectDomain` returns is that of `l.DomainGetInfo` or of
`l.DomainIsActive`. -/
theorem CollectDomain_error (k : DomainStateConsts) (domain : domainMeta)
    (l : DomainCalls) (g : Globals) (err : String)
    (h : (CollectDomain k domain l g).exit = .returned (some err)) :
    l.DomainGetInfo.err = some err ∨
      (l.DomainGetInfo.err = none ∧ l.DomainIsActive = .error err) := by
  cases hinfo : l.DomainGetInfo.err with
  | some e =>
    left
    simp only [CollectDomain, hinfo, Exit.returned.injEq] at h
    exact h
  | none =>
    right
    refine ⟨rfl, ?_⟩
    cases hact : l.DomainIsActive with
    | error e =>
      simp only [CollectDomain, hinfo, hact, Exit.returned.injEq, Option.some.injEq] at h
      rw [h]
    | ok isActive =>
      exfalso
      simp only [CollectDomain, hinfo, hact] at h
      split at h
      · simp at h
      · simp only [collectDomainLoop] at h
        split_ifs at h
        all_goals simp at h

/-- The loop over the domains, when its first part runs to the end. -/
theorem collectDomainsLoop_append (k : DomainStateConsts) (answers : Domain → DomainAnswers)
    (xs ys : List domainMeta) :
    ∀ g : Globals, (collectDomainsLoop k answers xs g).exit = .next →
      collectDomainsLoop k answers (xs ++ ys) g =
        ⟨(collectDomainsLoop k answers xs g).sent ++
            (collectDomainsLoop k answers ys (collectDomainsLoop k answers xs g).globals).sent,
          (collectDomainsLoop k answers ys (collectDomainsLoop k answers xs g).globals).globals,
          (collectDomainsLoop k answers ys (collectDomainsLoop k answers xs g).globals).exit⟩ := by
  induction xs with
  | nil => intro g _; simp [collectDomainsLoop]
  | cons x rest ih =>
    intro g h
    have hne := CollectDomain_exit_ne_next k x ((answers x.libvirtDomain).calls x) g
    rw [List.cons_append]
    simp only [collectDomainsLoop] at h ⊢
    split at h
    · rename_i heq
      simp only [heq]
      rw [ih _ h]
      simp only [List.append_assoc]
    · exact absurd h hne

/-- The loop over the domains at a domain for which `CollectDomain` returns an error. -/
theorem collectDomainsLoop_error (k : DomainStateConsts) (answers : Domain → DomainAnswers)
    (domain : domainMeta) (rest : List domainMeta) (g : Globals) (err : String)
    (h : (CollectDomain k domain ((answers domain.libvirtDomain).calls domain) g).exit =
      .returned (some err)) :
    collectDomainsLoop k answers (domain :: rest) g =
      ⟨(CollectDomain k domain ((answers domain.libvirtDomain).calls domain) g).sent,
        (CollectDomain k domain ((answers domain.libvirtDomain).calls domain) g).globals,
        .returned (some err)⟩ := by
  simp only [collectDomainsLoop, h]

/-! ## C28: domains whose description cannot be read -/

/-- A round of `DomainsFromLibvirt` that fails leaves the zero value. -/
theorem domainsRound_failed (Unmarshal : String → Except String libvirt_schema.Domain)
    (domain : Domain) (xmlDesc : Except String String)
    (h : domainFails Unmarshal xmlDesc = true) :
    domainsRound Unmarshal domain xmlDesc = domainMeta.zero := by
  cases xmlDesc with
  | error err => rfl
  | ok x =>
    simp only [domainFails] at h
    simp only [domainsRound]
    cases hu : Unmarshal x with
    | error err => rfl
    | ok schema => rw [hu] at h; simp [isError] at h

/-- A scrape whose connection and domain listing succeed: the two gauges, then
the loop over the domains, then the storage pools. -/
theorem CollectFromLibvirt_of_listing (k : DomainStateConsts)
    (Unmarshal : String → Except String libvirt_schema.Domain) (l : LibvirtCalls) (g : Globals)
    (domains : List Domain) (hconn : l.ConnectToURI = none)
    (hlist : l.ConnectListAllDomains = .ok domains) :
    CollectFromLibvirt k Unmarshal l g =
      (let metas := domains.map (fun d => domainsRound Unmarshal d (l.DomainGetXMLDesc d))
       let sent1 : List Metric :=
        [⟨.libvirtUpDesc, .GaugeValue, F64.fin 1, []⟩,
         ⟨.libvirtDomainNumbers, .GaugeValue, F64.ofNat domains.length, []⟩]
       let r := collectDomainsLoop k l.domain metas g
       match r.exit with
       | .next =>
         match l.ConnectListAllStoragePools with
         | .error err => ⟨sent1 ++ r.sent, r.globals, .returned (some err)⟩
         | .ok pools =>
           let r2 := collectPoolsLoop l.StoragePoolGetInfo pools
           match r2.exit with
           | .next => ⟨sent1 ++ r.sent ++ r2.sent, r.globals, .returned none⟩
           | e => ⟨sent1 ++ r.sent ++ r2.sent, r.globals, e⟩
       | e => ⟨sent1 ++ r.sent, r.globals, e⟩) := by
  simp only [CollectFromLibvirt, hconn, hlist, DomainsFromLibvirt, List.length_map]
  rfl

/-- The metrics of a scrape begin with the two gauges and those of the domain loop. -/
theorem CollectFromLibvirt_sent (k : DomainStateConsts)
    (Unmarshal : String → Except String libvirt_schema.Domain) (l : LibvirtCalls) (g : Globals)
    (domains : List Domain) (hconn : l.ConnectToURI = none)
    (hlist : l.ConnectListAllDomains = .ok domains) :
    ∃ tail, (CollectFromLibvirt k Unmarshal l g).sent =
      [⟨.libvirtUpDesc, .GaugeValue, F64.fin 1, []⟩,
       ⟨.libvirtDomainNumbers, .GaugeValue, F64.ofNat domains.length, []⟩] ++
      (collectDomainsLoop k l.domain
        (domains.map (fun d => domainsRound Unmarshal d (l.DomainGetXMLDesc d))) g).sent ++
      tail := by
  rw [CollectFromLibvirt_of_listing k Unmarshal l g domains hconn hlist]
  simp only
  split
  · split
    · exact ⟨[], by simp⟩
    · split
      · exact ⟨_, rfl⟩
      · exact ⟨_, rfl⟩
  · exact ⟨[], by simp⟩

/-- The metrics of the loop over the domains begin with those of the first domain. -/
theorem collectDomainsLoop_cons_sent (k : DomainStateConsts) (answers : Domain → DomainAnswers)
    (domain : domainMeta) (rest : List domainMeta) (g : Globals) :
    ∃ tail, (collectDomainsLoop k answers (domain :: rest) g).sent =
      (CollectDomain k domain ((answers domain.libvirtDomain).calls domain) g).sent ++ tail := by
  simp only [collectDomainsLoop]
  split
  · exact ⟨_, rfl⟩
  · exact ⟨[], by simp⟩

/-- C28. When the connection and the listing succeed and the description of a
listed domain `d` cannot be fetched or parsed, `DomainsFromLibvirt` returns one
element for every listed domain, the one of `d` being the zero value of
`domainMeta` (with an empty `domainName`); `CollectFromLibvirt` sends the gauge
`libvirt_domains` with the number of listed domains, and when the loop comes to
`d` it calls `CollectDomain` with that zero value. -/
theorem DomainsFromLibvirt_keeps_failed_domains (k : DomainStateConsts)
    (Unmarshal : String → Except String libvirt_schema.Domain) (l : LibvirtCalls) (g : Globals)
    (pre post : List Domain) (d : Domain)
    (hconn : l.ConnectToURI = none)
    (hlist : l.ConnectListAllDomains = .ok (pre ++ d :: post))
    (hfail : domainFails Unmarshal (l.DomainGetXMLDesc d) = true) :
    let metas := fun (ds : List Domain) =>
      ds.map (fun x => domainsRound Unmarshal x (l.DomainGetXMLDesc x))
    let r := collectDomainsLoop k l.domain (metas pre) g
    DomainsFromLibvirt Unmarshal l.ConnectListAllDomains l.DomainGetXMLDesc =
      .ok (metas pre ++ domainMeta.zero :: metas post) ∧
    (metas pre ++ domainMeta.zero :: metas post).length = (pre ++ d :: post).length ∧
    domainMeta.zero.domainName = "" ∧
    (CollectFromLibvirt k Unmarshal l g).sent.take 2 =
      [⟨.libvirtUpDesc, .GaugeValue, F64.fin 1, []⟩,
       ⟨.libvirtDomainNumbers, .GaugeValue, F64.ofNat (pre ++ d :: post).length, []⟩] ∧
    (r.exit = .next →
      ∃ tail, (CollectFromLibvirt k Unmarshal l g).sent =
        [⟨.libvirtUpDesc, .GaugeValue, F64.fin 1, []⟩,
         ⟨.libvirtDomainNumbers, .GaugeValue, F64.ofNat (pre ++ d :: post).length, []⟩] ++
        r.sent ++
        (CollectDomain k domainMeta.zero
          ((l.domain domainMeta.zero.libvirtDomain).calls domainMeta.zero) r.globals).sent ++
        tail) := by
  intro metas r
  have hz : domainsRound Unmarshal d (l.DomainGetXMLDesc d) = domainMeta.zero :=
    domainsRound_failed Unmarshal d _ hfail
  have hmap : (pre ++ d :: post).map (fun x => domainsRound Unmarshal x (l.DomainGetXMLDesc x)) =
      metas pre ++ domainMeta.zero :: metas post := by
    simp only [List.map_append, List.map_cons, hz, metas]
  obtain ⟨t1, ht1⟩ := CollectFromLibvirt_sent k Unmarshal l g _ hconn hlist
  refine ⟨?_, ?_, rfl, ?_, ?_⟩
  · simp only [DomainsFromLibvirt, hlist, hmap]
  · simp [metas]
  · rw [ht1]; rfl
  · intro hr
    rw [ht1, hmap, collectDomainsLoop_append k l.domain _ _ g hr]
    obtain ⟨t2, ht2⟩ := collectDomainsLoop_cons_sent k l.domain domainMeta.zero (metas post)
      r.globals
    simp only [r] at ht2 ⊢
    rw [ht2]
    exact ⟨t2 ++ t1, by simp only [List.append_assoc]⟩

/-- Witness of C28: `instance-0001` and `instance-0002` are listed and the
description of `instance-0002` cannot be fetched: the second element is the
zero value and the gauge `libvirt_domains` is 2. -/
theorem DomainsFromLibvirt_keeps_failed_domains_witness :
    DomainsFromLibvirt sampleUnmarshal
        (sampleScrape [⟨"instance-0001"⟩, ⟨"instance-0002"⟩]).ConnectListAllDomains
        (sampleScrape [⟨"instance-0001"⟩, ⟨"instance-0002"⟩]).DomainGetXMLDesc =
      .ok [sampleDomain, domainMeta.zero] ∧
    (CollectFromLibvirt sampleConsts sampleUnmarshal
        (sampleScrape [⟨"instance-0001"⟩, ⟨"instance-0002"⟩]) emptyGlobals).sent.take 2 =
      [⟨.libvirtUpDesc, .GaugeValue, F64.fin 1, []⟩,
       ⟨.libvirtDomainNumbers, .GaugeValue, F64.ofNat 2, []⟩] :=
  have h := DomainsFromLibvirt_keeps_failed_domains sampleConsts sampleUnmarshal
    (sampleScrape [⟨"instance-0001"⟩, ⟨"instance-0002"⟩]) emptyGlobals
    [⟨"instance-0001"⟩] [] ⟨"instance-0002"⟩ rfl rfl (by decide)
  ⟨h.1, h.2.2.2.1⟩

/-! ## C29: an error of `CollectDomain` ends the scrape -/

/-- C29. The connection and the listing succeed, `CollectDomain` returns nil
for the domains listed before `d` and an error for `d`.  Then
`CollectFromLibvirt` returns that error, which is the error of
`l.DomainGetInfo` or of `l.DomainIsActive` for `d`; what it has sent are the
two gauges, the metrics of the domains before `d` and those that `CollectDomain`
sent for `d` before the error: nothing for a domain listed after `d`, nothing
for a storage pool. -/
theorem CollectFromLibvirt_stops_at_first_domain_error (k : DomainStateConsts)
    (Unmarshal : String → Except String libvirt_schema.Domain) (l : LibvirtCalls) (g : Globals)
    (pre post : List Domain) (d : Domain) (err : String)
    (hconn : l.ConnectToURI = none)
    (hlist : l.ConnectListAllDomains = .ok (pre ++ d :: post))
    (hpre : (collectDomainsLoop k l.domain
      (pre.map (fun x => domainsRound Unmarshal x (l.DomainGetXMLDesc x))) g).exit = .next)
    (hd : (CollectDomain k (domainsRound Unmarshal d (l.DomainGetXMLDesc d))
      ((l.domain (domainsRound Unmarshal d (l.DomainGetXMLDesc d)).libvirtDomain).calls
        (domainsRound Unmarshal d (l.DomainGetXMLDesc d)))
      (collectDomainsLoop k l.domain
        (pre.map (fun x => domainsRound Unmarshal x (l.DomainGetXMLDesc x))) g).globals).exit =
      .returned (some err)) :
    let domain := domainsRound Unmarshal d (l.DomainGetXMLDesc d)
    let r := collectDomainsLoop k l.domain
      (pre.map (fun x => domainsRound Unmarshal x (l.DomainGetXMLDesc x))) g
    let rd := CollectDomain k domain ((l.domain domain.libvirtDomain).calls domain) r.globals
    (CollectFromLibvirt k Unmarshal l g).exit = .returned (some err) ∧
    (CollectFromLibvirt k Unmarshal l g).sent =
      [⟨.libvirtUpDesc, .GaugeValue, F64.fin 1, []⟩,
       ⟨.libvirtDomainNumbers, .GaugeValue, F64.ofNat (pre ++ d :: post).length, []⟩] ++
      r.sent ++ rd.sent ∧
    ((l.domain domain.libvirtDomain).DomainGetInfo.err = some err ∨
      ((l.domain domain.libvirtDomain).DomainGetInfo.err = none ∧
        (l.domain domain.libvirtDomain).DomainIsActive = .error err)) := by
  intro domain r rd
  have hloop : collectDomainsLoop k l.domain
      ((pre ++ d :: post).map (fun x => domainsRound Unmarshal x (l.DomainGetXMLDesc x))) g =
      ⟨r.sent ++ rd.sent, rd.globals, .returned (some err)⟩ := by
    rw [List.map_append, List.map_cons, collectDomainsLoop_append k l.domain _ _ g hpre,
      collectDomainsLoop_error k l.domain domain _ r.globals err hd]
  have e := CollectFromLibvirt_of_listing k Unmarshal l g _ hconn hlist
  simp only [hloop] at e
  rw [e]
  refine ⟨rfl, by simp only [List.append_assoc], ?_⟩
  exact CollectDomain_error k domain _ r.globals err hd

/-- Witness of C29: `instance-0002`, whose description cannot be fetched, is
listed before `instance-0001`; `l.DomainGetInfo` fails for its zero-valued
handle and the scrape ends with the two gauges sent. -/
theorem CollectFromLibvirt_stops_at_first_domain_error_witness :
    (CollectFromLibvirt sampleConsts sampleUnmarshal
        (sampleScrape [⟨"instance-0002"⟩, ⟨"instance-0001"⟩]) emptyGlobals).exit =
      .returned (some "Domain not found") ∧
    (CollectFromLibvirt sampleConsts sampleUnmarshal
        (sampleScrape [⟨"instance-0002"⟩, ⟨"instance-0001"⟩]) emptyGlobals).sent =
      [⟨.libvirtUpDesc, .GaugeValue, F64.fin 1, []⟩,
       ⟨.libvirtDomainNumbers, .GaugeValue, F64.ofNat 2, []⟩] :=
  have h := CollectFromLibvirt_stops_at_first_domain_error sampleConsts sampleUnmarshal
    (sampleScrape [⟨"instance-0002"⟩, ⟨"instance-0001"⟩]) emptyGlobals
    [] [⟨"instance-0001"⟩] ⟨"instance-0002"⟩ "Domain not found" rfl rfl rfl rfl
  ⟨h.1, h.2.1⟩

/-- Witness of C27: the scrape of `instance-0001`, shut off, and of the pool
`default`; the domain info metric has seven label values. -/
theorem label_arity_correct_witness :
    ∀ m ∈ (CollectFromLibvirt sampleConsts sampleUnmarshal
        (sampleScrape [⟨"instance-0001"⟩]) emptyGlobals).sent,
      m.labels.length = m.desc.variableLabels.length :=
  (label_arity_correct sampleConsts).1 sampleUnmarshal (sampleScrape [⟨"instance-0001"⟩])
    emptyGlobals

/-! ## C21: overlapping scrapes -/

/-- The cache after a `time` parameter of vCPU 0. -/
theorem vcpuParamRound_time_zero (promLabels : List String) (c : Nat) (now : Int) (m : VcpuMap) :
    (vcpuParamRound promLabels ⟨"vcpu.0.time", .uint64 c⟩ now m).cache =
      Function.update m 0 (some ⟨c, ((m 0).getD vcpuCache.zero).lastDelay, now⟩) ∧
    (vcpuParamRound promLabels ⟨"vcpu.0.time", .uint64 c⟩ now m).panicked = false := by
  have r := vcpuParamRound_time promLabels ⟨"vcpu.0.time", .uint64 c⟩ now m "0".toList c
    (show currentMatchString "vcpu.0.time".toList = false by decide)
    (show maximumMatchString "vcpu.0.time".toList = false by decide)
    (show vcpuFindStringSubmatch "vcpu.0.time".toList = some ("0".toList, "time".toList)
      by decide) rfl
  have hA : Atoi "0".toList = 0 := by decide
  rw [r, hA]
  exact ⟨rfl, rfl⟩

/-- The cache after a `wait` parameter of vCPU 0 that has an entry. -/
theorem vcpuParamRound_wait_zero (promLabels : List String) (c : Nat) (now : Int) (m : VcpuMap)
    (cached : vcpuCache) (hm : m 0 = some cached) :
    (vcpuParamRound promLabels ⟨"vcpu.0.wait", .uint64 c⟩ now m).cache =
      Function.update m 0 (some ⟨cached.lastTime, c, now⟩) ∧
    (vcpuParamRound promLabels ⟨"vcpu.0.wait", .uint64 c⟩ now m).panicked = false := by
  have hA : Atoi "0".toList = 0 := by decide
  have r := vcpuParamRound_wait_found promLabels ⟨"vcpu.0.wait", .uint64 c⟩ now m "0".toList c
    cached
    (show currentMatchString "vcpu.0.wait".toList = false by decide)
    (show maximumMatchString "vcpu.0.wait".toList = false by decide)
    (show vcpuFindStringSubmatch "vcpu.0.wait".toList = some ("0".toList, "wait".toList)
      by decide) rfl (by rw [hA]; exact hm)
  rw [r, hA]
  exact ⟨rfl, rfl⟩

/-- The entry of vCPU 0 after the `time` and then the `wait` parameter of one scrape. -/
theorem vcpuParamsLoop_time_wait (promLabels : List String) (c1 c2 : Nat) (t1 t2 : Int)
    (m : VcpuMap) :
    (vcpuParamsLoop promLabels
      [(⟨"vcpu.0.time", .uint64 c1⟩, t1), (⟨"vcpu.0.wait", .uint64 c2⟩, t2)] m).cache 0 =
      some ⟨c1, c2, t2⟩ := by
  obtain ⟨hc1, hp1⟩ := vcpuParamRound_time_zero promLabels c1 t1 m
  obtain ⟨hc2, hp2⟩ := vcpuParamRound_wait_zero promLabels c2 t2
    (Function.update m 0 (some ⟨c1, ((m 0).getD vcpuCache.zero).lastDelay, t1⟩))
    ⟨c1, ((m 0).getD vcpuCache.zero).lastDelay, t1⟩ (Function.update_same _ _ _)
  simp only [vcpuParamsLoop, hp1, hc1, hp2, hc2, Bool.false_eq_true, if_false,
    Function.update_same]

/-- C21, counterexample. Two scrapes of vCPU 0 of one domain overlap; no lock
orders them, and their parameters are processed in the order `time` of the
first, `time` of the second, `wait` of the second, `wait` of the first.  The
entry then holds `lastTime` of the second scrape and `lastDelay` of the first,
which is the entry after neither of the two serial orders. -/
theorem vcpuOverlapped_not_serial :
    vcpuOverlapped sampleLabels [false, true, true, false] scrapeFirst scrapeSecond
        (Function.update (fun _ => none) 0 (some ⟨1000000000, 1000000000, 0⟩)) 0 =
      some ⟨3000000000, 1500000000, 11000002000⟩ ∧
    (vcpuParamsLoop sampleLabels scrapeSecond
        (vcpuParamsLoop sampleLabels scrapeFirst
          (Function.update (fun _ => none) 0 (some ⟨1000000000, 1000000000, 0⟩))).cache).cache 0 =
      some ⟨3000000000, 1700000000, 11000001000⟩ ∧
    (vcpuParamsLoop sampleLabels scrapeFirst
        (vcpuParamsLoop sampleLabels scrapeSecond
          (Function.update (fun _ => none) 0 (some ⟨1000000000, 1000000000, 0⟩))).cache).cache 0 =
      some ⟨2000000000, 1500000000, 11000002000⟩ ∧
    vcpuOverlapped sampleLabels [false, true, true, false] scrapeFirst scrapeSecond
        (Function.update (fun _ => none) 0 (some ⟨1000000000, 1000000000, 0⟩)) 0 ≠
      (vcpuParamsLoop sampleLabels scrapeSecond
        (vcpuParamsLoop sampleLabels scrapeFirst
          (Function.update (fun _ => none) 0 (some ⟨1000000000, 1000000000, 0⟩))).cache).cache 0 ∧
    vcpuOverlapped sampleLabels [false, true, true, false] scrapeFirst scrapeSecond
        (Function.update (fun _ => none) 0 (some ⟨1000000000, 1000000000, 0⟩)) 0 ≠
      (vcpuParamsLoop sampleLabels scrapeFirst
        (vcpuParamsLoop sampleLabels scrapeSecond
          (Function.update (fun _ => none) 0 (some ⟨1000000000, 1000000000, 0⟩))).cache).cache 0 := by
  have h0 : vcpuOverlapped sampleLabels [false, true, true, false] scrapeFirst scrapeSecond
      (Function.update (fun _ => none) 0 (some ⟨1000000000, 1000000000, 0⟩)) 0 =
      some ⟨3000000000, 1500000000, 11000002000⟩ := by decide
  have h1 : (vcpuParamsLoop sampleLabels scrapeSecond
      (vcpuParamsLoop sampleLabels scrapeFirst
        (Function.update (fun _ => none) 0 (some ⟨1000000000, 1000000000, 0⟩))).cache).cache 0 =
      some ⟨3000000000, 1700000000, 11000001000⟩ :=
    vcpuParamsLoop_time_wait sampleLabels _ _ _ _ _
  have h2 : (vcpuParamsLoop sampleLabels scrapeFirst
      (vcpuParamsLoop sampleLabels scrapeSecond
        (Function.update (fun _ => none) 0 (some ⟨1000000000, 1000000000, 0⟩))).cache).cache 0 =
      some ⟨2000000000, 1500000000, 11000002000⟩ :=
    vcpuParamsLoop_time_wait sampleLabels _ _ _ _ _
  refine ⟨h0, h1, h2, ?_, ?_⟩
  · rw [h0, h1]; decide
  · rw [h0, h2]; decide

/-- C21, amended. The caches have no lock.  With the loop body of one
parameter taken as uninterrupted: two scrapes of vCPU 0 that run one after the
other leave the entry of the later one, `lastTime`, `lastDelay` and
`lastTimestamp` from its `time` and `wait` parameters; when they overlap in the
order `time` of the first, `time` of the second, `wait` of the second, `wait`
of the first, the entry holds `lastTime` of the second scrape with `lastDelay`
and `lastTimestamp` of the first. -/
theorem vcpuOverlapped_mixed_entry (promLabels : List String) (a1 a2 b1 b2 : Nat)
    (tA1 tA2 tB1 tB2 : Int) (m : VcpuMap) :
    (vcpuParamsLoop promLabels
        [(⟨"vcpu.0.time", .uint64 b1⟩, tB1), (⟨"vcpu.0.wait", .uint64 b2⟩, tB2)]
        (vcpuParamsLoop promLabels
          [(⟨"vcpu.0.time", .uint64 a1⟩, tA1), (⟨"vcpu.0.wait", .uint64 a2⟩, tA2)] m).cache).cache
        0 = some ⟨b1, b2, tB2⟩ ∧
    (vcpuParamsLoop promLabels
        [(⟨"vcpu.0.time", .uint64 a1⟩, tA1), (⟨"vcpu.0.wait", .uint64 a2⟩, tA2)]
        (vcpuParamsLoop promLabels
          [(⟨"vcpu.0.time", .uint64 b1⟩, tB1), (⟨"vcpu.0.wait", .uint64 b2⟩, tB2)] m).cache).cache
        0 = some ⟨a1, a2, tA2⟩ ∧
    vcpuOverlapped promLabels [false, true, true, false]
        [(⟨"vcpu.0.time", .uint64 a1⟩, tA1), (⟨"vcpu.0.wait", .uint64 a2⟩, tA2)]
        [(⟨"vcpu.0.time", .uint64 b1⟩, tB1), (⟨"vcpu.0.wait", .uint64 b2⟩, tB2)] m 0 =
      some ⟨b1, a2, tA2⟩ := by
  refine ⟨vcpuParamsLoop_time_wait promLabels _ _ _ _ _,
    vcpuParamsLoop_time_wait promLabels _ _ _ _ _, ?_⟩
  obtain ⟨hc1, hp1⟩ := vcpuParamRound_time_zero promLabels a1 tA1 m
  obtain ⟨hc2, hp2⟩ := vcpuParamRound_time_zero promLabels b1 tB1
    (Function.update m 0 (some ⟨a1, ((m 0).getD vcpuCache.zero).lastDelay, tA1⟩))
  simp only [Function.update_same, Option.getD_some, Function.update_idem] at hc2
  obtain ⟨hc3, hp3⟩ := vcpuParamRound_wait_zero promLabels b2 tB2
    (Function.update m 0 (some ⟨b1, ((m 0).getD vcpuCache.zero).lastDelay, tB1⟩))
    ⟨b1, ((m 0).getD vcpuCache.zero).lastDelay, tB1⟩ (Function.update_same _ _ _)
  simp only [Function.update_idem] at hc3
  obtain ⟨hc4, hp4⟩ := vcpuParamRound_wait_zero promLabels a2 tA2
    (Function.update m 0 (some ⟨b1, b2, tB2⟩)) ⟨b1, b2, tB2⟩ (Function.update_same _ _ _)
  simp only [vcpuOverlapped, hp1, hc1, hp2, hc2, hp3, hc3, hp4, hc4, Bool.false_eq_true,
    if_false, Function.update_same]

end LibvirtExporter
